import Mathlib

/-! # neural-network-transpiler: the NNAPI code-generation backend

A shallow embedding of `src/cpp-gen.cc` and of the data model of `src/model.h`.

Conventions of the embedding

* `std::vector<T>` is `List T`; a `const T&` member is the referenced value (the IR is
  immutable once parsed).
* C++ `int`, `long` and `size_t` values are `Int` / `Nat`.  The byte sizes and byte offsets
  (`TensorSize`, the `start` of the marshalling functions, `ModelGenJni::TotalSize`) are
  `int` values that can leave 32 bits: each of their products and sums is reduced to the
  range of `int` (`wrapInt32`), and so is the `long` to `int` narrowing of the zero point.
  Counters and operand indices are bounded by the number of tensors and operators and are
  kept exact.
* `float` values are rationals (`Float32`); NaN and infinities are not represented.
* The mutable members `count_operands_` and `tensor_pos_` of `ModelGen` are the fields of
  the state record `ModelGen`, passed in and returned explicitly.
* `FATAL(...)` aborts: functions that can reach it return `Except Error _`.
* Generated text is kept as a list of statements (`Stmt`), one constructor per emitted
  statement, each documented with the text it stands for; operand index lists stay lists.
* The enumerations are those of the default build (`NEWER_TENSORFLOW` undefined).
-/

namespace nnt

/-! ## Data model (`model.h`) -/

/-- A `float` of the source, as an exact rational. -/
abbrev Float32 := Rat

/-- An `u_char` of a weight buffer. -/
abbrev Byte := Fin 256

/-- The class `Buffer`: an owned byte sequence. -/
structure Buffer where
  buf_ : List Byte
  deriving DecidableEq, Repr

/-- `Buffer::Data()`. -/
def Buffer.Data (b : Buffer) : List Byte := b.buf_

/-- `enum class ActivationFunctionType : int8_t`. -/
inductive ActivationFunctionType
  | NONE | RELU | RELU1 | RELU6 | TANH | SIGN_BIT
  deriving DecidableEq, Repr

/-- `static_cast<int>` of an `ActivationFunctionType`. -/
def ActivationFunctionType.toInt : ActivationFunctionType → Int
  | .NONE => 0 | .RELU => 1 | .RELU1 => 2 | .RELU6 => 3 | .TANH => 4 | .SIGN_BIT => 5

/-- `enum class TensorType : int8_t` (without `BOOL`). -/
inductive TensorType
  | FLOAT32 | FLOAT16 | INT32 | UINT8 | INT8 | INT64 | STRING
  deriving DecidableEq, Repr

/-- `enum class Padding : int8_t { UNKNOWN = 0, SAME, VALID }`. -/
inductive Padding
  | UNKNOWN | SAME | VALID
  deriving DecidableEq, Repr

/-- `static_cast<int>` of a `Padding`. -/
def Padding.toInt : Padding → Int
  | .UNKNOWN => 0 | .SAME => 1 | .VALID => 2

/-- `enum class BuiltinOperator` (without `FLOOR`). -/
inductive BuiltinOperator
  | NONE | ADD | AVERAGE_POOL_2D | CONCATENATION | CONV_2D | DEPTHWISE_CONV_2D
  | DEQUANTIZE | EMBEDDING_LOOKUP | FULLY_CONNECTED | HASHTABLE_LOOKUP
  | L2_NORMALIZATION | L2_POOL_2D | LOCAL_RESPONSE_NORMALIZATION | LOGISTIC
  | LSH_PROJECTION | LSTM | MAX_POOL_2D | MUL | RELU | RELU1 | RELU6 | RESHAPE
  | RESIZE_BILINEAR | RNN | SOFTMAX | SPACE_TO_DEPTH | SVDF | TANH
  | CONCAT_EMBEDDINGS | SKIP_GRAM | CALL | CUSTOM | EMBEDDING_LOOKUP_SPARSE | PAD
  | UNIDIRECTIONAL_SEQUENCE_RNN | GATHER | BATCH_TO_SPACE_ND | SPACE_TO_BATCH_ND
  | TRANSPOSE | MEAN | SUB | DIV | SQUEEZE | UNIDIRECTIONAL_SEQUENCE_LSTM
  | STRIDED_SLICE | BIDIRECTIONAL_SEQUENCE_RNN | EXP | TOPK_V2 | SPLIT | LOG_SOFTMAX
  | DELEGATE | BIDIRECTIONAL_SEQUENCE_LSTM | CAST | PRELU | MAXIMUM | ARG_MAX
  | MINIMUM | LESS | NEG
  deriving DecidableEq, Repr

/-- `enum class BuiltinOptionsType` (the `#else` branch: `MaximumOptions`). -/
inductive BuiltinOptionsType
  | None | Conv2DOptions | DepthwiseConv2DOptions | ConcatEmbeddingsOptions
  | LSHProjectionOptions | Pool2DOptions | SVDFOptions | RNNOptions
  | FullyConnectedOptions | SoftmaxOptions | ConcatenationOptions | AddOptions
  | L2NormOptions | LocalResponseNormalizationOptions | LSTMOptions
  | ResizeBilinearOptions | CallOptions | ReshapeOptions | SkipGramOptions
  | SpaceToDepthOptions | EmbeddingLookupSparseOptions | MulOptions | PadOptions
  | GatherOptions | BatchToSpaceNDOptions | SpaceToBatchNDOptions | TransposeOptions
  | ReducerOptions | SubOptions | DivOptions | SqueezeOptions | SequenceRNNOptions
  | StridedSliceOptions | ExpOptions | TopKV2Options | SplitOptions
  | LogSoftmaxOptions | CastOptions | DequantizeOptions | MaximumOptions
  deriving DecidableEq, Repr

/-- `struct OperatorCode`. -/
structure OperatorCode where
  builtin_code : BuiltinOperator
  custom_code : String
  deriving DecidableEq, Repr

/-- `struct Conv2DOptions`. -/
structure Conv2DOptions where
  padding : Padding
  stride_w : Int
  stride_h : Int
  fused_activation_function : ActivationFunctionType
  deriving DecidableEq, Repr

/-- `struct Pool2DOptions`. -/
structure Pool2DOptions where
  padding : Padding
  stride_w : Int
  stride_h : Int
  filter_width : Int
  filter_height : Int
  fused_activation_function : ActivationFunctionType
  deriving DecidableEq, Repr

/-- `struct DepthwiseConv2DOptions`. -/
structure DepthwiseConv2DOptions where
  padding : Padding
  stride_w : Int
  stride_h : Int
  depth_multiplier : Int
  fused_activation_function : ActivationFunctionType
  deriving DecidableEq, Repr

/-- `struct FullyConnectedOptions`. -/
structure FullyConnectedOptions where
  fused_activation_function : ActivationFunctionType
  deriving DecidableEq, Repr

/-- `struct SoftmaxOptions`. -/
structure SoftmaxOptions where
  beta : Float32
  deriving DecidableEq, Repr

/-- `struct ConcatenationOptions`. -/
structure ConcatenationOptions where
  axis : Int
  fused_activation_function : ActivationFunctionType
  deriving DecidableEq, Repr

/-- `struct SpaceToDepthOptions`. -/
structure SpaceToDepthOptions where
  block_size : Int
  deriving DecidableEq, Repr

/-- `struct LSTMOptions`. -/
structure LSTMOptions where
  cell_clip : Float32
  proj_clip : Float32
  fused_activation_function : ActivationFunctionType
  deriving DecidableEq, Repr

/-- The options record owned by an operator: `std::unique_ptr<BuiltinOptions>` pointing to
one of the structs derived from `BuiltinOptions`.  Every derived struct's constructor fixes
the `type` member, so the live variant determines the tag.  The variants read by `OpParams`
carry their record; the others carry their fields directly. -/
inductive BuiltinOptions
  | NoneOptions
  | Conv2DOptions (o : nnt.Conv2DOptions)
  | Pool2DOptions (o : nnt.Pool2DOptions)
  | DepthwiseConv2DOptions (o : nnt.DepthwiseConv2DOptions)
  | ConcatEmbeddingsOptions (num_channels : Int)
      (num_columns_per_channel embedding_dim_per_channel : List Int)
  | LSHProjectionOptions (type : Int)
  | SVDFOptions (rank : Int) (fused_activation_function : ActivationFunctionType)
  | RNNOptions (fused_activation_function : ActivationFunctionType)
  | SequenceRNNOptions (time_major : Bool)
      (fused_activation_function : ActivationFunctionType)
  | FullyConnectedOptions (o : nnt.FullyConnectedOptions)
  | SoftmaxOptions (o : nnt.SoftmaxOptions)
  | ConcatenationOptions (o : nnt.ConcatenationOptions)
  | AddOptions (fused_activation_function : ActivationFunctionType)
  | MulOptions (fused_activation_function : ActivationFunctionType)
  | L2NormOptions (fused_activation_function : ActivationFunctionType)
  | LocalResponseNormalizationOptions (radius : Int) (bias alpha beta : Float32)
  | LSTMOptions (o : nnt.LSTMOptions)
  | ResizeBilinearOptions (align_corners : Bool)
  | CallOptions (subgraph : Nat)
  | PadOptions
  | ReshapeOptions (new_shape : List Int)
  | SpaceToBatchNDOptions
  | BatchToSpaceNDOptions
  | SkipGramOptions (ngram_size max_skip_size : Int) (include_all_ngrams : Bool)
  | SpaceToDepthOptions (o : nnt.SpaceToDepthOptions)
  | SubOptions (fused_activation_function : ActivationFunctionType)
  | DivOptions (fused_activation_function : ActivationFunctionType)
  | TopKV2Options
  | EmbeddingLookupSparseOptions (combiner : Int)
  | GatherOptions (axis : Int)
  | TransposeOptions
  | ExpOptions
  | ReducerOptions (keep_dims : Bool)
  | SqueezeOptions (squeeze_dims : List Int)
  | SplitOptions (num_splits : Int)
  | StridedSliceOptions
      (begin_mask end_mask ellipsis_mask new_axis_mask shrink_axis_mask : Int)
  | LogSoftmaxOptions
  | CastOptions (in_data_type out_data_type : TensorType)
  | DequantizeOptions
  | MaximumOptions
  deriving DecidableEq, Repr

/-- The member `BuiltinOptions::type`, as set by the constructor of each derived struct. -/
def BuiltinOptions.type : BuiltinOptions → BuiltinOptionsType
  | .NoneOptions => .None
  | .Conv2DOptions _ => .Conv2DOptions
  | .Pool2DOptions _ => .Pool2DOptions
  | .DepthwiseConv2DOptions _ => .DepthwiseConv2DOptions
  | .ConcatEmbeddingsOptions _ _ _ => .ConcatEmbeddingsOptions
  | .LSHProjectionOptions _ => .LSHProjectionOptions
  | .SVDFOptions _ _ => .SVDFOptions
  | .RNNOptions _ => .RNNOptions
  | .SequenceRNNOptions _ _ => .SequenceRNNOptions
  | .FullyConnectedOptions _ => .FullyConnectedOptions
  | .SoftmaxOptions _ => .SoftmaxOptions
  | .ConcatenationOptions _ => .ConcatenationOptions
  | .AddOptions _ => .AddOptions
  | .MulOptions _ => .MulOptions
  | .L2NormOptions _ => .L2NormOptions
  | .LocalResponseNormalizationOptions _ _ _ _ => .LocalResponseNormalizationOptions
  | .LSTMOptions _ => .LSTMOptions
  | .ResizeBilinearOptions _ => .ResizeBilinearOptions
  | .CallOptions _ => .CallOptions
  | .PadOptions => .PadOptions
  | .ReshapeOptions _ => .ReshapeOptions
  | .SpaceToBatchNDOptions => .SpaceToBatchNDOptions
  | .BatchToSpaceNDOptions => .BatchToSpaceNDOptions
  | .SkipGramOptions _ _ _ => .SkipGramOptions
  | .SpaceToDepthOptions _ => .SpaceToDepthOptions
  | .SubOptions _ => .SubOptions
  | .DivOptions _ => .DivOptions
  | .TopKV2Options => .TopKV2Options
  | .EmbeddingLookupSparseOptions _ => .EmbeddingLookupSparseOptions
  | .GatherOptions _ => .GatherOptions
  | .TransposeOptions => .TransposeOptions
  | .ExpOptions => .ExpOptions
  | .ReducerOptions _ => .ReducerOptions
  | .SqueezeOptions _ => .SqueezeOptions
  | .SplitOptions _ => .SplitOptions
  | .StridedSliceOptions _ _ _ _ _ => .StridedSliceOptions
  | .LogSoftmaxOptions => .LogSoftmaxOptions
  | .CastOptions _ _ => .CastOptions
  | .DequantizeOptions => .DequantizeOptions
  | .MaximumOptions => .MaximumOptions

/-- The class `Operator`. -/
structure Operator where
  index : Int
  op_code : OperatorCode
  builtin_op_str : String
  inputs : List Int
  outputs : List Int
  builtin_op : BuiltinOptions
  deriving DecidableEq, Repr

/-- `struct QuantizationParameters`. -/
structure QuantizationParameters where
  min : List Float32
  max : List Float32
  scale : List Float32
  zero_point : List Int
  deriving DecidableEq, Repr

/-- The class `Tensor`; `quantization` is `none` when the `unique_ptr` is null. -/
structure Tensor where
  shape : List Int
  tensor_type : TensorType
  name : String
  buffer : Buffer
  buffer_index : Nat
  quantization : Option QuantizationParameters
  deriving DecidableEq, Repr

/-- `Tensor::HasQuantization()`. -/
def Tensor.HasQuantization (t : Tensor) : Bool := t.quantization.isSome

/-- The class `Graph`. -/
structure Graph where
  tensors_ : List Tensor
  operators_ : List Operator
  inputs_ : List Int
  outputs_ : List Int
  deriving DecidableEq, Repr

/-- `Graph::Tensors()`. -/
def Graph.Tensors (g : Graph) : List Tensor := g.tensors_

/-- `Graph::Operators()`. -/
def Graph.Operators (g : Graph) : List Operator := g.operators_

/-- `Graph::Inputs()`. -/
def Graph.Inputs (g : Graph) : List Int := g.inputs_

/-- `Graph::Outputs()`. -/
def Graph.Outputs (g : Graph) : List Int := g.outputs_

/-! ## The code-generation backend (`cpp-gen.cc`) -/

/-- How a generation run ends without a result. -/
inductive Error
  /-- `FATAL(msg)`: generation aborts. -/
  | fatal (msg : String)
  /-- `graph.Tensors()[i]` with `i` outside the vector: undefined behaviour in the source. -/
  | outOfRange (i : Int)
  deriving DecidableEq, Repr

/-- Modelled from the spec: the `FATAL` macro of `exception.h`, which is not under `src/`.
Per the spec's failure policy it aborts the entire generation; no text is returned. -/
def FATAL {α : Type} (msg : String) : Except Error α := .error (.fatal msg)

/-- The `.scale` initialiser written by `GenerateTensorType`. -/
inductive ScaleLit
  /-- The literal text `1.0f`. -/
  | one
  /-- The value streamed with precision 7, followed by `f`. -/
  | value (scale : Float32)
  deriving DecidableEq, Repr

/-- One statement of the generated model-build text. -/
inductive Stmt
  /-- The text of `templates/top_nn_cc.tpl` (`GenerateHeader`). -/
  | header
  /-- `uint32_t dimensions_<count>[] = <dims>;` -/
  | dimensions (count : Nat) (dims : String)
  /-- `ANeuralNetworksOperandType operand_type_<count>` with its initialiser:
  `.type`, `.dimensionCount`, `.dimensions = dimensions_<count>`, `.scale`, `.zeroPoint`. -/
  | operandType (count : Nat) (type : String) (dimensionCount : Nat) (scale : ScaleLit)
      (zeroPoint : Int)
  /-- `status = ANeuralNetworksModel_addOperand(model, &operand_type_<count>);` -/
  | addOperand (count : Nat)
  /-- The block written by `CheckStatus(msg)`. -/
  | checkStatus (msg : String)
  /-- `tensor_size = <buf_size>;` -/
  | tensorSize (buf_size : Nat)
  /-- `status = ANeuralNetworksModel_setOperandValueFromMemory(model, <count>, mem, offset,
  tensor_size);` -/
  | setOperandValueFromMemory (count : Nat)
  /-- `offset += tensor_size;` -/
  | offsetAdvance
  /-- `CHECK_ADD_SCALAR(AddScalarInt32(<index>, <value>))` -/
  | addScalarInt32 (index : Nat) (value : Int)
  /-- `CHECK_ADD_SCALAR(AddScalarFloat32(<index>, <value>))` -/
  | addScalarFloat32 (index : Nat) (value : Float32)
  /-- The empty line written after the scalar declarations of one operator. -/
  | newline
  /-- `uint32_t input_operands_<count>[] = \x7b <indices> \x7d;` -/
  | inputOperands (count : Nat) (indices : List Int)
  /-- `uint32_t output_operands_<count>[] = \x7b<indices> \x7d;` -/
  | outputOperands (count : Nat) (indices : List Int)
  /-- `status = ANeuralNetworksModel_addOperation(model, <opType>, ..., input_operands_<count>,
  ..., output_operands_<count>);` -/
  | addOperation (count : Nat) (opType : String)
  /-- `uint32_t input_indexes[<n>] = \x7b<indices> \x7d;` -/
  | inputIndexes (n : Nat) (indices : List Int)
  /-- `uint32_t output_indexes[<n>] = \x7b<indices> \x7d;` -/
  | outputIndexes (n : Nat) (indices : List Int)
  /-- `ANeuralNetworksModel_identifyInputsAndOutputs(model, <num_inputs>, input_indexes,
  <num_outputs>, output_indexes);` -/
  | identifyInputsAndOutputs (num_inputs num_outputs : Nat)
  /-- The `ANeuralNetworksModel_finish` block of `Assembler`. -/
  | modelFinish
  /-- `return true;` and the brace closing the model function. -/
  | closeModelFunction
  /-- `bool SetInput(const int8_t *buffer) \x7b` -/
  | setInputOpen
  /-- `int status = ANeuralNetworksExecution_setInput(run, <cnt>, NULL, &buffer[<start>],
  <size>);` -/
  | setInput (cnt : Nat) (start size : Int)
  /-- `bool SetOutput(int8_t *buffer) \x7b` -/
  | setOutputOpen
  /-- `int status = ANeuralNetworksExecution_setOutput(run, <cnt>, NULL, &buffer[<start>],
  <size>);` -/
  | setOutput (cnt : Nat) (start size : Int)
  /-- `return true;` and the brace closing a marshalling function. -/
  | returnTrue
  /-- The brace closing the namespace. -/
  | closeNamespace
  deriving DecidableEq, Repr

/-- The mutable members of the class `ModelGen`. -/
structure ModelGen where
  count_operands_ : Nat
  tensor_pos_ : Nat
  deriving DecidableEq, Repr

/-- The value an `int` holds for the exact result `x`: `x` modulo `2^32` in the signed range.
It is the `long` to `int` narrowing of `TensorQuantizationZeroPoint` and the result of the
`int` products and sums of the size computations (an overflowing `int` operation is
undefined in C++; the embedding gives it the two's-complement result). -/
def wrapInt32 (x : Int) : Int := (x + 2 ^ 31) % 2 ^ 32 - 2 ^ 31

/-- The implicit `float` to `int` conversion (truncation toward zero). -/
def floatToInt (x : Float32) : Int := Int.tdiv x.num x.den

/-- `s.substr(0, s.length() - 1)`, the length computed in `size_t` (64 bits): at most that
many leading characters are kept. -/
def dropLastChar (s : String) : String :=
  ⟨s.data.take ((s.length + 2 ^ 64 - 1) % 2 ^ 64)⟩

/-- `TensorsHeader::Generate`: the weight blob.  The outer loop visits the tensors, the inner
loop appends the bytes of a non-empty buffer one by one. -/
def TensorsHeader.Generate (graph : Graph) : List Byte :=
  graph.Tensors.foldl
    (fun str_buf t =>
      if !t.buffer.Data.isEmpty then
        t.buffer.Data.foldl (fun str_buf c => str_buf ++ [c]) str_buf
      else str_buf)
    []

/-- `TensorsHeader::Assembler`. -/
def TensorsHeader.Assembler (graph : Graph) : List Byte := TensorsHeader.Generate graph

/-- `ModelGen::TensorTypeStr`. -/
def TensorTypeStr (type : TensorType) : Except Error String :=
  match type with
  | .FLOAT32 => .ok "ANEURALNETWORKS_TENSOR_FLOAT32"
  | .INT32 => .ok "ANEURALNETWORKS_TENSOR_INT32"
  | .UINT8 => .ok "ANEURALNETWORKS_TENSOR_QUANT8_ASYMM"
  | _ => FATAL "Tensor type not valid for Android NNAPI"

/-- `ModelGen::TensorDim`. -/
def TensorDim (dim : List Int) : String :=
  let str_out := dim.foldl (fun str_out e => str_out ++ toString e ++ ",") "\x7b"
  let str_out := dropLastChar str_out
  str_out ++ "\x7d"

/-- `ModelGen::TensorQuantizationScale`. -/
def TensorQuantizationScale (q : QuantizationParameters) : Float32 :=
  match q.scale with
  | s :: _ => s
  | [] => 0

/-- `ModelGen::TensorQuantizationZeroPoint`. -/
def TensorQuantizationZeroPoint (q : QuantizationParameters) : Int :=
  match q.zero_point with
  | z :: _ => wrapInt32 z
  | [] => 0

/-- `ModelGen::GenerateTensorType`. -/
def GenerateTensorType (tensor : Tensor) (count : Nat) : Except Error (List Stmt) := do
  let dimensions := TensorDim tensor.shape
  let str_tensor_type ← TensorTypeStr tensor.tensor_type
  let dimension_count := tensor.shape.length
  let (scale, zero_point) : Float32 × Int :=
    match tensor.quantization with
    | some q => (TensorQuantizationScale q, TensorQuantizationZeroPoint q)
    | none => (0, 0)
  let scale_text := if scale = 0 then ScaleLit.one else ScaleLit.value scale
  pure [.dimensions count dimensions,
        .operandType count str_tensor_type dimension_count scale_text zero_point]

/-- The loop of `ModelGen::GenerateTensorsCode`, from the tensor numbered `count` on; it
returns the text and the final value of `count`. -/
def GenerateTensorsCodeLoop : List Tensor → Nat → Except Error (List Stmt × Nat)
  | [], count => .ok ([], count)
  | tensor :: rest, count => do
    let decl ← GenerateTensorType tensor count
    let add := [Stmt.addOperand count,
      Stmt.checkStatus ("ANeuralNetworksModel_addOperand failedfor operand " ++ toString count)]
    let buf_size := tensor.buffer.Data.length
    let load :=
      if buf_size > 0 then
        [Stmt.tensorSize buf_size,
         Stmt.setOperandValueFromMemory count,
         Stmt.checkStatus ("ANeuralNetworksModel_setOperandValueFromMemory failed for operand "
           ++ toString count),
         Stmt.offsetAdvance]
      else []
    let (ss, count) ← GenerateTensorsCodeLoop rest (count + 1)
    pure (decl ++ add ++ load ++ ss, count)

/-- `ModelGen::GenerateTensorsCode`. -/
def GenerateTensorsCode (graph : Graph) (_self : ModelGen) :
    Except Error (List Stmt × ModelGen) := do
  let (ss, count) ← GenerateTensorsCodeLoop graph.Tensors 0
  pure (ss, { count_operands_ := count, tensor_pos_ := graph.Tensors.length })

/-- The second loop of `ModelGen::GenerateOpInputs`:
`for (; tensor_pos_ < tensor_start_pos + num_params; tensor_pos_++)`, by the number of
iterations left. -/
def GenerateOpInputsLoop : Nat → List Int → ModelGen → List Int × ModelGen
  | 0, str_in, self => (str_in, self)
  | n + 1, str_in, self =>
    GenerateOpInputsLoop n (str_in ++ [(self.tensor_pos_ : Int)])
      { self with tensor_pos_ := self.tensor_pos_ + 1 }

/-- `ModelGen::GenerateOpInputs`: the indices of the input list, in the order written. -/
def GenerateOpInputs (inputs : List Int) (num_params : Nat) (self : ModelGen) :
    List Int × ModelGen :=
  let str_in := inputs.foldl (fun str_in in_value => str_in ++ [in_value]) []
  GenerateOpInputsLoop num_params str_in self

/-- `ModelGen::GenerateOpOutputs`: the indices of the output list, in the order written. -/
def GenerateOpOutputs (outputs : List Int) : List Int :=
  outputs.foldl (fun str_out out_value => str_out ++ [out_value]) []

/-- `ModelGen::OpTypeStr`. -/
def OpTypeStr (op_type : BuiltinOperator) : Except Error String :=
  match op_type with
  | .ADD => .ok "ANEURALNETWORKS_ADD"
  | .AVERAGE_POOL_2D => .ok "ANEURALNETWORKS_AVERAGE_POOL_2D"
  | .MAX_POOL_2D => .ok "ANEURALNETWORKS_MAX_POOL_2D"
  | .L2_POOL_2D => .ok "ANEURALNETWORKS_L2_POOL_2D"
  | .CONV_2D => .ok "ANEURALNETWORKS_CONV_2D"
  | .RELU => .ok "ANEURALNETWORKS_RELU"
  | .RELU6 => .ok "ANEURALNETWORKS_RELU6"
  | .TANH => .ok "ANEURALNETWORKS_TANH"
  | .LOGISTIC => .ok "ANEURALNETWORKS_LOGISTIC"
  | .DEPTHWISE_CONV_2D => .ok "ANEURALNETWORKS_DEPTHWISE_CONV_2D"
  | .CONCATENATION => .ok "ANEURALNETWORKS_CONCATENATION"
  | .SOFTMAX => .ok "ANEURALNETWORKS_SOFTMAX"
  | .FULLY_CONNECTED => .ok "ANEURALNETWORKS_FULLY_CONNECTED"
  | .RESHAPE => .ok "ANEURALNETWORKS_RESHAPE"
  | .SPACE_TO_DEPTH => .ok "ANEURALNETWORKS_SPACE_TO_DEPTH"
  | .LSTM => .ok "ANEURALNETWORKS_LSTM"
  | _ => FATAL "Not supported type on NNAPI"

/-- `ModelGen::AddScalarInt32`. -/
def AddScalarInt32 (value : Int) (self : ModelGen) : Stmt × ModelGen :=
  (.addScalarInt32 self.count_operands_ value,
   { self with count_operands_ := self.count_operands_ + 1 })

/-- `ModelGen::AddScalarFloat32`. -/
def AddScalarFloat32 (value : Float32) (self : ModelGen) : Stmt × ModelGen :=
  (.addScalarFloat32 self.count_operands_ value,
   { self with count_operands_ := self.count_operands_ + 1 })

/-- The lambda `check` of `ModelGen::OpParams`. -/
def OpParams.check (op : Operator) (type : BuiltinOptionsType) : Except Error Unit :=
  if op.builtin_op.type ≠ type then FATAL "Operator node type wrong" else .ok ()

/-- `ModelGen::OpParams`: the number of scalar operands of the operator and their
declarations.  After `check` has passed, the `static_cast` of the source is the match on the
live variant; its other branch is not reached. -/
def OpParams (op : Operator) (self : ModelGen) :
    Except Error ((Nat × List Stmt) × ModelGen) :=
  match op.op_code.builtin_code with
  | .ADD =>
    let (s1, self) := AddScalarInt32 0 self
    .ok ((1, [s1]), self)
  | .L2_POOL_2D | .MAX_POOL_2D | .AVERAGE_POOL_2D => do
    OpParams.check op .Pool2DOptions
    match op.builtin_op with
    | .Pool2DOptions pool_options =>
      let (s1, self) := AddScalarInt32 pool_options.padding.toInt self
      let (s2, self) := AddScalarInt32 pool_options.stride_w self
      let (s3, self) := AddScalarInt32 pool_options.stride_h self
      let (s4, self) := AddScalarInt32 pool_options.filter_width self
      let (s5, self) := AddScalarInt32 pool_options.filter_height self
      let (s6, self) := AddScalarInt32 pool_options.fused_activation_function.toInt self
      .ok ((6, [s1, s2, s3, s4, s5, s6]), self)
    | _ => FATAL "Operator node type wrong"
  | .CONV_2D => do
    OpParams.check op .Conv2DOptions
    match op.builtin_op with
    | .Conv2DOptions conv_options =>
      let (s1, self) := AddScalarInt32 conv_options.padding.toInt self
      let (s2, self) := AddScalarInt32 conv_options.stride_w self
      let (s3, self) := AddScalarInt32 conv_options.stride_h self
      let (s4, self) := AddScalarInt32 conv_options.fused_activation_function.toInt self
      .ok ((4, [s1, s2, s3, s4]), self)
    | _ => FATAL "Operator node type wrong"
  | .DEPTHWISE_CONV_2D => do
    OpParams.check op .DepthwiseConv2DOptions
    match op.builtin_op with
    | .DepthwiseConv2DOptions dept_conv_options =>
      let (s1, self) := AddScalarInt32 dept_conv_options.padding.toInt self
      let (s2, self) := AddScalarInt32 dept_conv_options.stride_w self
      let (s3, self) := AddScalarInt32 dept_conv_options.stride_h self
      let (s4, self) := AddScalarInt32 dept_conv_options.depth_multiplier self
      let (s5, self) :=
        AddScalarInt32 dept_conv_options.fused_activation_function.toInt self
      .ok ((5, [s1, s2, s3, s4, s5]), self)
    | _ => FATAL "Operator node type wrong"
  | .FULLY_CONNECTED => do
    OpParams.check op .FullyConnectedOptions
    match op.builtin_op with
    | .FullyConnectedOptions fully_con_options =>
      let (s1, self) :=
        AddScalarInt32 fully_con_options.fused_activation_function.toInt self
      .ok ((1, [s1]), self)
    | _ => FATAL "Operator node type wrong"
  | .CONCATENATION => do
    OpParams.check op .ConcatenationOptions
    match op.builtin_op with
    | .ConcatenationOptions concat_options =>
      let (s1, self) := AddScalarInt32 concat_options.axis self
      let (s2, self) := AddScalarInt32 concat_options.fused_activation_function.toInt self
      .ok ((2, [s1, s2]), self)
    | _ => FATAL "Operator node type wrong"
  | .SOFTMAX => do
    OpParams.check op .SoftmaxOptions
    match op.builtin_op with
    | .SoftmaxOptions softmax_options =>
      let (s1, self) := AddScalarFloat32 softmax_options.beta self
      .ok ((1, [s1]), self)
    | _ => FATAL "Operator node type wrong"
  | .SPACE_TO_DEPTH => do
    OpParams.check op .SpaceToDepthOptions
    match op.builtin_op with
    | .SpaceToDepthOptions space2depth_options =>
      let (s1, self) := AddScalarInt32 space2depth_options.block_size self
      .ok ((1, [s1]), self)
    | _ => FATAL "Operator node type wrong"
  | .LSTM => do
    OpParams.check op .LSTMOptions
    match op.builtin_op with
    | .LSTMOptions lstm_options =>
      let (s1, self) := AddScalarInt32 lstm_options.fused_activation_function.toInt self
      let (s2, self) := AddScalarInt32 (floatToInt lstm_options.cell_clip) self
      let (s3, self) := AddScalarInt32 (floatToInt lstm_options.proj_clip) self
      .ok ((3, [s1, s2, s3]), self)
    | _ => FATAL "Operator node type wrong"
  | _ => .ok ((0, []), self)

/-- One iteration of the loop of `ModelGen::GenerateOpCode`, for the operator numbered
`count`. -/
def GenerateOpCodeStep (op : Operator) (count : Nat) (self : ModelGen) :
    Except Error (List Stmt × ModelGen) := do
  let ((num_params, str_params), self) ← OpParams op self
  let (ins, self) := GenerateOpInputs op.inputs num_params self
  let outs := GenerateOpOutputs op.outputs
  let op_type ← OpTypeStr op.op_code.builtin_code
  pure (str_params ++
        [.newline, .inputOperands count ins, .outputOperands count outs,
         .addOperation count op_type,
         .checkStatus ("ANeuralNetworksModel_addOperation failed for operation "
           ++ toString count)],
        self)

/-- The loop of `ModelGen::GenerateOpCode`, from the operator numbered `count` on. -/
def GenerateOpCodeLoop : List Operator → Nat → ModelGen → Except Error (List Stmt × ModelGen)
  | [], _, self => .ok ([], self)
  | op :: rest, count, self => do
    let (ss, self) ← GenerateOpCodeStep op count self
    let (ss', self) ← GenerateOpCodeLoop rest (count + 1) self
    pure (ss ++ ss', self)

/-- `ModelGen::GenerateOpCode`. -/
def GenerateOpCode (graph : Graph) (self : ModelGen) : Except Error (List Stmt × ModelGen) :=
  GenerateOpCodeLoop graph.Operators 0 self

/-- `ModelGen::GenerateInputsAndOutputs`. -/
def GenerateInputsAndOutputs (graph : Graph) : List Stmt :=
  let num_inputs := graph.Inputs.length
  let str_input := graph.Inputs.foldl (fun str_input i => str_input ++ [i]) []
  let num_outputs := graph.Outputs.length
  let str_output := graph.Outputs.foldl (fun str_output i => str_output ++ [i]) []
  [.inputIndexes num_inputs str_input, .outputIndexes num_outputs str_output,
   .identifyInputsAndOutputs num_inputs num_outputs]

/-- `ModelGen::TensorSize`; the multiplication by 4 stands inside the loop over the shape, as
in the source, and `size` is an `int`: each product is reduced to 32 bits. -/
def TensorSize (tensor : Tensor) : Int :=
  tensor.shape.foldl
    (fun size shape_i =>
      let size := wrapInt32 (size * shape_i)
      if tensor.tensor_type = .FLOAT32 ∨ tensor.tensor_type = .INT32 then wrapInt32 (size * 4)
      else size)
    1

/-- `graph.Tensors()[i]` for an `int` index. -/
def tensorAt (graph : Graph) (i : Int) : Except Error Tensor :=
  if 0 ≤ i then
    match graph.Tensors.get? i.toNat with
    | some t => .ok t
    | none => .error (.outOfRange i)
  else .error (.outOfRange i)

/-- The loop shared by `GenerateInputFunctions` and `GenerateOutputFunctions`, which differ
only in the call written (`call`, built from `cnt`, `start` and `size`) and in the message
given to `CheckStatus` (`msg`).  `start` is an `int`: `start += size` is reduced to 32
bits. -/
def marshalLoop (graph : Graph) (call : Nat → Int → Int → Stmt) (msg : String) :
    List Int → Int → Nat → Except Error (List Stmt)
  | [], _, _ => .ok []
  | i :: rest, start, cnt => do
    let tensor ← tensorAt graph i
    let size := TensorSize tensor
    let ss ← marshalLoop graph call msg rest (wrapInt32 (start + size)) (cnt + 1)
    pure ([call cnt start size, .checkStatus msg] ++ ss)

/-- `ModelGen::GenerateInputFunctions`. -/
def GenerateInputFunctions (graph : Graph) : Except Error (List Stmt) := do
  let ss ← marshalLoop graph Stmt.setInput "ANeuralNetworksExecution_setInput failed"
    graph.Inputs 0 0
  pure ([Stmt.setInputOpen] ++ ss ++ [Stmt.returnTrue])

/-- `ModelGen::GenerateOutputFunctions`. -/
def GenerateOutputFunctions (graph : Graph) : Except Error (List Stmt) := do
  let ss ← marshalLoop graph Stmt.setOutput "ANeuralNetworksExecution_setOutput failed"
    graph.Outputs 0 0
  pure ([Stmt.setOutputOpen] ++ ss ++ [Stmt.returnTrue])

/-- `ModelGen::GenerateHeader`. -/
def GenerateHeader : List Stmt := [.header]

/-- `ModelGen::Assembler`. -/
def Assembler (graph : Graph) (self : ModelGen) : Except Error (List Stmt × ModelGen) := do
  let code := GenerateHeader
  let (tensors_code, self) ← GenerateTensorsCode graph self
  let (op_code, self) ← GenerateOpCode graph self
  let code := code ++ tensors_code ++ op_code ++ GenerateInputsAndOutputs graph
  let code := code ++ [.modelFinish, .closeModelFunction]
  let input_functions ← GenerateInputFunctions graph
  let output_functions ← GenerateOutputFunctions graph
  pure (code ++ input_functions ++ output_functions ++ [.closeNamespace], self)

/-- The loop of `ModelGenJni::TotalSize` over the index list returned by `fn()`; the size of
each tensor is computed in place, as in the source.  `size` and `total_size` are `int`s:
each product and each sum is reduced to 32 bits. -/
def ModelGenJni.TotalSizeLoop (graph : Graph) : List Int → Int → Except Error Int
  | [], total_size => .ok total_size
  | i :: rest, total_size => do
    let tensor ← tensorAt graph i
    let size := tensor.shape.foldl
      (fun size shape_i =>
        let size := wrapInt32 (size * shape_i)
        if tensor.tensor_type = .FLOAT32 ∨ tensor.tensor_type = .INT32 then
          wrapInt32 (size * 4)
        else size)
      1
    ModelGenJni.TotalSizeLoop graph rest (wrapInt32 (total_size + size))

/-- `ModelGenJni::TotalSize`, for the index list `fn()`. -/
def ModelGenJni.TotalSize (graph : Graph) (fn : List Int) : Except Error Int :=
  ModelGenJni.TotalSizeLoop graph fn 0

/-- What a file of the output directory holds. -/
inductive FileContent
  /-- The file has been created (or truncated) by opening it; nothing has been written. -/
  | empty
  /-- The weight blob written by `GenTensorsDataFile`. -/
  | weights (buf : List Byte)
  /-- The model-build text written by `GenCppFile`. -/
  | modelCode (code : List Stmt)
  /-- The text of `templates/top_nn_h.tpl` and a closing brace (`ModelGenHeader::Assembler`). -/
  | headerCode
  /-- The text of `templates/jni.tpl` with `@TOTAL_INPUT_SIZE`, `@TOTAL_OUTPUT_SIZE` and
  `@JAVA_PACKAGE` replaced (`ModelGenJni::GenerateJni`). -/
  | jniCode (total_input_size total_output_size : Int) (java_package : String)
  deriving DecidableEq, Repr

/-- The output directory `path`: the files in it, by name. -/
structure OutputDir where
  files : List (String × FileContent)
  deriving DecidableEq, Repr

/-- The content of the file `fname`, if the directory has it. -/
def OutputDir.file (dir : OutputDir) (fname : String) : Option FileContent :=
  (dir.files.find? (fun f => f.1 = fname)).map (fun f => f.2)

/-- Constructing a `std::ofstream` on `fname` with mode `out`: the file is created or
truncated. -/
def OutputDir.openFile (dir : OutputDir) (fname : String) : OutputDir :=
  ⟨(fname, .empty) :: dir.files.filter (fun f => f.1 ≠ fname)⟩

/-- `write` on the stream just opened on `fname`, followed by `close`. -/
def OutputDir.write (dir : OutputDir) (fname : String) (content : FileContent) : OutputDir :=
  ⟨(fname, content) :: dir.files.filter (fun f => f.1 ≠ fname)⟩

/-- `CppGen::GenTensorsDataFile`; `writable fname` tells whether the stream opens
(`is_open()`).  The result is paired with the directory as the call leaves it. -/
def CppGen.GenTensorsDataFile (graph : Graph) (writable : String → Bool) (dir : OutputDir) :
    Except Error Unit × OutputDir :=
  let fname := "weights_biases.bin"
  if !writable fname then
    (FATAL "Fail on create weights_biases.bin file on: %1%", dir)
  else
    let dir := dir.openFile fname
    let buf := TensorsHeader.Assembler graph
    (.ok (), dir.write fname (.weights buf))

/-- `CppGen::GenCppFile`; `self` is the state of the `ModelGen` it constructs. -/
def CppGen.GenCppFile (graph : Graph) (self : ModelGen) (writable : String → Bool)
    (dir : OutputDir) : Except Error Unit × OutputDir :=
  let fname := "nn.cc"
  if !writable fname then
    (FATAL "Fail on create nn.cc file", dir)
  else
    let dir := dir.openFile fname
    match Assembler graph self with
    | .error e => (.error e, dir)
    | .ok (code, _) => (.ok (), dir.write fname (.modelCode code))

/-- `CppGen::GenHFile`. -/
def CppGen.GenHFile (writable : String → Bool) (dir : OutputDir) :
    Except Error Unit × OutputDir :=
  let fname := "nn.h"
  if !writable fname then
    (FATAL "Fail on create nn.h file", dir)
  else
    let dir := dir.openFile fname
    (.ok (), dir.write fname .headerCode)

/-- `CppGen::GenJniFile`, with `ModelGenJni::Assembler` and `GenerateJni` in line (the message
of its `FATAL` names `nn.h`, as in the source). -/
def CppGen.GenJniFile (graph : Graph) (java_package : String) (writable : String → Bool)
    (dir : OutputDir) : Except Error Unit × OutputDir :=
  let fname := "jni.cc"
  if !writable fname then
    (FATAL "Fail on create nn.h file", dir)
  else
    let dir := dir.openFile fname
    let java_package_ := java_package.replace "." "_"
    match ModelGenJni.TotalSize graph graph.Inputs with
    | .error e => (.error e, dir)
    | .ok total_input_size =>
      match ModelGenJni.TotalSize graph graph.Outputs with
      | .error e => (.error e, dir)
      | .ok total_output_size =>
        (.ok (), dir.write fname (.jniCode total_input_size total_output_size java_package_))

/-- `CppGen::GenFiles`: the four files in turn; an abort stops the sequence and leaves the
directory as it is at that point. -/
def CppGen.GenFiles (graph : Graph) (self : ModelGen) (java_path : String)
    (writable : String → Bool) (dir : OutputDir) : Except Error Unit × OutputDir :=
  match CppGen.GenTensorsDataFile graph writable dir with
  | (.error e, dir) => (.error e, dir)
  | (.ok _, dir) =>
    match CppGen.GenCppFile graph self writable dir with
    | (.error e, dir) => (.error e, dir)
    | (.ok _, dir) =>
      match CppGen.GenHFile writable dir with
      | (.error e, dir) => (.error e, dir)
      | (.ok _, dir) => CppGen.GenJniFile graph java_path writable dir

/-! ## Reading the generated text -/

/-- The operand indices written into the scalar-operand declarations of a text, in order. -/
def scalarIndices : List Stmt → List Nat
  | [] => []
  | .addScalarInt32 index _ :: rest => index :: scalarIndices rest
  | .addScalarFloat32 index _ :: rest => index :: scalarIndices rest
  | _ :: rest => scalarIndices rest

/-- The generated variables `offset` and `tensor_size` while the generated text runs. -/
structure LoadState where
  offset : Nat
  tensor_size : Nat
  deriving DecidableEq, Repr

/-- One executed `setOperandValueFromMemory` call: the operand and the `offset` and
`tensor_size` it is given. -/
structure Load where
  operand : Nat
  offset : Nat
  length : Nat
  deriving DecidableEq, Repr

/-- Running the generated statements that touch `offset` and `tensor_size`: the calls
`setOperandValueFromMemory` made, in order, with the values of the two variables at the call. -/
def runLoads : List Stmt → LoadState → List Load
  | [], _ => []
  | .tensorSize buf_size :: rest, st => runLoads rest { st with tensor_size := buf_size }
  | .setOperandValueFromMemory count :: rest, st =>
    ⟨count, st.offset, st.tensor_size⟩ :: runLoads rest st
  | .offsetAdvance :: rest, st =>
    runLoads rest { st with offset := st.offset + st.tensor_size }
  | _ :: rest, st => runLoads rest st

/-- The generated variables after the statements have run. -/
def runLoadsState : List Stmt → LoadState → LoadState
  | [], st => st
  | .tensorSize buf_size :: rest, st => runLoadsState rest { st with tensor_size := buf_size }
  | .offsetAdvance :: rest, st =>
    runLoadsState rest { st with offset := st.offset + st.tensor_size }
  | _ :: rest, st => runLoadsState rest st

/-- The sum of the buffer byte lengths of the tensors with a non-empty buffer among the
first `i` tensors. -/
def precedingWeightBytes (tensors : List Tensor) (i : Nat) : Nat :=
  (((tensors.take i).filter (fun t => !t.buffer.Data.isEmpty)).map
    (fun t => t.buffer.Data.length)).sum

/-- The load the offset rule asks for at tensor `i`: none for an empty buffer, otherwise the
tensor's operand index, the sum of the byte lengths of the non-empty buffers before it, and
its own byte length. -/
def expectedLoadAt (tensors : List Tensor) (i : Nat) : Option Load :=
  match tensors.get? i with
  | some t =>
    if t.buffer.Data.isEmpty then none
    else some ⟨i, precedingWeightBytes tensors i, t.buffer.Data.length⟩
  | none => none

/-- The loads the offset rule asks for, in declaration order. -/
def expectedLoads (tensors : List Tensor) : List Load :=
  (List.range tensors.length).filterMap (expectedLoadAt tensors)

/-- The concatenation, in declaration order, of the buffers of the tensors with a non-empty
buffer. -/
def concatWeights (tensors : List Tensor) : List Byte :=
  ((tensors.filter (fun t => !t.buffer.Data.isEmpty)).map (fun t => t.buffer.Data)).flatten

/-- The slice of the weight blob a load reads. -/
def blobSlice (blob : List Byte) (l : Load) : List Byte := (blob.drop l.offset).take l.length

/-- The operator kinds with an entry in the hyperparameter table of `OpParams`. -/
def inParamTable : BuiltinOperator → Bool
  | .ADD | .L2_POOL_2D | .MAX_POOL_2D | .AVERAGE_POOL_2D | .CONV_2D | .DEPTHWISE_CONV_2D
  | .FULLY_CONNECTED | .CONCATENATION | .SOFTMAX | .SPACE_TO_DEPTH | .LSTM => true
  | _ => false

/-- The sixteen operator kinds named as mapped to a runtime operation. -/
def mappedKinds : List BuiltinOperator :=
  [.ADD, .AVERAGE_POOL_2D, .MAX_POOL_2D, .L2_POOL_2D, .CONV_2D, .RELU, .RELU6, .TANH,
   .LOGISTIC, .DEPTHWISE_CONV_2D, .CONCATENATION, .SOFTMAX, .FULLY_CONNECTED, .RESHAPE,
   .SPACE_TO_DEPTH, .LSTM]

/-- The options tag `OpParams` passes to `check` for an operator kind, when it calls
`check` at all. -/
def checkedOptionsType : BuiltinOperator → Option BuiltinOptionsType
  | .L2_POOL_2D | .MAX_POOL_2D | .AVERAGE_POOL_2D => some .Pool2DOptions
  | .CONV_2D => some .Conv2DOptions
  | .DEPTHWISE_CONV_2D => some .DepthwiseConv2DOptions
  | .FULLY_CONNECTED => some .FullyConnectedOptions
  | .CONCATENATION => some .ConcatenationOptions
  | .SOFTMAX => some .SoftmaxOptions
  | .SPACE_TO_DEPTH => some .SpaceToDepthOptions
  | .LSTM => some .LSTMOptions
  | _ => none

/-- What makes one iteration of the loop of `GenerateOpCode` abort: the operator's kind is
not mapped by `OpTypeStr`, or `OpParams` checks the options tag for that kind and the record
has another tag.  Neither condition looks at the operator's index lists. -/
def rejectedOperator (op : Operator) : Prop :=
  op.op_code.builtin_code ∉ mappedKinds ∨
  ∃ type, checkedOptionsType op.op_code.builtin_code = some type ∧ op.builtin_op.type ≠ type

/-- Generation aborted: the result is the error of a `FATAL`. -/
def Aborts {α : Type} (r : Except Error α) : Prop := ∃ msg, r = .error (.fatal msg)

/-- The operand-type declarations of a text, in order. -/
def declaredOperands : List Stmt → List Stmt
  | [] => []
  | .operandType count type dimensionCount scale zeroPoint :: rest =>
    .operandType count type dimensionCount scale zeroPoint :: declaredOperands rest
  | _ :: rest => declaredOperands rest

/-- The operand numbers of the `addOperand` calls of a text, in order. -/
def addedOperands : List Stmt → List Nat
  | [] => []
  | .addOperand count :: rest => count :: addedOperands rest
  | _ :: rest => addedOperands rest

/-- The `setInput` and `setOutput` calls of a text, in order. -/
def marshalCalls : List Stmt → List Stmt
  | [] => []
  | .setInput cnt start size :: rest => .setInput cnt start size :: marshalCalls rest
  | .setOutput cnt start size :: rest => .setOutput cnt start size :: marshalCalls rest
  | _ :: rest => marshalCalls rest

/-- An index is a valid position in the tensor sequence of the graph. -/
def validIndex (graph : Graph) (i : Int) : Prop := 0 ≤ i ∧ i < graph.Tensors.length

instance (graph : Graph) (i : Int) : Decidable (validIndex graph i) := by
  unfold validIndex
  infer_instance

/-- The value lies in the range of a 32-bit `int`. -/
def inIntRange (x : Int) : Bool := decide (-2 ^ 31 ≤ x) && decide (x < 2 ^ 31)

/-- The loop of `TensorSize` in exact integer arithmetic: the same products, none of them
reduced to 32 bits.  It is what the `int` loop computes absent overflow. -/
def TensorSizeExact (tensor : Tensor) : Int :=
  tensor.shape.foldl
    (fun size shape_i =>
      let size := size * shape_i
      if tensor.tensor_type = .FLOAT32 ∨ tensor.tensor_type = .INT32 then size * 4
      else size)
    1

/-- No product of the loop of `TensorSize`, run over `shape` from the value `size` for the
element type `type`, leaves the range of `int`. -/
def sizeLoopInRange (type : TensorType) : List Int → Int → Bool
  | [], _ => true
  | shape_i :: rest, size =>
    inIntRange (size * shape_i) &&
      (if type = .FLOAT32 ∨ type = .INT32 then
        inIntRange (size * shape_i * 4) && sizeLoopInRange type rest (size * shape_i * 4)
      else sizeLoopInRange type rest (size * shape_i))

/-- Absence of overflow in `TensorSize` of a tensor: every product of its loop, computed
exactly, lies in the range of `int`. -/
def noOverflow (tensor : Tensor) : Bool := sizeLoopInRange tensor.tensor_type tensor.shape 1

/-- The sum of a list of sizes as the source accumulates it in an `int` (`start += size`,
`total_size += size`), from the value `start`. -/
def intSum (start : Int) (sizes : List Int) : Int :=
  sizes.foldl (fun start size => wrapInt32 (start + size)) start

/-- Absence of overflow in the accumulation of a list of sizes from the value `start`: every
running sum, computed exactly, lies in the range of `int`. -/
def sumsInRange : Int → List Int → Bool
  | _, [] => true
  | start, size :: rest => inIntRange (start + size) && sumsInRange (start + size) rest

/-- `TensorSize` of the tensor at a graph-level index (0 where there is no such tensor). -/
def tensorSizeAt (graph : Graph) (i : Int) : Int :=
  match tensorAt graph i with
  | .ok t => TensorSize t
  | .error _ => 0

/-- The sum of `TensorSize` over the tensors at positions `0..k-1` of an index list, in
exact arithmetic: the start offset of the `k`-th marshalling call absent overflow. -/
def marshalStart (graph : Graph) (indices : List Int) (k : Nat) : Int :=
  ((indices.take k).map (tensorSizeAt graph)).sum

/-- The number of scalar operands the hyperparameter table gives an operator kind (0 for a
kind without an entry). -/
def tableCount : BuiltinOperator → Nat
  | .ADD => 1
  | .L2_POOL_2D | .MAX_POOL_2D | .AVERAGE_POOL_2D => 6
  | .CONV_2D => 4
  | .DEPTHWISE_CONV_2D => 5
  | .FULLY_CONNECTED => 1
  | .CONCATENATION => 2
  | .SOFTMAX => 1
  | .SPACE_TO_DEPTH => 1
  | .LSTM => 3
  | _ => 0

/-- The byte offset after the last marshalling call of a text: its start plus its length
(0 when the text has no marshalling call). -/
def marshalEnd (ss : List Stmt) : Int :=
  match (marshalCalls ss).getLast? with
  | some (.setInput _ start size) => start + size
  | some (.setOutput _ start size) => start + size
  | _ => 0

/-! ## Concrete inputs -/

/-- A tensor of shape `[2,3]` and element type FLOAT32. -/
def tensor_2x3_float32 : Tensor :=
  { shape := [2, 3], tensor_type := .FLOAT32, name := "t", buffer := ⟨[]⟩,
    buffer_index := 0, quantization := none }

/-- Tensor 0 of the end-to-end scenario: shape `[1,2]`, FLOAT32, an 8-byte buffer. -/
def scenarioTensor0 : Tensor :=
  { shape := [1, 2], tensor_type := .FLOAT32, name := "a",
    buffer := ⟨[0, 0, 128, 63, 0, 0, 0, 64]⟩, buffer_index := 1, quantization := none }

/-- Tensor 1 of the end-to-end scenario: shape `[1,2]`, FLOAT32, an empty buffer. -/
def scenarioTensor1 : Tensor :=
  { shape := [1, 2], tensor_type := .FLOAT32, name := "b", buffer := ⟨[]⟩,
    buffer_index := 0, quantization := none }

/-- The ADD operator of the end-to-end scenario. -/
def scenarioAdd : Operator :=
  { index := 0, op_code := ⟨.ADD, ""⟩, builtin_op_str := "ADD", inputs := [0, 1],
    outputs := [1], builtin_op := .AddOptions .NONE }

/-- The graph of the end-to-end scenario. -/
def scenarioGraph : Graph :=
  { tensors_ := [scenarioTensor0, scenarioTensor1], operators_ := [scenarioAdd],
    inputs_ := [1], outputs_ := [1] }

/-- The state of a freshly constructed `ModelGen`. -/
def freshModelGen : ModelGen := { count_operands_ := 0, tensor_pos_ := 0 }

/-- The text `GenerateTensorsCode` writes for the end-to-end scenario. -/
def scenarioTensorsCode : List Stmt :=
  [.dimensions 0 "\x7b1,2\x7d",
   .operandType 0 "ANEURALNETWORKS_TENSOR_FLOAT32" 2 .one 0,
   .addOperand 0,
   .checkStatus "ANeuralNetworksModel_addOperand failedfor operand 0",
   .tensorSize 8,
   .setOperandValueFromMemory 0,
   .checkStatus "ANeuralNetworksModel_setOperandValueFromMemory failed for operand 0",
   .offsetAdvance,
   .dimensions 1 "\x7b1,2\x7d",
   .operandType 1 "ANEURALNETWORKS_TENSOR_FLOAT32" 2 .one 0,
   .addOperand 1,
   .checkStatus "ANeuralNetworksModel_addOperand failedfor operand 1"]

/-- The text `GenerateOpCode` writes for the end-to-end scenario. -/
def scenarioOpCode : List Stmt :=
  [.addScalarInt32 2 0,
   .newline,
   .inputOperands 0 [0, 1, 2],
   .outputOperands 0 [1],
   .addOperation 0 "ANEURALNETWORKS_ADD",
   .checkStatus "ANeuralNetworksModel_addOperation failed for operation 0"]

/-- An ADD operator that carries a `Conv2DOptions` record instead of `AddOptions`. -/
def addWithConvOptions : Operator :=
  { scenarioAdd with builtin_op := .Conv2DOptions ⟨.SAME, 1, 1, .NONE⟩ }

/-- The scenario graph with its operator replaced by `addWithConvOptions`. -/
def addWithConvOptionsGraph : Graph := { scenarioGraph with operators_ := [addWithConvOptions] }

/-- A CONV_2D operator that carries a `Pool2DOptions` record. -/
def convWithPoolOptions : Operator :=
  { index := 0, op_code := ⟨.CONV_2D, ""⟩, builtin_op_str := "CONV_2D", inputs := [0, 1],
    outputs := [1], builtin_op := .Pool2DOptions ⟨.SAME, 1, 1, 2, 2, .NONE⟩ }

/-- The scenario graph with its operator replaced by `convWithPoolOptions`. -/
def convWithPoolOptionsGraph : Graph :=
  { scenarioGraph with operators_ := [convWithPoolOptions] }

/-- A RELU operator: a kind without an entry in the hyperparameter table. -/
def reluOp : Operator :=
  { index := 0, op_code := ⟨.RELU, ""⟩, builtin_op_str := "RELU", inputs := [0],
    outputs := [1], builtin_op := .NoneOptions }

/-- The scenario graph with its operator replaced by `reluOp`. -/
def reluGraph : Graph := { scenarioGraph with operators_ := [reluOp] }

/-- A MUL operator: a kind `OpTypeStr` does not map. -/
def mulOp : Operator :=
  { index := 1, op_code := ⟨.MUL, ""⟩, builtin_op_str := "MUL", inputs := [0, 1],
    outputs := [1], builtin_op := .MulOptions .NONE }

/-- The scenario graph with a MUL operator after the ADD operator. -/
def mulGraph : Graph := { scenarioGraph with operators_ := [scenarioAdd, mulOp] }

/-- A tensor of element type INT8. -/
def int8Tensor : Tensor :=
  { shape := [4], tensor_type := .INT8, name := "q", buffer := ⟨[]⟩, buffer_index := 0,
    quantization := none }

/-- The scenario graph with an INT8 tensor added after its two tensors. -/
def int8Graph : Graph :=
  { scenarioGraph with tensors_ := [scenarioTensor0, scenarioTensor1, int8Tensor] }

/-- The text after the operator code in `Assembler`'s result for the scenario tensors and
graph-level lists. -/
def scenarioClosingCode : List Stmt :=
  [.inputIndexes 1 [1],
   .outputIndexes 1 [1],
   .identifyInputsAndOutputs 1 1,
   .modelFinish,
   .closeModelFunction,
   .setInputOpen,
   .setInput 0 0 32,
   .checkStatus "ANeuralNetworksExecution_setInput failed",
   .returnTrue,
   .setOutputOpen,
   .setOutput 0 0 32,
   .checkStatus "ANeuralNetworksExecution_setOutput failed",
   .returnTrue,
   .closeNamespace]

/-- The text `GenerateOpCode` writes for `reluGraph`. -/
def reluOpCode : List Stmt :=
  [.newline,
   .inputOperands 0 [0],
   .outputOperands 0 [1],
   .addOperation 0 "ANEURALNETWORKS_RELU",
   .checkStatus "ANeuralNetworksModel_addOperation failed for operation 0"]

/-- The scenario ADD operator with the input list `[0, 7]` and the output list `[-1]`:
7 and -1 are no positions in a sequence of two tensors. -/
def badIndexAdd : Operator := { scenarioAdd with inputs := [0, 7], outputs := [-1] }

/-- The scenario graph with its operator replaced by `badIndexAdd`. -/
def badIndexGraph : Graph := { scenarioGraph with operators_ := [badIndexAdd] }

/-- The text `GenerateOpCode` writes for `badIndexGraph`. -/
def badIndexOpCode : List Stmt :=
  [.addScalarInt32 2 0,
   .newline,
   .inputOperands 0 [0, 7, 2],
   .outputOperands 0 [-1],
   .addOperation 0 "ANEURALNETWORKS_ADD",
   .checkStatus "ANeuralNetworksModel_addOperation failed for operation 0"]

/-- A FLOAT32 tensor of shape `[2]` whose buffer holds 3 bytes. -/
def threeByteTensor : Tensor :=
  { shape := [2], tensor_type := .FLOAT32, name := "w", buffer := ⟨[1, 2, 3]⟩,
    buffer_index := 1, quantization := none }

/-- A graph whose only tensor is `threeByteTensor`. -/
def threeByteGraph : Graph :=
  { tensors_ := [threeByteTensor], operators_ := [], inputs_ := [], outputs_ := [] }

/-- An AVERAGE_POOL_2D operator with its `Pool2DOptions`. -/
def poolOp : Operator :=
  { index := 0, op_code := ⟨.AVERAGE_POOL_2D, ""⟩, builtin_op_str := "AVERAGE_POOL_2D",
    inputs := [0], outputs := [1],
    builtin_op := .Pool2DOptions ⟨.VALID, 2, 3, 4, 5, .RELU6⟩ }

/-- A CONV_2D operator with its `Conv2DOptions`. -/
def convOp : Operator :=
  { index := 0, op_code := ⟨.CONV_2D, ""⟩, builtin_op_str := "CONV_2D",
    inputs := [0, 1, 1], outputs := [1], builtin_op := .Conv2DOptions ⟨.SAME, 2, 3, .RELU⟩ }

/-- A FULLY_CONNECTED operator with its `FullyConnectedOptions`. -/
def fullyConnectedOp : Operator :=
  { index := 0, op_code := ⟨.FULLY_CONNECTED, ""⟩, builtin_op_str := "FULLY_CONNECTED",
    inputs := [0, 1, 1], outputs := [1], builtin_op := .FullyConnectedOptions ⟨.TANH⟩ }

/-- The scenario graph with the graph-level input list `[0, 1]`. -/
def twoInputGraph : Graph := { scenarioGraph with inputs_ := [0, 1] }

/-- An output directory without files. -/
def emptyDir : OutputDir := ⟨[]⟩

/-- Every stream opens. -/
def allWritable : String → Bool := fun _ => true

/-- The text `GenerateTensorsCode` writes for `threeByteGraph`. -/
def threeByteTensorsCode : List Stmt :=
  [.dimensions 0 "\x7b2\x7d",
   .operandType 0 "ANEURALNETWORKS_TENSOR_FLOAT32" 1 .one 0,
   .addOperand 0,
   .checkStatus "ANeuralNetworksModel_addOperand failedfor operand 0",
   .tensorSize 3,
   .setOperandValueFromMemory 0,
   .checkStatus "ANeuralNetworksModel_setOperandValueFromMemory failed for operand 0",
   .offsetAdvance]

/-- A UINT8 tensor of shape `[10]`. -/
def tensor_10_uint8 : Tensor :=
  { shape := [10], tensor_type := .UINT8, name := "u", buffer := ⟨[]⟩, buffer_index := 0,
    quantization := none }

/-- A FLOAT32 tensor of shape `[0,5]`. -/
def tensor_0x5_float32 : Tensor :=
  { shape := [0, 5], tensor_type := .FLOAT32, name := "z", buffer := ⟨[]⟩, buffer_index := 0,
    quantization := none }

/-- A FLOAT32 tensor of shape `[5]`. -/
def tensor_5_float32 : Tensor :=
  { shape := [5], tensor_type := .FLOAT32, name := "v", buffer := ⟨[]⟩, buffer_index := 0,
    quantization := none }

/-- A FLOAT32 tensor of the empty shape (a scalar). -/
def scalarTensor : Tensor :=
  { shape := [], tensor_type := .FLOAT32, name := "s", buffer := ⟨[]⟩, buffer_index := 0,
    quantization := none }

/-- An LSTM operator with its `LSTMOptions`: cell clip 2.5, projection clip 0. -/
def lstmOp : Operator :=
  { index := 0, op_code := ⟨.LSTM, ""⟩, builtin_op_str := "LSTM", inputs := [0],
    outputs := [1], builtin_op := .LSTMOptions ⟨5 / 2, 0, .TANH⟩ }

/-- A UINT8 tensor of shape `[65536, 65536]`: the product of the dimensions is `2^32`. -/
def tensor_65536x65536_uint8 : Tensor :=
  { shape := [65536, 65536], tensor_type := .UINT8, name := "w", buffer := ⟨[]⟩,
    buffer_index := 0, quantization := none }

/-- A UINT8 tensor of shape `[1024, 1024, 1024]` (1 GiB). -/
def tensor_1024x1024x1024_uint8 : Tensor :=
  { shape := [1024, 1024, 1024], tensor_type := .UINT8, name := "g", buffer := ⟨[]⟩,
    buffer_index := 0, quantization := none }

/-- A FLOAT32 tensor of shape `[1024, 1024, 1024]`. -/
def tensor_1024x1024x1024_float32 : Tensor :=
  { tensor_1024x1024x1024_uint8 with tensor_type := .FLOAT32 }

/-- A graph of three UINT8 tensors of 1 GiB each, all three graph-level inputs and outputs;
it has no operators. -/
def gibGraph : Graph :=
  { tensors_ := [tensor_1024x1024x1024_uint8, tensor_1024x1024x1024_uint8,
      tensor_1024x1024x1024_uint8],
    operators_ := [], inputs_ := [0, 1, 2], outputs_ := [0, 1, 2] }

theorem foldl_append_singleton {α : Type} (xs : List α) (init : List α) :
    xs.foldl (fun acc x => acc ++ [x]) init = init ++ xs := by
  induction xs generalizing init with
  | nil => simp
  | cons x xs ih => simp [List.foldl, ih]

theorem GenerateOpInputsLoop_eq (n : Nat) (str_in : List Int) (self : ModelGen) :
    GenerateOpInputsLoop n str_in self =
      (str_in ++ (List.range' self.tensor_pos_ n).map Int.ofNat,
       { self with tensor_pos_ := self.tensor_pos_ + n }) := by
  induction n generalizing str_in self with
  | zero => simp [GenerateOpInputsLoop]
  | succ n ih =>
    simp [GenerateOpInputsLoop, ih, List.range'_succ, Nat.add_assoc, Nat.add_comm 1 n]

theorem GenerateOpInputs_eq (inputs : List Int) (n : Nat) (self : ModelGen) :
    GenerateOpInputs inputs n self =
      (inputs ++ (List.range' self.tensor_pos_ n).map Int.ofNat,
       { self with tensor_pos_ := self.tensor_pos_ + n }) := by
  simp [GenerateOpInputs, foldl_append_singleton, GenerateOpInputsLoop_eq]

theorem OpParams_spec (op : Operator) (self self' : ModelGen) (n : Nat) (ss : List Stmt)
    (h : OpParams op self = .ok ((n, ss), self')) :
    self'.tensor_pos_ = self.tensor_pos_ ∧
    self'.count_operands_ = self.count_operands_ + n ∧
    scalarIndices ss = List.range' self.count_operands_ n := by
  unfold OpParams at h
  split at h <;>
    (try simp only [OpParams.check, FATAL, AddScalarInt32, AddScalarFloat32, bind, Except.bind] at h) <;>
    (try split at h) <;> (try split at h) <;>
    (try (simp at h; done)) <;>
    (simp only [Except.ok.injEq, Prod.mk.injEq] at h) <;>
    (obtain ⟨⟨rfl, rfl⟩, rfl⟩ := h) <;>
    simp [scalarIndices, List.range'_succ]


theorem GenerateTensorsCodeLoop_count (ts : List Tensor) (count : Nat) (ss : List Stmt)
    (count' : Nat) (h : GenerateTensorsCodeLoop ts count = .ok (ss, count')) :
    count' = count + ts.length := by
  induction ts generalizing count ss with
  | nil =>
    simp only [GenerateTensorsCodeLoop, Except.ok.injEq, Prod.mk.injEq] at h
    simp [h.2]
  | cons t rest ih =>
    simp only [GenerateTensorsCodeLoop, bind, Except.bind, pure, Except.pure] at h
    split at h
    · simp at h
    · split at h
      · simp at h
      · rename_i r hrest
        obtain ⟨ss2, count2⟩ := r
        simp only [Except.ok.injEq, Prod.mk.injEq] at h
        obtain ⟨_, rfl⟩ := h
        rw [ih _ _ hrest, List.length_cons]
        omega

theorem GenerateTensorsCode_state (graph : Graph) (self self' : ModelGen) (ss : List Stmt)
    (h : GenerateTensorsCode graph self = .ok (ss, self')) :
    self'.count_operands_ = graph.Tensors.length ∧
    self'.tensor_pos_ = graph.Tensors.length := by
  simp only [GenerateTensorsCode, bind, Except.bind, pure, Except.pure] at h
  split at h
  · simp at h
  · rename_i hloop
    simp only [Except.ok.injEq, Prod.mk.injEq] at h
    have := GenerateTensorsCodeLoop_count _ _ _ _ hloop
    rw [← h.2]
    simp [this]

theorem GenerateOpCodeStep_spec (op : Operator) (count : Nat) (self self' : ModelGen)
    (ss : List Stmt) (h : GenerateOpCodeStep op count self = .ok (ss, self')) :
    ∃ num_params str_params self1 op_type,
      OpParams op self = .ok ((num_params, str_params), self1) ∧
      OpTypeStr op.op_code.builtin_code = .ok op_type ∧
      ss = str_params ++
        [.newline,
         .inputOperands count (GenerateOpInputs op.inputs num_params self1).1,
         .outputOperands count (GenerateOpOutputs op.outputs),
         .addOperation count op_type,
         .checkStatus ("ANeuralNetworksModel_addOperation failed for operation "
           ++ toString count)] ∧
      self' = (GenerateOpInputs op.inputs num_params self1).2 := by
  simp only [GenerateOpCodeStep, bind, Except.bind, pure, Except.pure] at h
  split at h
  · simp at h
  · rename_i r hp
    obtain ⟨⟨n, params⟩, self1⟩ := r
    simp only at h
    split at h
    · simp at h
    · rename_i op_type ht
      simp only [Except.ok.injEq, Prod.mk.injEq] at h
      exact ⟨n, params, self1, op_type, hp, ht, h.1.symm, h.2.symm⟩

theorem GenerateOpCodeStep_inv (op : Operator) (count : Nat) (self self' : ModelGen)
    (ss : List Stmt) (h : GenerateOpCodeStep op count self = .ok (ss, self'))
    (hinv : self.count_operands_ = self.tensor_pos_) :
    self'.count_operands_ = self'.tensor_pos_ := by
  obtain ⟨n, params, self1, op_type, hp, _, _, rfl⟩ := GenerateOpCodeStep_spec _ _ _ _ _ h
  obtain ⟨h1, h2, _⟩ := OpParams_spec _ _ _ _ _ hp
  simp [GenerateOpInputs_eq, h1, h2, hinv]

theorem GenerateOpCodeLoop_inv (ops : List Operator) (count : Nat) (self self' : ModelGen)
    (ss : List Stmt) (h : GenerateOpCodeLoop ops count self = .ok (ss, self'))
    (hinv : self.count_operands_ = self.tensor_pos_) :
    self'.count_operands_ = self'.tensor_pos_ := by
  induction ops generalizing count self ss with
  | nil =>
    simp only [GenerateOpCodeLoop, Except.ok.injEq, Prod.mk.injEq] at h
    rw [← h.2]; exact hinv
  | cons op rest ih =>
    simp only [GenerateOpCodeLoop, bind, Except.bind, pure, Except.pure] at h
    split at h
    · simp at h
    · rename_i r hstep
      obtain ⟨ss1, self1⟩ := r
      simp only at h
      split at h
      · simp at h
      · rename_i r2 hrest
        obtain ⟨ss2, self2⟩ := r2
        simp only [Except.ok.injEq, Prod.mk.injEq] at h
        obtain ⟨_, rfl⟩ := h
        exact ih _ _ _ hrest (GenerateOpCodeStep_inv _ _ _ _ _ hstep hinv)

theorem GenerateOpCodeLoop_append (xs ys : List Operator) (count : Nat) (self self' : ModelGen)
    (ss : List Stmt) (h : GenerateOpCodeLoop (xs ++ ys) count self = .ok (ss, self')) :
    ∃ ss1 self1 ss2,
      GenerateOpCodeLoop xs count self = .ok (ss1, self1) ∧
      GenerateOpCodeLoop ys (count + xs.length) self1 = .ok (ss2, self') ∧
      ss = ss1 ++ ss2 := by
  induction xs generalizing count self ss with
  | nil =>
    exact ⟨[], self, ss, by simp [GenerateOpCodeLoop], by simpa using h, by simp⟩
  | cons x xs ih =>
    simp only [List.cons_append, GenerateOpCodeLoop, bind, Except.bind, pure, Except.pure] at h
    split at h
    · simp at h
    · rename_i r hstep
      obtain ⟨ssx, selfx⟩ := r
      simp only at h
      split at h
      · simp at h
      · rename_i r2 hrest
        obtain ⟨ss2, self2⟩ := r2
        simp only [Except.ok.injEq, Prod.mk.injEq] at h
        obtain ⟨rfl, rfl⟩ := h
        obtain ⟨ssa, selfa, ssb, ha, hb, hab⟩ := ih _ _ _ hrest
        refine ⟨ssx ++ ssa, selfa, ssb, ?_, ?_, ?_⟩
        · simp [GenerateOpCodeLoop, bind, Except.bind, pure, Except.pure, hstep, ha]
        · simpa [Nat.add_assoc, Nat.add_comm 1] using hb
        · rw [hab, List.append_assoc]


theorem GenerateOpCodeLoop_cons (op : Operator) (rest : List Operator) (count : Nat)
    (self self' : ModelGen) (ss : List Stmt)
    (h : GenerateOpCodeLoop (op :: rest) count self = .ok (ss, self')) :
    ∃ ssx selfx ssr,
      GenerateOpCodeStep op count self = .ok (ssx, selfx) ∧
      GenerateOpCodeLoop rest (count + 1) selfx = .ok (ssr, self') ∧
      ss = ssx ++ ssr := by
  simp only [GenerateOpCodeLoop, bind, Except.bind, pure, Except.pure] at h
  split at h
  · simp at h
  · rename_i r hstep
    obtain ⟨ssx, selfx⟩ := r
    simp only at h
    split at h
    · simp at h
    · rename_i r2 hrest
      obtain ⟨ss2, self2⟩ := r2
      simp only [Except.ok.injEq, Prod.mk.injEq] at h
      obtain ⟨rfl, rfl⟩ := h
      exact ⟨ssx, selfx, ss2, hstep, hrest, rfl⟩

/-- C1 (code defect): on the shape `[2,3]` with FLOAT32, `TensorSize` multiplies by 4 once per
dimension and returns 96, not the 24 bytes (`2 * 3 * 4`) of the tensor. -/
theorem C1_TensorSize_2x3_float32 :
    TensorSize tensor_2x3_float32 = 96 ∧ TensorSize tensor_2x3_float32 ≠ 2 * 3 * 4 := by
  decide

/-- C2: once `GenerateTensorsCode` has run, and after `GenerateOpCode` has processed any
prefix of the operators of a graph on which it does not abort, `count_operands_` equals
`tensor_pos_`; every such prefix run itself completes. -/
theorem C2_counters_in_lockstep (graph : Graph) (self0 self1 self2 : ModelGen)
    (tc oc : List Stmt)
    (hT : GenerateTensorsCode graph self0 = .ok (tc, self1))
    (hO : GenerateOpCode graph self1 = .ok (oc, self2)) :
    self1.count_operands_ = self1.tensor_pos_ ∧
    ∀ k : Nat, ∃ pre selfk,
      GenerateOpCodeLoop (graph.Operators.take k) 0 self1 = .ok (pre, selfk) ∧
      selfk.count_operands_ = selfk.tensor_pos_ := by
  obtain ⟨hc, hp⟩ := GenerateTensorsCode_state _ _ _ _ hT
  have hinv : self1.count_operands_ = self1.tensor_pos_ := by rw [hc, hp]
  refine ⟨hinv, fun k => ?_⟩
  unfold GenerateOpCode at hO
  rw [← List.take_append_drop k graph.Operators] at hO
  obtain ⟨ss1, selfk, _, h1, _, _⟩ := GenerateOpCodeLoop_append _ _ _ _ _ _ hO
  exact ⟨ss1, selfk, h1, GenerateOpCodeLoop_inv _ _ _ _ _ h1 hinv⟩

/-- C3: for every operator of a graph on which generation does not abort, the operand
indices written into the scalar-operand declarations that `OpParams` emits for it are
exactly the indices `GenerateOpInputs` appends after the operator's tensor inputs, and that
input list and those declarations are part of the generated text. -/
theorem C3_declared_scalars_are_referenced (graph : Graph) (self0 self1 self2 : ModelGen)
    (tc oc : List Stmt) (pre post : List Operator) (op : Operator)
    (hT : GenerateTensorsCode graph self0 = .ok (tc, self1))
    (hO : GenerateOpCode graph self1 = .ok (oc, self2))
    (hop : graph.Operators = pre ++ op :: post) :
    ∃ ssk selfk num_params str_params selfk',
      GenerateOpCodeLoop pre 0 self1 = .ok (ssk, selfk) ∧
      OpParams op selfk = .ok ((num_params, str_params), selfk') ∧
      (GenerateOpInputs op.inputs num_params selfk').1 =
        op.inputs ++ (scalarIndices str_params).map Int.ofNat ∧
      (scalarIndices str_params).length = num_params ∧
      Stmt.inputOperands pre.length
        (op.inputs ++ (scalarIndices str_params).map Int.ofNat) ∈ oc ∧
      ∀ s ∈ str_params, s ∈ oc := by
  obtain ⟨hc, hp⟩ := GenerateTensorsCode_state _ _ _ _ hT
  have hinv : self1.count_operands_ = self1.tensor_pos_ := by rw [hc, hp]
  unfold GenerateOpCode at hO
  rw [hop] at hO
  obtain ⟨ssk, selfk, ss2, h1, h2, rfl⟩ := GenerateOpCodeLoop_append _ _ _ _ _ _ hO
  obtain ⟨ssx, selfx, ssr, hstep, _, rfl⟩ := GenerateOpCodeLoop_cons _ _ _ _ _ _ h2
  obtain ⟨n, params, selfk', op_type, hpar, _, rfl, _⟩ :=
    GenerateOpCodeStep_spec _ _ _ _ _ hstep
  obtain ⟨e1, e2, e3⟩ := OpParams_spec _ _ _ _ _ hpar
  have hk := GenerateOpCodeLoop_inv _ _ _ _ _ h1 hinv
  have hins : (GenerateOpInputs op.inputs n selfk').1 =
      op.inputs ++ (scalarIndices params).map Int.ofNat := by
    rw [GenerateOpInputs_eq, e3, e1, hk]
  refine ⟨ssk, selfk, n, params, selfk', h1, hpar, hins, by simp [e3], ?_, ?_⟩
  · rw [← hins]
    simp
  · intro s hs
    simp [hs]


/-- C2 at the end-to-end scenario. -/
theorem C2_counters_in_lockstep_witness :
    (GenerateTensorsCode scenarioGraph freshModelGen = .ok (scenarioTensorsCode, ⟨2, 2⟩) ∧
     GenerateOpCode scenarioGraph ⟨2, 2⟩ = .ok (scenarioOpCode, ⟨3, 3⟩)) ∧
    ((⟨2, 2⟩ : ModelGen).count_operands_ = (⟨2, 2⟩ : ModelGen).tensor_pos_ ∧
     ∀ k : Nat, ∃ pre selfk,
      GenerateOpCodeLoop (scenarioGraph.Operators.take k) 0 ⟨2, 2⟩ = .ok (pre, selfk) ∧
      selfk.count_operands_ = selfk.tensor_pos_) :=
  ⟨⟨rfl, rfl⟩,
   C2_counters_in_lockstep scenarioGraph freshModelGen ⟨2, 2⟩ ⟨3, 3⟩ scenarioTensorsCode
     scenarioOpCode rfl rfl⟩

/-- C3 at the ADD operator of the end-to-end scenario. -/
theorem C3_declared_scalars_are_referenced_witness :
    scenarioGraph.Operators = [] ++ scenarioAdd :: [] ∧
    ∃ ssk selfk num_params str_params selfk',
      GenerateOpCodeLoop [] 0 ⟨2, 2⟩ = .ok (ssk, selfk) ∧
      OpParams scenarioAdd selfk = .ok ((num_params, str_params), selfk') ∧
      (GenerateOpInputs scenarioAdd.inputs num_params selfk').1 =
        scenarioAdd.inputs ++ (scalarIndices str_params).map Int.ofNat ∧
      (scalarIndices str_params).length = num_params ∧
      Stmt.inputOperands ([] : List Operator).length
        (scenarioAdd.inputs ++ (scalarIndices str_params).map Int.ofNat) ∈ scenarioOpCode ∧
      ∀ s ∈ str_params, s ∈ scenarioOpCode :=
  ⟨rfl,
   C3_declared_scalars_are_referenced scenarioGraph freshModelGen ⟨2, 2⟩ ⟨3, 3⟩
     scenarioTensorsCode scenarioOpCode [] [] scenarioAdd rfl rfl rfl⟩

theorem runLoads_append (a b : List Stmt) (st : LoadState) :
    runLoads (a ++ b) st = runLoads a st ++ runLoads b (runLoadsState a st) := by
  induction a generalizing st with
  | nil => simp [runLoads, runLoadsState]
  | cons s a ih => cases s <;> simp [runLoads, runLoadsState, ih]

theorem runLoadsState_append (a b : List Stmt) (st : LoadState) :
    runLoadsState (a ++ b) st = runLoadsState b (runLoadsState a st) := by
  induction a generalizing st with
  | nil => simp [runLoadsState]
  | cons s a ih => cases s <;> simp [runLoadsState, ih]

theorem GenerateTensorType_loads (tensor : Tensor) (count : Nat) (decl : List Stmt)
    (h : GenerateTensorType tensor count = .ok decl) (st : LoadState) :
    runLoads decl st = [] ∧ runLoadsState decl st = st := by
  simp only [GenerateTensorType, bind, Except.bind, pure, Except.pure] at h
  split at h
  · simp at h
  · simp only [Except.ok.injEq] at h
    subst h
    simp [runLoads, runLoadsState]

theorem GenerateTensorsCodeLoop_cons (tensor : Tensor) (rest : List Tensor) (count : Nat)
    (ss : List Stmt) (count' : Nat)
    (h : GenerateTensorsCodeLoop (tensor :: rest) count = .ok (ss, count')) :
    ∃ decl ss',
      GenerateTensorType tensor count = .ok decl ∧
      GenerateTensorsCodeLoop rest (count + 1) = .ok (ss', count') ∧
      ss = decl ++
        [Stmt.addOperand count,
         Stmt.checkStatus
           ("ANeuralNetworksModel_addOperand failedfor operand " ++ toString count)] ++
        (if tensor.buffer.Data.length > 0 then
          [Stmt.tensorSize tensor.buffer.Data.length,
           Stmt.setOperandValueFromMemory count,
           Stmt.checkStatus
             ("ANeuralNetworksModel_setOperandValueFromMemory failed for operand "
               ++ toString count),
           Stmt.offsetAdvance]
         else []) ++ ss' := by
  simp only [GenerateTensorsCodeLoop, bind, Except.bind, pure, Except.pure] at h
  split at h
  · simp at h
  · rename_i decl hdecl
    split at h
    · simp at h
    · rename_i r hrest
      obtain ⟨ss', c2⟩ := r
      simp only [Except.ok.injEq, Prod.mk.injEq] at h
      obtain ⟨rfl, rfl⟩ := h
      exact ⟨decl, ss', hdecl, hrest, rfl⟩

theorem precedingWeightBytes_append (pre ts : List Tensor) :
    precedingWeightBytes (pre ++ ts) pre.length =
      (((pre.filter (fun t => !t.buffer.Data.isEmpty)).map
        (fun t => t.buffer.Data.length)).sum) := by
  simp [precedingWeightBytes]

theorem precedingWeightBytes_succ (pre rest : List Tensor) (t : Tensor) :
    precedingWeightBytes (pre ++ t :: rest) (pre.length + 1) =
      precedingWeightBytes (pre ++ t :: rest) pre.length + t.buffer.Data.length := by
  have h : pre ++ t :: rest = (pre ++ [t]) ++ rest := by simp
  have hl : pre.length + 1 = (pre ++ [t]).length := by simp
  rw [precedingWeightBytes_append, h, hl, precedingWeightBytes_append]
  cases hd : t.buffer.Data with
  | nil => simp [List.filter_append, hd]
  | cons b bs => simp [List.filter_append, hd]

theorem runLoads_GenerateTensorsCodeLoop (ts pre : List Tensor) (ss : List Stmt) (count' : Nat)
    (tensor_size : Nat)
    (h : GenerateTensorsCodeLoop ts pre.length = .ok (ss, count')) :
    runLoads ss ⟨precedingWeightBytes (pre ++ ts) pre.length, tensor_size⟩ =
      (List.range' pre.length ts.length).filterMap (expectedLoadAt (pre ++ ts)) := by
  induction ts generalizing pre ss tensor_size with
  | nil =>
    simp only [GenerateTensorsCodeLoop, Except.ok.injEq, Prod.mk.injEq] at h
    obtain ⟨rfl, _⟩ := h
    simp [runLoads]
  | cons t rest ih =>
    obtain ⟨decl, ss', hdecl, hrest, rfl⟩ := GenerateTensorsCodeLoop_cons _ _ _ _ _ h
    have hl : pre.length + 1 = (pre ++ [t]).length := by simp
    have happ : pre ++ t :: rest = (pre ++ [t]) ++ rest := by simp
    rw [hl] at hrest
    have hget : (pre ++ t :: rest).get? pre.length = some t := by
      rw [List.get?_eq_getElem?, List.getElem?_append_right (Nat.le_refl _)]
      simp
    rw [List.length_cons, List.range'_succ, List.filterMap_cons]
    simp only [runLoads_append, runLoadsState_append,
      (GenerateTensorType_loads _ _ _ hdecl _).1, (GenerateTensorType_loads _ _ _ hdecl _).2,
      List.nil_append]
    have hexp : expectedLoadAt (pre ++ t :: rest) pre.length =
        if t.buffer.Data.isEmpty then none
        else some ⟨pre.length, precedingWeightBytes (pre ++ t :: rest) pre.length,
          t.buffer.Data.length⟩ := by
      simp only [expectedLoadAt, hget]
    have hw := precedingWeightBytes_succ pre rest t
    rw [hexp]
    cases hd : t.buffer.Data with
    | nil =>
      have := ih (pre ++ [t]) ss' tensor_size hrest
      rw [← happ, ← hl, hw] at this
      simp only [hd, List.length_nil, Nat.add_zero] at this
      simp [runLoads, runLoadsState, this]
    | cons b bs =>
      have := ih (pre ++ [t]) ss' t.buffer.Data.length hrest
      rw [← happ, ← hl, hw] at this
      simp only [hd, List.length_cons] at this
      simp [runLoads, runLoadsState, this]

theorem runLoads_GenerateTensorsCode (graph : Graph) (self self' : ModelGen) (tc : List Stmt)
    (h : GenerateTensorsCode graph self = .ok (tc, self')) (tensor_size : Nat) :
    runLoads tc ⟨0, tensor_size⟩ = expectedLoads graph.Tensors := by
  simp only [GenerateTensorsCode, bind, Except.bind, pure, Except.pure] at h
  split at h
  · simp at h
  · rename_i r hloop
    obtain ⟨ss, c⟩ := r
    simp only [Except.ok.injEq, Prod.mk.injEq] at h
    obtain ⟨rfl, _⟩ := h
    have := runLoads_GenerateTensorsCodeLoop graph.Tensors [] ss c tensor_size hloop
    simpa [precedingWeightBytes, expectedLoads, List.range_eq_range'] using this

theorem foldl_snoc_bytes (xs : List Byte) (init : List Byte) :
    xs.foldl (fun str_buf c => str_buf ++ [c]) init = init ++ xs := by
  induction xs generalizing init with
  | nil => simp
  | cons x xs ih => simp [List.foldl, ih]

theorem concatWeights_cons (t : Tensor) (rest : List Tensor) :
    concatWeights (t :: rest) = t.buffer.Data ++ concatWeights rest := by
  cases hd : t.buffer.Data with
  | nil => simp [concatWeights, List.filter_cons, hd]
  | cons b bs => simp [concatWeights, List.filter_cons, hd]

theorem concatWeights_append (pre ts : List Tensor) :
    concatWeights (pre ++ ts) = concatWeights pre ++ concatWeights ts := by
  simp [concatWeights, List.filter_append]

theorem concatWeights_length (ts : List Tensor) :
    (concatWeights ts).length = precedingWeightBytes ts ts.length := by
  simp [concatWeights, precedingWeightBytes, List.length_flatten, Function.comp_def]

theorem Generate_foldl (ts : List Tensor) (init : List Byte) :
    ts.foldl
      (fun str_buf t =>
        if !t.buffer.Data.isEmpty then
          t.buffer.Data.foldl (fun str_buf c => str_buf ++ [c]) str_buf
        else str_buf)
      init = init ++ concatWeights ts := by
  induction ts generalizing init with
  | nil => simp [concatWeights]
  | cons t rest ih =>
    rw [List.foldl_cons, ih, concatWeights_cons, foldl_snoc_bytes]
    cases hd : t.buffer.Data with
    | nil => simp
    | cons b bs => simp

theorem Generate_eq_concatWeights (graph : Graph) :
    TensorsHeader.Generate graph = concatWeights graph.Tensors := by
  unfold TensorsHeader.Generate
  rw [Generate_foldl]
  simp

theorem blobSlice_expectedLoadAt (tensors : List Tensor) (i : Nat) (l : Load)
    (h : expectedLoadAt tensors i = some l) :
    ∃ t, tensors.get? i = some t ∧ t.buffer.Data ≠ [] ∧ l.operand = i ∧
      l.offset = precedingWeightBytes tensors i ∧ l.length = t.buffer.Data.length ∧
      blobSlice (concatWeights tensors) l = t.buffer.Data := by
  unfold expectedLoadAt at h
  split at h
  · rename_i t hget
    split at h
    · simp at h
    · rename_i hne
      simp only [Option.some.injEq] at h
      subst h
      refine ⟨t, hget, by simpa using hne, rfl, rfl, rfl, ?_⟩
      have hi : i < tensors.length := by
        rw [List.get?_eq_getElem?] at hget
        exact (List.getElem?_eq_some_iff.mp hget).1
      have hsplit : tensors = tensors.take i ++ t :: tensors.drop (i + 1) := by
        rw [List.get?_eq_getElem?] at hget
        have := (List.getElem?_eq_some_iff.mp hget).2
        rw [← this]
        simp
      have hlen : (concatWeights (tensors.take i)).length = precedingWeightBytes tensors i := by
        rw [concatWeights_length]
        simp [precedingWeightBytes, List.take_take, Nat.min_eq_left (Nat.le_of_lt hi)]
      have hcw : concatWeights tensors =
          concatWeights (tensors.take i) ++
            (t.buffer.Data ++ concatWeights (tensors.drop (i + 1))) := by
        conv => lhs; rw [hsplit, concatWeights_append, concatWeights_cons]
      simp only [blobSlice]
      rw [← hlen, hcw, List.drop_left, List.take_left]
  · simp at h

theorem expectedLoadAt_of_get (tensors : List Tensor) (i : Nat) (t : Tensor)
    (hget : tensors.get? i = some t) (hne : t.buffer.Data ≠ []) :
    expectedLoadAt tensors i =
      some ⟨i, precedingWeightBytes tensors i, t.buffer.Data.length⟩ := by
  unfold expectedLoadAt
  rw [hget]
  simp [hne]

/-- C4: for every graph on which `GenerateTensorsCode` returns text, running that text from
`offset = 0` makes one `setOperandValueFromMemory` call per tensor with a non-empty buffer,
in declaration order, and the `offset` at the call of tensor `i` is the sum of the buffer
byte lengths of the non-empty-buffer tensors before `i`. -/
theorem C4_load_offset_is_preceding_weight_bytes (graph : Graph) (self self' : ModelGen)
    (tc : List Stmt) (tensor_size : Nat)
    (hT : GenerateTensorsCode graph self = .ok (tc, self')) :
    runLoads tc ⟨0, tensor_size⟩ = expectedLoads graph.Tensors ∧
    (∀ i t, graph.Tensors.get? i = some t → t.buffer.Data ≠ [] →
      (⟨i, precedingWeightBytes graph.Tensors i, t.buffer.Data.length⟩ : Load) ∈
        runLoads tc ⟨0, tensor_size⟩) ∧
    (∀ l ∈ runLoads tc ⟨0, tensor_size⟩,
      l.offset = precedingWeightBytes graph.Tensors l.operand) := by
  have hrun := runLoads_GenerateTensorsCode graph self self' tc hT tensor_size
  refine ⟨hrun, ?_, ?_⟩
  · intro i t hget hne
    rw [hrun, expectedLoads, List.mem_filterMap]
    refine ⟨i, ?_, ?_⟩
    · rw [List.mem_range]
      rw [List.get?_eq_getElem?] at hget
      exact (List.getElem?_eq_some_iff.mp hget).1
    · exact expectedLoadAt_of_get _ _ _ hget hne
  · intro l hl
    rw [hrun, expectedLoads, List.mem_filterMap] at hl
    obtain ⟨i, _, hi⟩ := hl
    obtain ⟨t, _, _, hop, hoff, _, _⟩ := blobSlice_expectedLoadAt _ _ _ hi
    rw [hoff, hop]

/-- C4 at the end-to-end scenario: the one load is at offset 0. -/
theorem C4_load_offset_is_preceding_weight_bytes_witness :
    GenerateTensorsCode scenarioGraph freshModelGen = .ok (scenarioTensorsCode, ⟨2, 2⟩) ∧
    (runLoads scenarioTensorsCode ⟨0, 0⟩ = expectedLoads scenarioGraph.Tensors ∧
    (∀ i t, scenarioGraph.Tensors.get? i = some t → t.buffer.Data ≠ [] →
      (⟨i, precedingWeightBytes scenarioGraph.Tensors i, t.buffer.Data.length⟩ : Load) ∈
        runLoads scenarioTensorsCode ⟨0, 0⟩) ∧
    (∀ l ∈ runLoads scenarioTensorsCode ⟨0, 0⟩,
      l.offset = precedingWeightBytes scenarioGraph.Tensors l.operand)) :=
  ⟨rfl, C4_load_offset_is_preceding_weight_bytes scenarioGraph freshModelGen ⟨2, 2⟩
    scenarioTensorsCode 0 rfl⟩

/-- C5: the weight blob of `TensorsHeader::Generate` is the concatenation, in declaration
order, of the buffers of the tensors with a non-empty buffer; its length is the sum of their
lengths; the loads of the text of `GenerateTensorsCode` are those of exactly these tensors,
and the blob slice at a load's generated offset and `tensor_size` is that tensor's buffer. -/
theorem C5_weight_blob_round_trip (graph : Graph) :
    TensorsHeader.Generate graph = concatWeights graph.Tensors ∧
    (TensorsHeader.Generate graph).length =
      precedingWeightBytes graph.Tensors graph.Tensors.length ∧
    ∀ (self self' : ModelGen) (tc : List Stmt) (tensor_size : Nat),
      GenerateTensorsCode graph self = .ok (tc, self') →
      (∀ i t, graph.Tensors.get? i = some t → t.buffer.Data ≠ [] →
        ∃ l ∈ runLoads tc ⟨0, tensor_size⟩, l.operand = i ∧
          blobSlice (TensorsHeader.Generate graph) l = t.buffer.Data) ∧
      (∀ l ∈ runLoads tc ⟨0, tensor_size⟩,
        ∃ t, graph.Tensors.get? l.operand = some t ∧ t.buffer.Data ≠ [] ∧
          l.length = t.buffer.Data.length ∧
          blobSlice (TensorsHeader.Generate graph) l = t.buffer.Data) := by
  refine ⟨Generate_eq_concatWeights graph, ?_, ?_⟩
  · rw [Generate_eq_concatWeights, concatWeights_length]
  · intro self self' tc tensor_size hT
    have hrun := runLoads_GenerateTensorsCode graph self self' tc hT tensor_size
    rw [hrun, Generate_eq_concatWeights]
    constructor
    · intro i t hget hne
      have hi : i < graph.Tensors.length := by
        rw [List.get?_eq_getElem?] at hget
        exact (List.getElem?_eq_some_iff.mp hget).1
      have hexp : expectedLoadAt graph.Tensors i =
          some ⟨i, precedingWeightBytes graph.Tensors i, t.buffer.Data.length⟩ :=
        expectedLoadAt_of_get _ _ _ hget hne
      obtain ⟨t', hget', _, hop, _, _, hslice⟩ := blobSlice_expectedLoadAt _ _ _ hexp
      rw [hget] at hget'
      simp only [Option.some.injEq] at hget'
      subst hget'
      refine ⟨_, ?_, hop, hslice⟩
      rw [expectedLoads, List.mem_filterMap]
      exact ⟨i, List.mem_range.mpr hi, hexp⟩
    · intro l hl
      rw [expectedLoads, List.mem_filterMap] at hl
      obtain ⟨i, _, hi⟩ := hl
      obtain ⟨t, hget, hne, hop, _, hlen, hslice⟩ := blobSlice_expectedLoadAt _ _ _ hi
      exact ⟨t, by rw [hop]; exact hget, hne, hlen, hslice⟩

/-- C5 at the end-to-end scenario. -/
theorem C5_weight_blob_round_trip_witness :
    GenerateTensorsCode scenarioGraph freshModelGen = .ok (scenarioTensorsCode, ⟨2, 2⟩) ∧
    (∀ i t, scenarioGraph.Tensors.get? i = some t → t.buffer.Data ≠ [] →
      ∃ l ∈ runLoads scenarioTensorsCode ⟨0, 0⟩, l.operand = i ∧
        blobSlice (TensorsHeader.Generate scenarioGraph) l = t.buffer.Data) ∧
    (∀ l ∈ runLoads scenarioTensorsCode ⟨0, 0⟩,
      ∃ t, scenarioGraph.Tensors.get? l.operand = some t ∧ t.buffer.Data ≠ [] ∧
        l.length = t.buffer.Data.length ∧
        blobSlice (TensorsHeader.Generate scenarioGraph) l = t.buffer.Data) :=
  ⟨rfl, (C5_weight_blob_round_trip scenarioGraph).2.2 freshModelGen ⟨2, 2⟩
    scenarioTensorsCode 0 rfl⟩

/-- C6: the end-to-end scenario.  Operand declarations 0 and 1 carry scale `1.0f` and
zero-point 0; the single scalar-operand declaration has index 2; the operation-build call of
operator 0 has input list 0, 1, 2 and output list 1; the weight blob has exactly 8 bytes and
is loaded once, for operand 0, at offset 0 with length 8. -/
theorem C6_end_to_end_scenario :
    GenerateTensorsCode scenarioGraph freshModelGen = .ok (scenarioTensorsCode, ⟨2, 2⟩) ∧
    GenerateOpCode scenarioGraph ⟨2, 2⟩ = .ok (scenarioOpCode, ⟨3, 3⟩) ∧
    Assembler scenarioGraph freshModelGen =
      .ok ([Stmt.header] ++ scenarioTensorsCode ++ scenarioOpCode ++ scenarioClosingCode,
           ⟨3, 3⟩) ∧
    scalarIndices
      ([Stmt.header] ++ scenarioTensorsCode ++ scenarioOpCode ++ scenarioClosingCode) = [2] ∧
    runLoads scenarioTensorsCode ⟨0, 0⟩ = [⟨0, 0, 8⟩] ∧
    (TensorsHeader.Generate scenarioGraph).length = 8 ∧
    blobSlice (TensorsHeader.Generate scenarioGraph) ⟨0, 0, 8⟩ = scenarioTensor0.buffer.Data :=
  ⟨rfl, rfl, rfl, rfl, rfl, rfl, rfl⟩

theorem TensorTypeStr_error (type : TensorType) (e : Error)
    (h : TensorTypeStr type = .error e) : ∃ msg, e = .fatal msg := by
  cases type <;> simp [TensorTypeStr, FATAL] at h <;> exact ⟨_, h.symm⟩

theorem TensorTypeStr_aborts (type : TensorType)
    (h : type ≠ .FLOAT32 ∧ type ≠ .INT32 ∧ type ≠ .UINT8) : Aborts (TensorTypeStr type) := by
  cases type <;> simp_all [TensorTypeStr, FATAL, Aborts]

theorem GenerateTensorType_error (tensor : Tensor) (count : Nat) (e : Error)
    (h : GenerateTensorType tensor count = .error e) : ∃ msg, e = .fatal msg := by
  simp only [GenerateTensorType, bind, Except.bind, pure, Except.pure] at h
  split at h
  · rename_i e' he
    simp only [Except.error.injEq] at h
    subst h
    exact TensorTypeStr_error _ _ he
  · simp at h

theorem GenerateTensorType_aborts (tensor : Tensor) (count : Nat)
    (h : Aborts (TensorTypeStr tensor.tensor_type)) :
    Aborts (GenerateTensorType tensor count) := by
  obtain ⟨msg, hmsg⟩ := h
  exact ⟨msg, by simp [GenerateTensorType, bind, Except.bind, hmsg]⟩

theorem GenerateTensorsCodeLoop_error (ts : List Tensor) (count : Nat) (e : Error)
    (h : GenerateTensorsCodeLoop ts count = .error e) : ∃ msg, e = .fatal msg := by
  induction ts generalizing count with
  | nil => simp [GenerateTensorsCodeLoop] at h
  | cons t rest ih =>
    simp only [GenerateTensorsCodeLoop, bind, Except.bind, pure, Except.pure] at h
    split at h
    · rename_i e' he
      simp only [Except.error.injEq] at h
      subst h
      exact GenerateTensorType_error _ _ _ he
    · split at h
      · rename_i e' he
        simp only [Except.error.injEq] at h
        subst h
        exact ih _ he
      · simp at h

theorem GenerateTensorsCodeLoop_aborts (ts : List Tensor) (count : Nat) (t : Tensor)
    (hmem : t ∈ ts) (h : Aborts (TensorTypeStr t.tensor_type)) :
    Aborts (GenerateTensorsCodeLoop ts count) := by
  induction ts generalizing count with
  | nil => simp at hmem
  | cons t' rest ih =>
    cases hd : GenerateTensorType t' count with
    | error e =>
      obtain ⟨msg, rfl⟩ := GenerateTensorType_error _ _ _ hd
      exact ⟨msg, by simp [GenerateTensorsCodeLoop, bind, Except.bind, hd]⟩
    | ok decl =>
      rcases List.mem_cons.mp hmem with rfl | hrest
      · obtain ⟨msg, hmsg⟩ := GenerateTensorType_aborts t count h
        rw [hd] at hmsg
        simp at hmsg
      · obtain ⟨msg, hmsg⟩ := ih (count + 1) hrest
        exact ⟨msg, by simp [GenerateTensorsCodeLoop, bind, Except.bind, hd, hmsg]⟩

theorem GenerateTensorsCode_error (graph : Graph) (self : ModelGen) (e : Error)
    (h : GenerateTensorsCode graph self = .error e) : ∃ msg, e = .fatal msg := by
  simp only [GenerateTensorsCode, bind, Except.bind, pure, Except.pure] at h
  split at h
  · rename_i e' he
    simp only [Except.error.injEq] at h
    subst h
    exact GenerateTensorsCodeLoop_error _ _ _ he
  · simp at h

theorem GenerateTensorsCode_aborts (graph : Graph) (self : ModelGen) (t : Tensor)
    (hmem : t ∈ graph.Tensors) (h : Aborts (TensorTypeStr t.tensor_type)) :
    Aborts (GenerateTensorsCode graph self) := by
  obtain ⟨msg, hmsg⟩ := GenerateTensorsCodeLoop_aborts graph.Tensors 0 t hmem h
  exact ⟨msg, by simp [GenerateTensorsCode, bind, Except.bind, hmsg]⟩

theorem OpTypeStr_error (op_type : BuiltinOperator) (e : Error)
    (h : OpTypeStr op_type = .error e) : ∃ msg, e = .fatal msg := by
  cases op_type <;> simp [OpTypeStr, FATAL] at h <;> exact ⟨_, h.symm⟩

theorem OpParams_error (op : Operator) (self : ModelGen) (e : Error)
    (h : OpParams op self = .error e) : ∃ msg, e = .fatal msg := by
  unfold OpParams at h
  split at h <;>
    (try simp only [OpParams.check, FATAL, AddScalarInt32, AddScalarFloat32, bind,
      Except.bind] at h) <;>
    (try split at h) <;> (try split at h) <;>
    (try (simp at h; done)) <;>
    (simp only [Except.error.injEq] at h) <;>
    first
    | exact ⟨_, h.symm⟩
    | (subst h
       rename_i heq
       split at heq
       · simp only [Except.error.injEq] at heq
         exact ⟨_, heq.symm⟩
       · simp at heq)

theorem GenerateOpCodeStep_error (op : Operator) (count : Nat) (self : ModelGen) (e : Error)
    (h : GenerateOpCodeStep op count self = .error e) : ∃ msg, e = .fatal msg := by
  simp only [GenerateOpCodeStep, bind, Except.bind, pure, Except.pure] at h
  split at h
  · rename_i e' he
    simp only [Except.error.injEq] at h
    subst h
    exact OpParams_error _ _ _ he
  · split at h
    · rename_i e' he
      simp only [Except.error.injEq] at h
      subst h
      exact OpTypeStr_error _ _ he
    · simp at h

theorem GenerateOpCodeStep_aborts_of_OpParams (op : Operator) (count : Nat) (self : ModelGen)
    (h : Aborts (OpParams op self)) : Aborts (GenerateOpCodeStep op count self) := by
  obtain ⟨msg, hmsg⟩ := h
  exact ⟨msg, by simp [GenerateOpCodeStep, bind, Except.bind, hmsg]⟩

theorem GenerateOpCodeStep_aborts_of_OpTypeStr (op : Operator) (count : Nat) (self : ModelGen)
    (h : Aborts (OpTypeStr op.op_code.builtin_code)) :
    Aborts (GenerateOpCodeStep op count self) := by
  obtain ⟨msg, hmsg⟩ := h
  cases hp : OpParams op self with
  | error e =>
    obtain ⟨msg', rfl⟩ := OpParams_error _ _ _ hp
    exact ⟨msg', by simp [GenerateOpCodeStep, bind, Except.bind, hp]⟩
  | ok r =>
    exact ⟨msg, by simp [GenerateOpCodeStep, bind, Except.bind, hp, hmsg]⟩

theorem GenerateOpCodeLoop_aborts_of_mem (ops : List Operator) (op : Operator)
    (hstep : ∀ count self, Aborts (GenerateOpCodeStep op count self)) (hmem : op ∈ ops)
    (count : Nat) (self : ModelGen) : Aborts (GenerateOpCodeLoop ops count self) := by
  induction ops generalizing count self with
  | nil => simp at hmem
  | cons op' rest ih =>
    cases hd : GenerateOpCodeStep op' count self with
    | error e =>
      obtain ⟨msg, rfl⟩ := GenerateOpCodeStep_error _ _ _ _ hd
      exact ⟨msg, by simp [GenerateOpCodeLoop, bind, Except.bind, hd]⟩
    | ok r =>
      rcases List.mem_cons.mp hmem with rfl | hrest
      · obtain ⟨msg, hmsg⟩ := hstep count self
        rw [hd] at hmsg
        simp at hmsg
      · obtain ⟨msg, hmsg⟩ := ih hrest (count + 1) r.2
        exact ⟨msg, by simp [GenerateOpCodeLoop, bind, Except.bind, hd, hmsg]⟩

theorem Assembler_aborts_of_tensors (graph : Graph) (self : ModelGen)
    (h : Aborts (GenerateTensorsCode graph self)) : Aborts (Assembler graph self) := by
  obtain ⟨msg, hmsg⟩ := h
  exact ⟨msg, by simp [Assembler, bind, Except.bind, hmsg]⟩

theorem Assembler_aborts_of_ops (graph : Graph) (self : ModelGen)
    (h : ∀ self', Aborts (GenerateOpCode graph self')) : Aborts (Assembler graph self) := by
  cases ht : GenerateTensorsCode graph self with
  | error e =>
    obtain ⟨msg, rfl⟩ := GenerateTensorsCode_error _ _ _ ht
    exact ⟨msg, by simp [Assembler, bind, Except.bind, ht]⟩
  | ok r =>
    obtain ⟨msg, hmsg⟩ := h r.2
    exact ⟨msg, by simp [Assembler, bind, Except.bind, ht, hmsg]⟩

theorem OpParams_aborts_of_tag_mismatch (op : Operator) (self : ModelGen)
    (type : BuiltinOptionsType)
    (hchk : checkedOptionsType op.op_code.builtin_code = some type)
    (hne : op.builtin_op.type ≠ type) : Aborts (OpParams op self) := by
  unfold OpParams
  cases hcode : op.op_code.builtin_code <;>
    simp only [checkedOptionsType, hcode, Option.some.injEq, reduceCtorEq] at hchk <;>
    subst hchk <;>
    exact ⟨"Operator node type wrong",
      by simp [OpParams.check, FATAL, bind, Except.bind, hne]⟩

theorem OpTypeStr_aborts_iff (op_type : BuiltinOperator) :
    Aborts (OpTypeStr op_type) ↔ op_type ∉ mappedKinds := by
  cases op_type <;> simp [OpTypeStr, FATAL, Aborts, mappedKinds]

/-- C7 (counterexample): an ADD operator whose options record is a `Conv2DOptions` (tag
different from `AddOptions`) is accepted: `OpParams` returns its one declaration and
`Assembler` returns the full text. -/
theorem C7_add_is_not_tag_checked :
    addWithConvOptions.op_code.builtin_code = .ADD ∧
    addWithConvOptions.builtin_op.type = .Conv2DOptions ∧
    addWithConvOptions.builtin_op.type ≠ .AddOptions ∧
    OpParams addWithConvOptions ⟨2, 2⟩ = .ok ((1, [.addScalarInt32 2 0]), ⟨3, 2⟩) ∧
    ¬ Aborts (OpParams addWithConvOptions ⟨2, 2⟩) ∧
    Assembler addWithConvOptionsGraph freshModelGen =
      .ok ([Stmt.header] ++ scenarioTensorsCode ++ scenarioOpCode ++ scenarioClosingCode,
           ⟨3, 3⟩) ∧
    ¬ Aborts (Assembler addWithConvOptionsGraph freshModelGen) := by
  refine ⟨rfl, rfl, by decide, rfl, ?_, rfl, ?_⟩
  · rintro ⟨msg, h⟩
    have e : OpParams addWithConvOptions ⟨2, 2⟩ =
        .ok ((1, [.addScalarInt32 2 0]), ⟨3, 2⟩) := rfl
    rw [e] at h
    cases h
  · rintro ⟨msg, h⟩
    have e : Assembler addWithConvOptionsGraph freshModelGen =
        .ok ([Stmt.header] ++ scenarioTensorsCode ++ scenarioOpCode ++ scenarioClosingCode,
             ⟨3, 3⟩) := rfl
    rw [e] at h
    cases h

/-- C7 (amended): for every operator whose kind is one for which `OpParams` calls `check`
(the pooling kinds, CONV_2D, DEPTHWISE_CONV_2D, FULLY_CONNECTED, CONCATENATION, SOFTMAX,
SPACE_TO_DEPTH, LSTM) and whose options tag differs from the tag checked for that kind,
`OpParams` aborts, and so do `GenerateOpCode` and `Assembler` on every graph containing it. -/
theorem C7_checked_kind_tag_mismatch_aborts (graph : Graph) (self : ModelGen) (op : Operator)
    (type : BuiltinOptionsType) (hmem : op ∈ graph.Operators)
    (hchk : checkedOptionsType op.op_code.builtin_code = some type)
    (hne : op.builtin_op.type ≠ type) :
    (∀ self', Aborts (OpParams op self')) ∧
    (∀ self', Aborts (GenerateOpCode graph self')) ∧
    Aborts (Assembler graph self) := by
  have hp : ∀ self', Aborts (OpParams op self') :=
    fun self' => OpParams_aborts_of_tag_mismatch op self' type hchk hne
  have ho : ∀ self', Aborts (GenerateOpCode graph self') := fun self' =>
    GenerateOpCodeLoop_aborts_of_mem graph.Operators op
      (fun c s => GenerateOpCodeStep_aborts_of_OpParams op c s (hp s)) hmem 0 self'
  exact ⟨hp, ho, Assembler_aborts_of_ops graph self ho⟩

/-- C7 (amended) at a CONV_2D operator that carries `Pool2DOptions`. -/
theorem C7_checked_kind_tag_mismatch_aborts_witness :
    (convWithPoolOptions ∈ convWithPoolOptionsGraph.Operators ∧
     checkedOptionsType convWithPoolOptions.op_code.builtin_code = some .Conv2DOptions ∧
     convWithPoolOptions.builtin_op.type ≠ .Conv2DOptions) ∧
    ((∀ self', Aborts (OpParams convWithPoolOptions self')) ∧
     (∀ self', Aborts (GenerateOpCode convWithPoolOptionsGraph self')) ∧
     Aborts (Assembler convWithPoolOptionsGraph freshModelGen)) :=
  ⟨⟨by decide, rfl, by decide⟩,
   C7_checked_kind_tag_mismatch_aborts convWithPoolOptionsGraph freshModelGen
     convWithPoolOptions .Conv2DOptions (by decide) rfl (by decide)⟩

/-- C8 (counterexample): RELU has no entry in the hyperparameter table of `OpParams`, yet
`Assembler` returns the full text for a graph whose operator is a RELU. -/
theorem C8_relu_graph_is_generated :
    reluOp ∈ reluGraph.Operators ∧
    inParamTable reluOp.op_code.builtin_code = false ∧
    OpParams reluOp ⟨2, 2⟩ = .ok ((0, []), ⟨2, 2⟩) ∧
    Assembler reluGraph freshModelGen =
      .ok ([Stmt.header] ++ scenarioTensorsCode ++ reluOpCode ++ scenarioClosingCode,
           ⟨2, 2⟩) ∧
    ¬ Aborts (Assembler reluGraph freshModelGen) := by
  refine ⟨by decide, rfl, rfl, rfl, ?_⟩
  rintro ⟨msg, h⟩
  have e : Assembler reluGraph freshModelGen =
      .ok ([Stmt.header] ++ scenarioTensorsCode ++ reluOpCode ++ scenarioClosingCode,
           ⟨2, 2⟩) := rfl
  rw [e] at h
  cases h

/-- C8 (amended): for every graph containing an operator whose kind has no entry in the
hyperparameter table of `OpParams` and is not one of RELU, RELU6, TANH, LOGISTIC, RESHAPE
(the kinds `OpTypeStr` maps without a table entry), `Assembler` aborts and returns no text. -/
theorem C8_kind_without_table_entry_or_mapping_aborts (graph : Graph) (self : ModelGen)
    (op : Operator) (hmem : op ∈ graph.Operators)
    (htab : inParamTable op.op_code.builtin_code = false)
    (hmap : op.op_code.builtin_code ∉
      [BuiltinOperator.RELU, .RELU6, .TANH, .LOGISTIC, .RESHAPE]) :
    Aborts (Assembler graph self) := by
  have ht : Aborts (OpTypeStr op.op_code.builtin_code) := by
    cases hcode : op.op_code.builtin_code <;>
      simp_all [inParamTable, OpTypeStr, FATAL, Aborts]
  exact Assembler_aborts_of_ops graph self (fun self' =>
    GenerateOpCodeLoop_aborts_of_mem graph.Operators op
      (fun c s => GenerateOpCodeStep_aborts_of_OpTypeStr op c s ht) hmem 0 self')

/-- C8 (amended) at the graph with a MUL operator. -/
theorem C8_kind_without_table_entry_or_mapping_aborts_witness :
    (mulOp ∈ mulGraph.Operators ∧
     inParamTable mulOp.op_code.builtin_code = false ∧
     mulOp.op_code.builtin_code ∉
       [BuiltinOperator.RELU, .RELU6, .TANH, .LOGISTIC, .RESHAPE]) ∧
    Aborts (Assembler mulGraph freshModelGen) :=
  ⟨⟨by decide, rfl, by decide⟩,
   C8_kind_without_table_entry_or_mapping_aborts mulGraph freshModelGen mulOp
     (by decide) rfl (by decide)⟩

/-- C9: `TensorTypeStr` aborts exactly for the element types other than FLOAT32, INT32 and
UINT8 and returns a name for those three; on every graph containing a tensor of another
element type `GenerateTensorsCode` and `Assembler` abort. -/
theorem C9_unsupported_tensor_type_aborts :
    (∀ type : TensorType,
      Aborts (TensorTypeStr type) ↔ (type ≠ .FLOAT32 ∧ type ≠ .INT32 ∧ type ≠ .UINT8)) ∧
    (∀ type : TensorType, (type = .FLOAT32 ∨ type = .INT32 ∨ type = .UINT8) →
      ∃ s, TensorTypeStr type = .ok s) ∧
    (∀ (graph : Graph) (self : ModelGen) (t : Tensor), t ∈ graph.Tensors →
      (t.tensor_type ≠ .FLOAT32 ∧ t.tensor_type ≠ .INT32 ∧ t.tensor_type ≠ .UINT8) →
      Aborts (GenerateTensorsCode graph self) ∧ Aborts (Assembler graph self)) := by
  refine ⟨?_, ?_, ?_⟩
  · intro type
    cases type <;> simp [TensorTypeStr, FATAL, Aborts]
  · intro type h
    rcases h with rfl | rfl | rfl <;> exact ⟨_, rfl⟩
  · intro graph self t hmem hty
    have h := GenerateTensorsCode_aborts graph self t hmem (TensorTypeStr_aborts _ hty)
    exact ⟨h, Assembler_aborts_of_tensors graph self h⟩

/-- C9 at the graph with an INT8 tensor. -/
theorem C9_unsupported_tensor_type_aborts_witness :
    (int8Tensor ∈ int8Graph.Tensors ∧
     (int8Tensor.tensor_type ≠ .FLOAT32 ∧ int8Tensor.tensor_type ≠ .INT32 ∧
      int8Tensor.tensor_type ≠ .UINT8)) ∧
    (Aborts (GenerateTensorsCode int8Graph freshModelGen) ∧
     Aborts (Assembler int8Graph freshModelGen)) :=
  ⟨⟨by decide, by decide⟩,
   C9_unsupported_tensor_type_aborts.2.2 int8Graph freshModelGen int8Tensor
     (by decide) (by decide)⟩

/-- C10: `OpTypeStr` aborts exactly for the operator kinds outside the sixteen it maps and
returns a name for those sixteen; on every graph containing an operator of an unmapped kind
`GenerateOpCode` aborts. -/
theorem C10_unmapped_operator_kind_aborts :
    (∀ op_type : BuiltinOperator, Aborts (OpTypeStr op_type) ↔ op_type ∉ mappedKinds) ∧
    (∀ op_type : BuiltinOperator, op_type ∈ mappedKinds → ∃ s, OpTypeStr op_type = .ok s) ∧
    mappedKinds.length = 16 ∧ mappedKinds.Nodup ∧
    (∀ (graph : Graph) (self : ModelGen) (op : Operator), op ∈ graph.Operators →
      op.op_code.builtin_code ∉ mappedKinds → Aborts (GenerateOpCode graph self)) := by
  refine ⟨OpTypeStr_aborts_iff, ?_, rfl, by decide, ?_⟩
  · intro op_type h
    cases op_type <;> simp [mappedKinds] at h <;> exact ⟨_, rfl⟩
  · intro graph self op hmem hun
    exact GenerateOpCodeLoop_aborts_of_mem graph.Operators op
      (fun c s => GenerateOpCodeStep_aborts_of_OpTypeStr op c s
        ((OpTypeStr_aborts_iff _).mpr hun)) hmem 0 self

/-- C10 at the graph with a MUL operator after its ADD operator. -/
theorem C10_unmapped_operator_kind_aborts_witness :
    (mulOp ∈ mulGraph.Operators ∧ mulOp.op_code.builtin_code ∉ mappedKinds) ∧
    Aborts (GenerateOpCode mulGraph ⟨2, 2⟩) :=
  ⟨⟨by decide, by decide⟩,
   C10_unmapped_operator_kind_aborts.2.2.2.2 mulGraph ⟨2, 2⟩ mulOp (by decide) (by decide)⟩

theorem GenerateTensorType_eq (tensor : Tensor) (count : Nat) :
    GenerateTensorType tensor count =
      (TensorTypeStr tensor.tensor_type).map (fun ty =>
        [Stmt.dimensions count (TensorDim tensor.shape),
         Stmt.operandType count ty tensor.shape.length
           (match tensor.quantization with
            | some q =>
              if TensorQuantizationScale q = 0 then ScaleLit.one
              else ScaleLit.value (TensorQuantizationScale q)
            | none => ScaleLit.one)
           (match tensor.quantization with
            | some q => TensorQuantizationZeroPoint q
            | none => 0)]) := by
  unfold GenerateTensorType
  cases hty : TensorTypeStr tensor.tensor_type with
  | error e => simp [bind, Except.bind, Except.map]
  | ok ty =>
    cases hq : tensor.quantization with
    | none => simp [bind, Except.bind, Except.map, pure, Except.pure]
    | some q => simp [bind, Except.bind, Except.map, pure, Except.pure]

theorem wrapInt32_of_int_range (z : Int) (h : -2 ^ 31 ≤ z ∧ z < 2 ^ 31) : wrapInt32 z = z := by
  unfold wrapInt32
  have h1 : 0 ≤ z + 2 ^ 31 := by omega
  have h2 : z + 2 ^ 31 < 2 ^ 32 := by omega
  rw [Int.emod_eq_of_lt h1 h2]
  omega

/-- C15: for every tensor without a quantization record, the declaration `GenerateTensorType`
emits carries the scale literal `1.0f` and the zero-point 0; it emits that declaration for
every element type that has a name and aborts for the others. -/
theorem C15_no_quantization_gives_scale_one_zero_point_zero (tensor : Tensor) (count : Nat)
    (hq : tensor.quantization = none) :
    GenerateTensorType tensor count =
      (TensorTypeStr tensor.tensor_type).map (fun ty =>
        [Stmt.dimensions count (TensorDim tensor.shape),
         Stmt.operandType count ty tensor.shape.length .one 0]) ∧
    ((tensor.tensor_type = .FLOAT32 ∨ tensor.tensor_type = .INT32 ∨
        tensor.tensor_type = .UINT8) →
      ∃ ty, GenerateTensorType tensor count =
        .ok [Stmt.dimensions count (TensorDim tensor.shape),
             Stmt.operandType count ty tensor.shape.length .one 0]) := by
  have h : GenerateTensorType tensor count =
      (TensorTypeStr tensor.tensor_type).map (fun ty =>
        [Stmt.dimensions count (TensorDim tensor.shape),
         Stmt.operandType count ty tensor.shape.length .one 0]) := by
    rw [GenerateTensorType_eq, hq]
  refine ⟨h, fun hty => ?_⟩
  rw [h]
  rcases hty with e | e | e <;> rw [e] <;> exact ⟨_, rfl⟩

/-- C15 at tensor 0 of the end-to-end scenario. -/
theorem C15_no_quantization_gives_scale_one_zero_point_zero_witness :
    scenarioTensor0.quantization = none ∧
    (GenerateTensorType scenarioTensor0 0 =
      (TensorTypeStr scenarioTensor0.tensor_type).map (fun ty =>
        [Stmt.dimensions 0 (TensorDim scenarioTensor0.shape),
         Stmt.operandType 0 ty scenarioTensor0.shape.length .one 0]) ∧
    ((scenarioTensor0.tensor_type = .FLOAT32 ∨ scenarioTensor0.tensor_type = .INT32 ∨
        scenarioTensor0.tensor_type = .UINT8) →
      ∃ ty, GenerateTensorType scenarioTensor0 0 =
        .ok [Stmt.dimensions 0 (TensorDim scenarioTensor0.shape),
             Stmt.operandType 0 ty scenarioTensor0.shape.length .one 0])) :=
  ⟨rfl, C15_no_quantization_gives_scale_one_zero_point_zero scenarioTensor0 0 rfl⟩

theorem scalarIndices_append (a b : List Stmt) :
    scalarIndices (a ++ b) = scalarIndices a ++ scalarIndices b := by
  induction a with
  | nil => simp [scalarIndices]
  | cons s a ih => cases s <;> simp [scalarIndices, ih]

theorem GenerateOpCodeLoop_scalarIndices (ops : List Operator) (count : Nat)
    (self self' : ModelGen) (ss : List Stmt)
    (h : GenerateOpCodeLoop ops count self = .ok (ss, self')) :
    scalarIndices ss = List.range' self.count_operands_ (scalarIndices ss).length ∧
    self'.count_operands_ = self.count_operands_ + (scalarIndices ss).length := by
  induction ops generalizing count self ss with
  | nil =>
    simp only [GenerateOpCodeLoop, Except.ok.injEq, Prod.mk.injEq] at h
    obtain ⟨rfl, rfl⟩ := h
    simp [scalarIndices]
  | cons op rest ih =>
    obtain ⟨ssx, selfx, ssr, hstep, hrest, rfl⟩ := GenerateOpCodeLoop_cons _ _ _ _ _ _ h
    obtain ⟨n, params, self1, op_type, hpar, _, rfl, rfl⟩ :=
      GenerateOpCodeStep_spec _ _ _ _ _ hstep
    obtain ⟨_, e2, e3⟩ := OpParams_spec _ _ _ _ _ hpar
    obtain ⟨i1, i2⟩ := ih _ _ _ hrest
    have hx : scalarIndices (params ++
        [Stmt.newline,
         Stmt.inputOperands count (GenerateOpInputs op.inputs n self1).1,
         Stmt.outputOperands count (GenerateOpOutputs op.outputs),
         Stmt.addOperation count op_type,
         Stmt.checkStatus ("ANeuralNetworksModel_addOperation failed for operation "
           ++ toString count)]) = List.range' self.count_operands_ n := by
      rw [scalarIndices_append, e3]
      simp [scalarIndices]
    have hc : (GenerateOpInputs op.inputs n self1).2.count_operands_ =
        self.count_operands_ + n := by
      rw [GenerateOpInputs_eq]
      exact e2
    rw [hc] at i1 i2
    rw [scalarIndices_append, hx]
    constructor
    · rw [List.length_append, List.length_range']
      have := List.range'_append_1 self.count_operands_ n (scalarIndices ssr).length
      rw [← i1, Nat.add_comm] at this
      exact this
    · rw [i2, List.length_append, List.length_range']
      omega

/-- C17: for every graph with `T` tensors on which generation does not abort, the
scalar-operand declarations of the text of `GenerateOpCode`, in emission order, carry the
indices `T, T+1, T+2, ...`: the `j`-th has index `T + j`; the counter ends at `T` plus their
number. -/
theorem C17_scalar_indices_are_consecutive_from_tensor_count (graph : Graph)
    (self0 self1 self2 : ModelGen) (tc oc : List Stmt)
    (hT : GenerateTensorsCode graph self0 = .ok (tc, self1))
    (hO : GenerateOpCode graph self1 = .ok (oc, self2)) :
    scalarIndices oc = List.range' graph.Tensors.length (scalarIndices oc).length ∧
    (∀ j idx, (scalarIndices oc).get? j = some idx → idx = graph.Tensors.length + j) ∧
    self2.count_operands_ = graph.Tensors.length + (scalarIndices oc).length := by
  obtain ⟨hc, _⟩ := GenerateTensorsCode_state _ _ _ _ hT
  obtain ⟨h1, h2⟩ := GenerateOpCodeLoop_scalarIndices _ _ _ _ _ hO
  rw [hc] at h1 h2
  refine ⟨h1, ?_, h2⟩
  intro j idx hj
  rw [h1, List.get?_eq_getElem?] at hj
  have hlt := (List.getElem?_eq_some_iff.mp hj).1
  rw [List.getElem?_range' _ _ (by simpa using hlt)] at hj
  simp only [Option.some.injEq] at hj
  omega

/-- C17 at the end-to-end scenario: the one scalar declared has index 2. -/
theorem C17_scalar_indices_are_consecutive_from_tensor_count_witness :
    (GenerateTensorsCode scenarioGraph freshModelGen = .ok (scenarioTensorsCode, ⟨2, 2⟩) ∧
     GenerateOpCode scenarioGraph ⟨2, 2⟩ = .ok (scenarioOpCode, ⟨3, 3⟩)) ∧
    (scalarIndices scenarioOpCode =
       List.range' scenarioGraph.Tensors.length (scalarIndices scenarioOpCode).length ∧
     (∀ j idx, (scalarIndices scenarioOpCode).get? j = some idx →
       idx = scenarioGraph.Tensors.length + j) ∧
     (⟨3, 3⟩ : ModelGen).count_operands_ =
       scenarioGraph.Tensors.length + (scalarIndices scenarioOpCode).length) :=
  ⟨⟨rfl, rfl⟩,
   C17_scalar_indices_are_consecutive_from_tensor_count scenarioGraph freshModelGen ⟨2, 2⟩
     ⟨3, 3⟩ scenarioTensorsCode scenarioOpCode rfl rfl⟩

/-- C18: for every pooling operator (AVERAGE_POOL_2D, MAX_POOL_2D or L2_POOL_2D) that carries
`Pool2DOptions`, `OpParams` returns `num_params = 6` and exactly six scalar-operand
declarations, with consecutive indices from `count_operands_` and the values padding,
stride width, stride height, filter width, filter height, fused activation, in this order. -/
theorem C18_pool_hyperparameters (op : Operator) (self : ModelGen) (o : Pool2DOptions)
    (hk : op.op_code.builtin_code = .AVERAGE_POOL_2D ∨
      op.op_code.builtin_code = .MAX_POOL_2D ∨ op.op_code.builtin_code = .L2_POOL_2D)
    (ho : op.builtin_op = .Pool2DOptions o) :
    OpParams op self =
      .ok ((6,
        [.addScalarInt32 self.count_operands_ o.padding.toInt,
         .addScalarInt32 (self.count_operands_ + 1) o.stride_w,
         .addScalarInt32 (self.count_operands_ + 2) o.stride_h,
         .addScalarInt32 (self.count_operands_ + 3) o.filter_width,
         .addScalarInt32 (self.count_operands_ + 4) o.filter_height,
         .addScalarInt32 (self.count_operands_ + 5) o.fused_activation_function.toInt]),
        { self with count_operands_ := self.count_operands_ + 6 }) := by
  rcases hk with hk | hk | hk <;>
    simp [OpParams, hk, ho, OpParams.check, BuiltinOptions.type, AddScalarInt32, bind,
      Except.bind]

/-- C18 at an AVERAGE_POOL_2D operator. -/
theorem C18_pool_hyperparameters_witness :
    ((poolOp.op_code.builtin_code = .AVERAGE_POOL_2D ∨
       poolOp.op_code.builtin_code = .MAX_POOL_2D ∨
       poolOp.op_code.builtin_code = .L2_POOL_2D) ∧
     poolOp.builtin_op = .Pool2DOptions ⟨.VALID, 2, 3, 4, 5, .RELU6⟩) ∧
    OpParams poolOp ⟨2, 2⟩ =
      .ok ((6,
        [.addScalarInt32 2 Padding.VALID.toInt,
         .addScalarInt32 (2 + 1) 2,
         .addScalarInt32 (2 + 2) 3,
         .addScalarInt32 (2 + 3) 4,
         .addScalarInt32 (2 + 4) 5,
         .addScalarInt32 (2 + 5) ActivationFunctionType.RELU6.toInt]),
        { (⟨2, 2⟩ : ModelGen) with count_operands_ := 2 + 6 }) :=
  ⟨⟨Or.inl rfl, rfl⟩,
   C18_pool_hyperparameters poolOp ⟨2, 2⟩ ⟨.VALID, 2, 3, 4, 5, .RELU6⟩ (Or.inl rfl) rfl⟩

/-- C19: for every CONV_2D operator that carries `Conv2DOptions`, `OpParams` returns
`num_params = 4` and exactly four scalar-operand declarations with the values padding, stride
width, stride height, fused activation, in this order; for every FULLY_CONNECTED operator
that carries `FullyConnectedOptions` it returns `num_params = 1` and exactly one declaration,
the fused activation. -/
theorem C19_conv_and_fully_connected_hyperparameters (op : Operator) (self : ModelGen) :
    (∀ o : Conv2DOptions, op.op_code.builtin_code = .CONV_2D →
      op.builtin_op = .Conv2DOptions o →
      OpParams op self =
        .ok ((4,
          [.addScalarInt32 self.count_operands_ o.padding.toInt,
           .addScalarInt32 (self.count_operands_ + 1) o.stride_w,
           .addScalarInt32 (self.count_operands_ + 2) o.stride_h,
           .addScalarInt32 (self.count_operands_ + 3) o.fused_activation_function.toInt]),
          { self with count_operands_ := self.count_operands_ + 4 })) ∧
    (∀ o : FullyConnectedOptions, op.op_code.builtin_code = .FULLY_CONNECTED →
      op.builtin_op = .FullyConnectedOptions o →
      OpParams op self =
        .ok ((1,
          [.addScalarInt32 self.count_operands_ o.fused_activation_function.toInt]),
          { self with count_operands_ := self.count_operands_ + 1 })) := by
  constructor
  · intro o hk ho
    simp [OpParams, hk, ho, OpParams.check, BuiltinOptions.type, AddScalarInt32, bind,
      Except.bind]
  · intro o hk ho
    simp [OpParams, hk, ho, OpParams.check, BuiltinOptions.type, AddScalarInt32, bind,
      Except.bind]

/-- C19 at a CONV_2D operator and at a FULLY_CONNECTED operator. -/
theorem C19_conv_and_fully_connected_hyperparameters_witness :
    (convOp.op_code.builtin_code = .CONV_2D ∧
     convOp.builtin_op = .Conv2DOptions ⟨.SAME, 2, 3, .RELU⟩ ∧
     OpParams convOp ⟨2, 2⟩ =
       .ok ((4,
         [.addScalarInt32 2 Padding.SAME.toInt,
          .addScalarInt32 (2 + 1) 2,
          .addScalarInt32 (2 + 2) 3,
          .addScalarInt32 (2 + 3) ActivationFunctionType.RELU.toInt]),
         { (⟨2, 2⟩ : ModelGen) with count_operands_ := 2 + 4 })) ∧
    (fullyConnectedOp.op_code.builtin_code = .FULLY_CONNECTED ∧
     fullyConnectedOp.builtin_op = .FullyConnectedOptions ⟨.TANH⟩ ∧
     OpParams fullyConnectedOp ⟨2, 2⟩ =
       .ok ((1, [.addScalarInt32 2 ActivationFunctionType.TANH.toInt]),
         { (⟨2, 2⟩ : ModelGen) with count_operands_ := 2 + 1 })) :=
  ⟨⟨rfl, rfl,
    (C19_conv_and_fully_connected_hyperparameters convOp ⟨2, 2⟩).1 ⟨.SAME, 2, 3, .RELU⟩
      rfl rfl⟩,
   ⟨rfl, rfl,
    (C19_conv_and_fully_connected_hyperparameters fullyConnectedOp ⟨2, 2⟩).2 ⟨.TANH⟩
      rfl rfl⟩⟩

theorem declaredOperands_append (a b : List Stmt) :
    declaredOperands (a ++ b) = declaredOperands a ++ declaredOperands b := by
  induction a with
  | nil => simp [declaredOperands]
  | cons s a ih => cases s <;> simp [declaredOperands, ih]

theorem addedOperands_append (a b : List Stmt) :
    addedOperands (a ++ b) = addedOperands a ++ addedOperands b := by
  induction a with
  | nil => simp [addedOperands]
  | cons s a ih => cases s <;> simp [addedOperands, ih]

theorem GenerateTensorType_shape (tensor : Tensor) (count : Nat) (decl : List Stmt)
    (h : GenerateTensorType tensor count = .ok decl) :
    ∃ ty sc zp, decl =
      [Stmt.dimensions count (TensorDim tensor.shape),
       Stmt.operandType count ty tensor.shape.length sc zp] := by
  rw [GenerateTensorType_eq] at h
  cases hty : TensorTypeStr tensor.tensor_type with
  | error e => simp [hty, Except.map] at h
  | ok ty =>
    simp only [hty, Except.map, Except.ok.injEq] at h
    exact ⟨ty, _, _, h.symm⟩

theorem GenerateTensorsCodeLoop_declarations (ts : List Tensor) (count : Nat)
    (ss : List Stmt) (count' : Nat)
    (h : GenerateTensorsCodeLoop ts count = .ok (ss, count')) :
    addedOperands ss = List.range' count ts.length ∧
    (declaredOperands ss).length = ts.length ∧
    ∀ j t, ts.get? j = some t → ∃ ty sc zp,
      (declaredOperands ss).get? j =
        some (Stmt.operandType (count + j) ty t.shape.length sc zp) ∧
      GenerateTensorType t (count + j) =
        .ok [Stmt.dimensions (count + j) (TensorDim t.shape),
             Stmt.operandType (count + j) ty t.shape.length sc zp] := by
  induction ts generalizing count ss with
  | nil =>
    simp only [GenerateTensorsCodeLoop, Except.ok.injEq, Prod.mk.injEq] at h
    obtain ⟨rfl, _⟩ := h
    refine ⟨by simp [addedOperands], by simp [declaredOperands], ?_⟩
    intro j t hj
    simp at hj
  | cons t rest ih =>
    obtain ⟨decl, ss', hdecl, hrest, rfl⟩ := GenerateTensorsCodeLoop_cons _ _ _ _ _ h
    obtain ⟨ty, sc, zp, rfl⟩ := GenerateTensorType_shape _ _ _ hdecl
    obtain ⟨i1, i2, i3⟩ := ih _ _ hrest
    have hadd : addedOperands
        ([Stmt.dimensions count (TensorDim t.shape),
          Stmt.operandType count ty t.shape.length sc zp] ++
         [Stmt.addOperand count,
          Stmt.checkStatus
            ("ANeuralNetworksModel_addOperand failedfor operand " ++ toString count)] ++
         (if t.buffer.Data.length > 0 then
           [Stmt.tensorSize t.buffer.Data.length,
            Stmt.setOperandValueFromMemory count,
            Stmt.checkStatus
              ("ANeuralNetworksModel_setOperandValueFromMemory failed for operand "
                ++ toString count),
            Stmt.offsetAdvance]
          else [])) = [count] := by
      split <;> simp [addedOperands]
    have hdec : declaredOperands
        ([Stmt.dimensions count (TensorDim t.shape),
          Stmt.operandType count ty t.shape.length sc zp] ++
         [Stmt.addOperand count,
          Stmt.checkStatus
            ("ANeuralNetworksModel_addOperand failedfor operand " ++ toString count)] ++
         (if t.buffer.Data.length > 0 then
           [Stmt.tensorSize t.buffer.Data.length,
            Stmt.setOperandValueFromMemory count,
            Stmt.checkStatus
              ("ANeuralNetworksModel_setOperandValueFromMemory failed for operand "
                ++ toString count),
            Stmt.offsetAdvance]
          else [])) = [Stmt.operandType count ty t.shape.length sc zp] := by
      split <;> simp [declaredOperands]
    refine ⟨?_, ?_, ?_⟩
    · rw [addedOperands_append, hadd, i1, List.length_cons, List.range'_succ]
      rfl
    · rw [declaredOperands_append, hdec, List.length_append, i2]
      simp [Nat.add_comm]
    · intro j t' hj
      rw [declaredOperands_append, hdec]
      cases j with
      | zero =>
        simp only [List.get?_cons_zero, Option.some.injEq] at hj
        subst hj
        exact ⟨ty, sc, zp, by simp, by simpa using hdecl⟩
      | succ j =>
        simp only [List.get?_cons_succ] at hj
        obtain ⟨ty', sc', zp', h1, h2⟩ := i3 j t' hj
        have e : count + (j + 1) = count + 1 + j := by omega
        rw [e]
        exact ⟨ty', sc', zp', by simpa using h1, h2⟩

theorem GenerateTensorsCodeLoop_ok (ts : List Tensor) (count : Nat)
    (h : ∀ t ∈ ts, t.tensor_type = .FLOAT32 ∨ t.tensor_type = .INT32 ∨
      t.tensor_type = .UINT8) :
    ∃ ss, GenerateTensorsCodeLoop ts count = .ok (ss, count + ts.length) := by
  induction ts generalizing count with
  | nil => exact ⟨[], rfl⟩
  | cons t rest ih =>
    obtain ⟨ss', hss⟩ := ih (count + 1) (fun t' ht' => h t' (List.mem_cons_of_mem _ ht'))
    have hty := h t (List.mem_cons_self _ _)
    have hd : ∃ decl, GenerateTensorType t count = .ok decl := by
      rw [GenerateTensorType_eq]
      rcases hty with e | e | e <;> rw [e] <;> exact ⟨_, rfl⟩
    obtain ⟨decl, hdecl⟩ := hd
    have e : count + 1 + rest.length = count + (rest.length + 1) := by omega
    rw [e] at hss
    simp only [GenerateTensorsCodeLoop, bind, Except.bind, pure, Except.pure, hdecl, hss,
      List.length_cons]
    exact ⟨_, rfl⟩

/-- C16: for every graph with `T` tensors on which `GenerateTensorsCode` returns text (it
does whenever every tensor has one of the three named element types), the text has exactly
`T` operand declarations and `T` `addOperand` calls numbered `0..T-1`, the `i`-th
declaration is the one `GenerateTensorType` builds for the `i`-th tensor under the number
`i`, and both counters are left equal to `T`. -/
theorem C16_one_operand_declaration_per_tensor (graph : Graph) (self : ModelGen) :
    ((∀ t ∈ graph.Tensors, t.tensor_type = .FLOAT32 ∨ t.tensor_type = .INT32 ∨
        t.tensor_type = .UINT8) →
      ∃ tc, GenerateTensorsCode graph self =
        .ok (tc, ⟨graph.Tensors.length, graph.Tensors.length⟩)) ∧
    (∀ tc self', GenerateTensorsCode graph self = .ok (tc, self') →
      self'.count_operands_ = graph.Tensors.length ∧
      self'.tensor_pos_ = graph.Tensors.length ∧
      addedOperands tc = List.range graph.Tensors.length ∧
      (declaredOperands tc).length = graph.Tensors.length ∧
      ∀ i t, graph.Tensors.get? i = some t → ∃ ty sc zp,
        (declaredOperands tc).get? i = some (Stmt.operandType i ty t.shape.length sc zp) ∧
        GenerateTensorType t i =
          .ok [Stmt.dimensions i (TensorDim t.shape),
               Stmt.operandType i ty t.shape.length sc zp]) := by
  constructor
  · intro hsup
    obtain ⟨ss, hss⟩ := GenerateTensorsCodeLoop_ok graph.Tensors 0 hsup
    exact ⟨ss, by simp [GenerateTensorsCode, bind, Except.bind, pure, Except.pure, hss]⟩
  · intro tc self' h
    obtain ⟨hc, hp⟩ := GenerateTensorsCode_state _ _ _ _ h
    simp only [GenerateTensorsCode, bind, Except.bind, pure, Except.pure] at h
    split at h
    · simp at h
    · rename_i r hloop
      obtain ⟨ss, c⟩ := r
      simp only [Except.ok.injEq, Prod.mk.injEq] at h
      obtain ⟨rfl, _⟩ := h
      obtain ⟨i1, i2, i3⟩ := GenerateTensorsCodeLoop_declarations _ _ _ _ hloop
      refine ⟨hc, hp, by rw [i1, List.range_eq_range'], i2, ?_⟩
      intro i t hi
      obtain ⟨ty, sc, zp, h1, h2⟩ := i3 i t hi
      rw [Nat.zero_add] at h1 h2
      exact ⟨ty, sc, zp, h1, h2⟩

/-- C16 at the end-to-end scenario. -/
theorem C16_one_operand_declaration_per_tensor_witness :
    ((∀ t ∈ scenarioGraph.Tensors, t.tensor_type = .FLOAT32 ∨ t.tensor_type = .INT32 ∨
        t.tensor_type = .UINT8) ∧
     GenerateTensorsCode scenarioGraph freshModelGen = .ok (scenarioTensorsCode, ⟨2, 2⟩)) ∧
    ((∃ tc, GenerateTensorsCode scenarioGraph freshModelGen =
        .ok (tc, ⟨scenarioGraph.Tensors.length, scenarioGraph.Tensors.length⟩)) ∧
     ((⟨2, 2⟩ : ModelGen).count_operands_ = scenarioGraph.Tensors.length ∧
      (⟨2, 2⟩ : ModelGen).tensor_pos_ = scenarioGraph.Tensors.length ∧
      addedOperands scenarioTensorsCode = List.range scenarioGraph.Tensors.length ∧
      (declaredOperands scenarioTensorsCode).length = scenarioGraph.Tensors.length ∧
      ∀ i t, scenarioGraph.Tensors.get? i = some t → ∃ ty sc zp,
        (declaredOperands scenarioTensorsCode).get? i =
          some (Stmt.operandType i ty t.shape.length sc zp) ∧
        GenerateTensorType t i =
          .ok [Stmt.dimensions i (TensorDim t.shape),
               Stmt.operandType i ty t.shape.length sc zp])) :=
  ⟨⟨by decide, rfl⟩,
   (C16_one_operand_declaration_per_tensor scenarioGraph freshModelGen).1 (by decide),
   (C16_one_operand_declaration_per_tensor scenarioGraph freshModelGen).2
     scenarioTensorsCode ⟨2, 2⟩ rfl⟩

/-- C13 (counterexample): for a FLOAT32 tensor of shape `[2]` with a 3-byte buffer the
generated `tensor_size` is 3 while `TensorSize` is 8; for tensor 0 of the end-to-end scenario
(shape `[1,2]`, 8-byte buffer) it is 8 while `TensorSize` is 32. -/
theorem C13_generated_tensor_size_differs_from_TensorSize :
    GenerateTensorsCode threeByteGraph freshModelGen = .ok (threeByteTensorsCode, ⟨1, 1⟩) ∧
    runLoads threeByteTensorsCode ⟨0, 0⟩ = [⟨0, 0, 3⟩] ∧
    TensorSize threeByteTensor = 8 ∧
    GenerateTensorsCode scenarioGraph freshModelGen = .ok (scenarioTensorsCode, ⟨2, 2⟩) ∧
    runLoads scenarioTensorsCode ⟨0, 0⟩ = [⟨0, 0, 8⟩] ∧
    TensorSize scenarioTensor0 = 32 :=
  ⟨rfl, rfl, rfl, rfl, rfl, rfl⟩

/-- C13 (amended): for every tensor with a non-empty buffer, the byte length
`GenerateTensorsCode` emits for its `setOperandValueFromMemory` call (the generated
`tensor_size`) is the byte length of the tensor's buffer. -/
theorem C13_generated_tensor_size_is_buffer_length (graph : Graph) (self self' : ModelGen)
    (tc : List Stmt) (tensor_size : Nat)
    (hT : GenerateTensorsCode graph self = .ok (tc, self')) :
    (∀ i t, graph.Tensors.get? i = some t → t.buffer.Data ≠ [] →
      ∃ l ∈ runLoads tc ⟨0, tensor_size⟩,
        l.operand = i ∧ l.length = t.buffer.Data.length) ∧
    (∀ l ∈ runLoads tc ⟨0, tensor_size⟩,
      ∃ t, graph.Tensors.get? l.operand = some t ∧ l.length = t.buffer.Data.length) := by
  have hrun := runLoads_GenerateTensorsCode graph self self' tc hT tensor_size
  rw [hrun]
  constructor
  · intro i t hget hne
    have hi : i < graph.Tensors.length := by
      rw [List.get?_eq_getElem?] at hget
      exact (List.getElem?_eq_some_iff.mp hget).1
    have hexp := expectedLoadAt_of_get _ _ _ hget hne
    refine ⟨⟨i, precedingWeightBytes graph.Tensors i, t.buffer.Data.length⟩, ?_, rfl, rfl⟩
    rw [expectedLoads, List.mem_filterMap]
    exact ⟨i, List.mem_range.mpr hi, hexp⟩
  · intro l hl
    rw [expectedLoads, List.mem_filterMap] at hl
    obtain ⟨i, _, hi⟩ := hl
    obtain ⟨t, hget, _, hop, _, hlen, _⟩ := blobSlice_expectedLoadAt _ _ _ hi
    exact ⟨t, by rw [hop]; exact hget, hlen⟩

/-- C13 (amended) at the graph whose tensor has a 3-byte buffer. -/
theorem C13_generated_tensor_size_is_buffer_length_witness :
    GenerateTensorsCode threeByteGraph freshModelGen = .ok (threeByteTensorsCode, ⟨1, 1⟩) ∧
    ((∀ i t, threeByteGraph.Tensors.get? i = some t → t.buffer.Data ≠ [] →
      ∃ l ∈ runLoads threeByteTensorsCode ⟨0, 0⟩,
        l.operand = i ∧ l.length = t.buffer.Data.length) ∧
    (∀ l ∈ runLoads threeByteTensorsCode ⟨0, 0⟩,
      ∃ t, threeByteGraph.Tensors.get? l.operand = some t ∧
        l.length = t.buffer.Data.length)) :=
  ⟨rfl, C13_generated_tensor_size_is_buffer_length threeByteGraph freshModelGen ⟨1, 1⟩
    threeByteTensorsCode 0 rfl⟩

theorem marshalCalls_append (a b : List Stmt) :
    marshalCalls (a ++ b) = marshalCalls a ++ marshalCalls b := by
  induction a with
  | nil => simp [marshalCalls]
  | cons s a ih => cases s <;> simp [marshalCalls, ih]

theorem tensorAt_ok_of_validIndex (graph : Graph) (i : Int) (h : validIndex graph i) :
    ∃ t, tensorAt graph i = .ok t := by
  obtain ⟨h0, h1⟩ := h
  have hlt : i.toNat < graph.Tensors.length := by omega
  unfold tensorAt
  rw [if_pos h0, List.get?_eq_getElem?, List.getElem?_eq_getElem hlt]
  exact ⟨_, rfl⟩

theorem tensorSizeAt_of_ok (graph : Graph) (i : Int) (t : Tensor)
    (h : tensorAt graph i = .ok t) : tensorSizeAt graph i = TensorSize t := by
  simp [tensorSizeAt, h]

theorem wrapInt32_of_inIntRange (x : Int) (h : inIntRange x = true) : wrapInt32 x = x := by
  apply wrapInt32_of_int_range
  simpa [inIntRange] using h

theorem inIntRange_wrapInt32 (x : Int) : inIntRange (wrapInt32 x) = true := by
  have h1 := Int.emod_nonneg (x + 2 ^ 31) (show (2 : Int) ^ 32 ≠ 0 by norm_num)
  have h2 := Int.emod_lt_of_pos (x + 2 ^ 31) (show (0 : Int) < 2 ^ 32 by norm_num)
  simp only [inIntRange, wrapInt32, Bool.and_eq_true, decide_eq_true_eq]
  constructor <;> omega

theorem intSum_of_sumsInRange (sizes : List Int) (start : Int)
    (h : sumsInRange start sizes = true) : intSum start sizes = start + sizes.sum := by
  induction sizes generalizing start with
  | nil => simp [intSum]
  | cons size rest ih =>
    simp only [sumsInRange, Bool.and_eq_true] at h
    have hrec := ih (start + size) h.2
    simp only [intSum, List.foldl_cons, List.sum_cons] at hrec ⊢
    rw [wrapInt32_of_inIntRange _ h.1, hrec, Int.add_assoc]

theorem sumsInRange_take (sizes : List Int) (start : Int) (k : Nat)
    (h : sumsInRange start sizes = true) : sumsInRange start (sizes.take k) = true := by
  induction sizes generalizing start k with
  | nil => simp [sumsInRange]
  | cons size rest ih =>
    cases k with
    | zero => simp [sumsInRange]
    | succ k =>
      simp only [sumsInRange, Bool.and_eq_true] at h
      simp only [List.take_succ_cons, sumsInRange, Bool.and_eq_true]
      exact ⟨h.1, ih _ k h.2⟩

theorem marshalLoop_ok (graph : Graph) (call : Nat → Int → Int → Stmt) (msg : String)
    (indices : List Int) (start : Int) (cnt : Nat)
    (h : ∀ i ∈ indices, validIndex graph i) :
    ∃ ss, marshalLoop graph call msg indices start cnt = .ok ss := by
  induction indices generalizing start cnt with
  | nil => exact ⟨[], rfl⟩
  | cons i rest ih =>
    obtain ⟨t, ht⟩ := tensorAt_ok_of_validIndex graph i (h i (List.mem_cons_self _ _))
    obtain ⟨ss, hss⟩ := ih (wrapInt32 (start + TensorSize t)) (cnt + 1)
      (fun j hj => h j (List.mem_cons_of_mem _ hj))
    simp only [marshalLoop, bind, Except.bind, pure, Except.pure, ht, hss]
    exact ⟨_, rfl⟩

theorem marshalLoop_calls (graph : Graph) (call : Nat → Int → Int → Stmt) (msg : String)
    (hcall : ∀ c s z rest, marshalCalls (call c s z :: rest) = call c s z :: marshalCalls rest)
    (indices : List Int) (start : Int) (cnt : Nat) (ss : List Stmt)
    (h : marshalLoop graph call msg indices start cnt = .ok ss) :
    (marshalCalls ss).length = indices.length ∧
    ∀ k i, indices.get? k = some i → ∃ t, tensorAt graph i = .ok t ∧
      (marshalCalls ss).get? k =
        some (call (cnt + k) (intSum start ((indices.take k).map (tensorSizeAt graph)))
          (TensorSize t)) := by
  induction indices generalizing start cnt ss with
  | nil =>
    simp only [marshalLoop, Except.ok.injEq] at h
    subst h
    refine ⟨by simp [marshalCalls], ?_⟩
    intro k i hk
    simp at hk
  | cons i rest ih =>
    simp only [marshalLoop, bind, Except.bind, pure, Except.pure] at h
    split at h
    · simp at h
    · rename_i t ht
      split at h
      · simp at h
      · rename_i ss' hss'
        simp only [Except.ok.injEq] at h
        subst h
        obtain ⟨i1, i2⟩ := ih _ _ _ hss'
        have hc : marshalCalls
            ([call cnt start (TensorSize t), Stmt.checkStatus msg] ++ ss') =
            call cnt start (TensorSize t) :: marshalCalls ss' := by
          rw [List.cons_append, hcall]
          simp [marshalCalls]
        rw [hc]
        refine ⟨by simp [i1], ?_⟩
        intro k j hk
        cases k with
        | zero =>
          simp only [List.get?_cons_zero, Option.some.injEq] at hk
          subst hk
          exact ⟨t, ht, by simp [intSum]⟩
        | succ k =>
          simp only [List.get?_cons_succ] at hk
          obtain ⟨t', ht', hget⟩ := i2 k j hk
          refine ⟨t', ht', ?_⟩
          have e1 : cnt + (k + 1) = cnt + 1 + k := by omega
          have e2 : intSum start (((i :: rest).take (k + 1)).map (tensorSizeAt graph)) =
              intSum (wrapInt32 (start + TensorSize t))
                ((rest.take k).map (tensorSizeAt graph)) := by
            simp [intSum, tensorSizeAt_of_ok graph i t ht]
          rw [List.get?_cons_succ, e1, e2]
          exact hget

theorem marshalStart_of_sumsInRange (graph : Graph) (indices : List Int) (k : Nat)
    (h : sumsInRange 0 ((indices.take k).map (tensorSizeAt graph)) = true) :
    intSum 0 ((indices.take k).map (tensorSizeAt graph)) = marshalStart graph indices k := by
  rw [intSum_of_sumsInRange _ _ h, Int.zero_add]
  rfl

/-- C20 (counterexample): for three valid graph-level inputs of 1 GiB each (UINT8, shape
`[1024,1024,1024]`) the third `setInput` call starts at `-2147483648`, while the sum of
`TensorSize` over the first two input tensors is `2147483648`, a value outside the range of
the `int` that holds the start offset. -/
theorem C20_third_start_offset_overflows_int :
    (∀ i ∈ gibGraph.Inputs, validIndex gibGraph i) ∧
    GenerateInputFunctions gibGraph =
      .ok [.setInputOpen,
           .setInput 0 0 1073741824,
           .checkStatus "ANeuralNetworksExecution_setInput failed",
           .setInput 1 1073741824 1073741824,
           .checkStatus "ANeuralNetworksExecution_setInput failed",
           .setInput 2 (-2147483648) 1073741824,
           .checkStatus "ANeuralNetworksExecution_setInput failed",
           .returnTrue] ∧
    TensorSize tensor_1024x1024x1024_uint8 = 1073741824 ∧
    marshalStart gibGraph gibGraph.Inputs 2 = 2147483648 ∧
    inIntRange (marshalStart gibGraph gibGraph.Inputs 2) = false ∧
    (-2147483648 : Int) ≠ marshalStart gibGraph gibGraph.Inputs 2 :=
  ⟨by decide, rfl, by decide, by decide, by decide, by decide⟩

/-- C20 (amended): for every graph whose graph-level input indices are valid,
`GenerateInputFunctions` returns a text with exactly one `setInput` call per entry of the
input list, in declared order; the `k`-th call names position `k`, the start offset
accumulated in `int` over the sizes of the input tensors at positions `0..k-1`, and the
length `TensorSize` of the `k`-th input tensor; when the running sums of those sizes stay
in the range of `int`, the start offset is the sum of `TensorSize` over the input tensors at
positions `0..k-1`.  `GenerateOutputFunctions` does the same over the output list with
`setOutput`. -/
theorem C20_marshalling_calls_absent_overflow (graph : Graph) :
    ((∀ i ∈ graph.Inputs, validIndex graph i) →
      ∃ ss, GenerateInputFunctions graph = .ok ss ∧
        (marshalCalls ss).length = graph.Inputs.length ∧
        ∀ k i, graph.Inputs.get? k = some i → ∃ t, tensorAt graph i = .ok t ∧
          (marshalCalls ss).get? k =
            some (Stmt.setInput k
              (intSum 0 ((graph.Inputs.take k).map (tensorSizeAt graph))) (TensorSize t)) ∧
          (sumsInRange 0 ((graph.Inputs.take k).map (tensorSizeAt graph)) = true →
            (marshalCalls ss).get? k =
              some (Stmt.setInput k (marshalStart graph graph.Inputs k) (TensorSize t)))) ∧
    ((∀ i ∈ graph.Outputs, validIndex graph i) →
      ∃ ss, GenerateOutputFunctions graph = .ok ss ∧
        (marshalCalls ss).length = graph.Outputs.length ∧
        ∀ k i, graph.Outputs.get? k = some i → ∃ t, tensorAt graph i = .ok t ∧
          (marshalCalls ss).get? k =
            some (Stmt.setOutput k
              (intSum 0 ((graph.Outputs.take k).map (tensorSizeAt graph))) (TensorSize t)) ∧
          (sumsInRange 0 ((graph.Outputs.take k).map (tensorSizeAt graph)) = true →
            (marshalCalls ss).get? k =
              some (Stmt.setOutput k (marshalStart graph graph.Outputs k)
                (TensorSize t)))) := by
  constructor
  · intro hv
    obtain ⟨ss, hss⟩ := marshalLoop_ok graph Stmt.setInput
      "ANeuralNetworksExecution_setInput failed" graph.Inputs 0 0 hv
    obtain ⟨h1, h2⟩ := marshalLoop_calls graph Stmt.setInput _
      (fun _ _ _ _ => rfl) _ _ _ _ hss
    refine ⟨[Stmt.setInputOpen] ++ ss ++ [Stmt.returnTrue], ?_, ?_, ?_⟩
    · simp [GenerateInputFunctions, bind, Except.bind, pure, Except.pure, hss]
    · simp [marshalCalls_append, marshalCalls, h1]
    · intro k i hk
      obtain ⟨t, ht, hget⟩ := h2 k i hk
      have hcall : (marshalCalls ([Stmt.setInputOpen] ++ ss ++ [Stmt.returnTrue])).get? k =
          some (Stmt.setInput k
            (intSum 0 ((graph.Inputs.take k).map (tensorSizeAt graph))) (TensorSize t)) := by
        simpa [marshalCalls_append, marshalCalls, List.get?_eq_getElem?] using hget
      refine ⟨t, ht, hcall, ?_⟩
      intro hfit
      rw [hcall, marshalStart_of_sumsInRange graph _ k hfit]
  · intro hv
    obtain ⟨ss, hss⟩ := marshalLoop_ok graph Stmt.setOutput
      "ANeuralNetworksExecution_setOutput failed" graph.Outputs 0 0 hv
    obtain ⟨h1, h2⟩ := marshalLoop_calls graph Stmt.setOutput _
      (fun _ _ _ _ => rfl) _ _ _ _ hss
    refine ⟨[Stmt.setOutputOpen] ++ ss ++ [Stmt.returnTrue], ?_, ?_, ?_⟩
    · simp [GenerateOutputFunctions, bind, Except.bind, pure, Except.pure, hss]
    · simp [marshalCalls_append, marshalCalls, h1]
    · intro k i hk
      obtain ⟨t, ht, hget⟩ := h2 k i hk
      have hcall : (marshalCalls ([Stmt.setOutputOpen] ++ ss ++ [Stmt.returnTrue])).get? k =
          some (Stmt.setOutput k
            (intSum 0 ((graph.Outputs.take k).map (tensorSizeAt graph))) (TensorSize t)) := by
        simpa [marshalCalls_append, marshalCalls, List.get?_eq_getElem?] using hget
      refine ⟨t, ht, hcall, ?_⟩
      intro hfit
      rw [hcall, marshalStart_of_sumsInRange graph _ k hfit]

/-- C20 (amended) at the scenario graph with the input list `[0, 1]` and the output list
`[1]`: the running sums are in the range of `int`; the two `setInput` calls start at 0 and
at 32, the sums of `TensorSize` over the preceding input tensors. -/
theorem C20_marshalling_calls_absent_overflow_witness :
    ((∀ i ∈ twoInputGraph.Inputs, validIndex twoInputGraph i) ∧
     (∀ i ∈ twoInputGraph.Outputs, validIndex twoInputGraph i) ∧
     sumsInRange 0 ((twoInputGraph.Inputs.take 1).map (tensorSizeAt twoInputGraph)) = true ∧
     sumsInRange 0 ((twoInputGraph.Outputs.take 0).map (tensorSizeAt twoInputGraph)) = true ∧
     marshalStart twoInputGraph twoInputGraph.Inputs 1 = 32 ∧
     GenerateInputFunctions twoInputGraph =
       .ok [.setInputOpen,
            .setInput 0 0 32, .checkStatus "ANeuralNetworksExecution_setInput failed",
            .setInput 1 32 32, .checkStatus "ANeuralNetworksExecution_setInput failed",
            .returnTrue]) ∧
    (∃ ss, GenerateInputFunctions twoInputGraph = .ok ss ∧
      (marshalCalls ss).length = twoInputGraph.Inputs.length ∧
      ∃ t, tensorAt twoInputGraph 1 = .ok t ∧
        (marshalCalls ss).get? 1 =
          some (Stmt.setInput 1 (marshalStart twoInputGraph twoInputGraph.Inputs 1)
            (TensorSize t))) ∧
    (∃ ss, GenerateOutputFunctions twoInputGraph = .ok ss ∧
      (marshalCalls ss).length = twoInputGraph.Outputs.length ∧
      ∃ t, tensorAt twoInputGraph 1 = .ok t ∧
        (marshalCalls ss).get? 0 =
          some (Stmt.setOutput 0 (marshalStart twoInputGraph twoInputGraph.Outputs 0)
            (TensorSize t))) :=
  ⟨⟨by decide, by decide, by decide, by decide, by decide, rfl⟩,
   (match (C20_marshalling_calls_absent_overflow twoInputGraph).1 (by decide) with
    | ⟨ss, h1, h2, h3⟩ =>
      match h3 1 1 rfl with
      | ⟨t, ht, _, h4⟩ => ⟨ss, h1, h2, t, ht, h4 (by decide)⟩),
   (match (C20_marshalling_calls_absent_overflow twoInputGraph).2 (by decide) with
    | ⟨ss, h1, h2, h3⟩ =>
      match h3 0 1 rfl with
      | ⟨t, ht, _, h4⟩ => ⟨ss, h1, h2, t, ht, h4 (by decide)⟩)⟩

theorem OpParams_ok_of_tags (op : Operator) (self : ModelGen)
    (h : ∀ type, checkedOptionsType op.op_code.builtin_code = some type →
      op.builtin_op.type = type) :
    ∃ r, OpParams op self = .ok r := by
  unfold OpParams
  cases hcode : op.op_code.builtin_code <;>
    simp only [hcode, checkedOptionsType, Option.some.injEq, forall_eq', reduceCtorEq,
      false_implies, implies_true] at h <;>
    first
    | exact ⟨_, rfl⟩
    | (cases hb : op.builtin_op <;>
        first
        | (simp only [hb, BuiltinOptions.type, reduceCtorEq] at h; done)
        | simp [OpParams.check, BuiltinOptions.type, hb, AddScalarInt32, AddScalarFloat32,
            bind, Except.bind])

theorem GenerateOpCodeStep_ok_of_not_rejected (op : Operator) (count : Nat) (self : ModelGen)
    (h : ¬ rejectedOperator op) : ∃ r, GenerateOpCodeStep op count self = .ok r := by
  have hmap : op.op_code.builtin_code ∈ mappedKinds := by
    by_contra hc
    exact h (Or.inl hc)
  have htag : ∀ type, checkedOptionsType op.op_code.builtin_code = some type →
      op.builtin_op.type = type := by
    intro type ht
    by_contra hc
    exact h (Or.inr ⟨type, ht, hc⟩)
  obtain ⟨r, hr⟩ := OpParams_ok_of_tags op self htag
  have hty : ∃ s, OpTypeStr op.op_code.builtin_code = .ok s := by
    cases hcode : op.op_code.builtin_code <;> simp [hcode, mappedKinds] at hmap <;>
      exact ⟨_, rfl⟩
  obtain ⟨s, hs⟩ := hty
  simp only [GenerateOpCodeStep, bind, Except.bind, pure, Except.pure, hr, hs]
  exact ⟨_, rfl⟩

theorem GenerateOpCodeLoop_ok_of_not_rejected (ops : List Operator) (count : Nat)
    (self : ModelGen) (h : ∀ op ∈ ops, ¬ rejectedOperator op) :
    ∃ r, GenerateOpCodeLoop ops count self = .ok r := by
  induction ops generalizing count self with
  | nil => exact ⟨_, rfl⟩
  | cons op rest ih =>
    obtain ⟨r, hr⟩ := GenerateOpCodeStep_ok_of_not_rejected op count self
      (h op (List.mem_cons_self _ _))
    obtain ⟨r', hr'⟩ := ih (count + 1) r.2 (fun o ho => h o (List.mem_cons_of_mem _ ho))
    simp only [GenerateOpCodeLoop, bind, Except.bind, pure, Except.pure, hr, hr']
    exact ⟨_, rfl⟩

theorem GenerateOpCodeStep_aborts_of_rejected (op : Operator) (count : Nat) (self : ModelGen)
    (h : rejectedOperator op) : Aborts (GenerateOpCodeStep op count self) := by
  rcases h with hun | ⟨type, hchk, hne⟩
  · exact GenerateOpCodeStep_aborts_of_OpTypeStr op count self
      ((OpTypeStr_aborts_iff _).mpr hun)
  · exact GenerateOpCodeStep_aborts_of_OpParams op count self
      (OpParams_aborts_of_tag_mismatch op self type hchk hne)

theorem GenerateOpCode_aborts_iff (graph : Graph) (self : ModelGen) :
    Aborts (GenerateOpCode graph self) ↔ ∃ op ∈ graph.Operators, rejectedOperator op := by
  constructor
  · intro hab
    by_contra hno
    have hall : ∀ op ∈ graph.Operators, ¬ rejectedOperator op :=
      fun op hop hr => hno ⟨op, hop, hr⟩
    obtain ⟨r, hr⟩ := GenerateOpCodeLoop_ok_of_not_rejected graph.Operators 0 self hall
    obtain ⟨msg, hmsg⟩ := hab
    unfold GenerateOpCode at hmsg
    rw [hr] at hmsg
    cases hmsg
  · rintro ⟨op, hop, hr⟩
    exact GenerateOpCodeLoop_aborts_of_mem graph.Operators op
      (fun c s => GenerateOpCodeStep_aborts_of_rejected op c s hr) hop 0 self

/-- C11 (counterexample): the ADD operator of `badIndexGraph` lists the input 7 and the
output -1, no positions in its sequence of two tensors; `GenerateOpCode` and `Assembler`
return text, and that text carries both indices. -/
theorem C11_invalid_operator_indices_are_emitted :
    ((7 : Int) ∈ badIndexAdd.inputs ∧ ¬ validIndex badIndexGraph 7) ∧
    ((-1 : Int) ∈ badIndexAdd.outputs ∧ ¬ validIndex badIndexGraph (-1)) ∧
    GenerateOpCode badIndexGraph ⟨2, 2⟩ = .ok (badIndexOpCode, ⟨3, 3⟩) ∧
    Stmt.inputOperands 0 [0, 7, 2] ∈ badIndexOpCode ∧
    Stmt.outputOperands 0 [-1] ∈ badIndexOpCode ∧
    Assembler badIndexGraph freshModelGen =
      .ok ([Stmt.header] ++ scenarioTensorsCode ++ badIndexOpCode ++ scenarioClosingCode,
           ⟨3, 3⟩) ∧
    ¬ Aborts (GenerateOpCode badIndexGraph ⟨2, 2⟩) ∧
    ¬ Aborts (Assembler badIndexGraph freshModelGen) := by
  refine ⟨⟨by decide, by decide⟩, ⟨by decide, by decide⟩, rfl, by decide, by decide, rfl,
    ?_, ?_⟩
  · rintro ⟨msg, h⟩
    have e : GenerateOpCode badIndexGraph ⟨2, 2⟩ = .ok (badIndexOpCode, ⟨3, 3⟩) := rfl
    rw [e] at h
    cases h
  · rintro ⟨msg, h⟩
    have e : Assembler badIndexGraph freshModelGen =
        .ok ([Stmt.header] ++ scenarioTensorsCode ++ badIndexOpCode ++ scenarioClosingCode,
             ⟨3, 3⟩) := rfl
    rw [e] at h
    cases h

/-- C11 (amended): `GenerateOpCode` aborts exactly when some operator has a kind `OpTypeStr`
does not map or a tag-checked kind with another options tag, whatever the index lists hold;
when it does not abort, the operation-build text of every operator carries its output
indices as given and its input indices as given, followed by its scalar operands. -/
theorem C11_operator_indices_are_emitted_unchecked (graph : Graph) (self : ModelGen) :
    (Aborts (GenerateOpCode graph self) ↔ ∃ op ∈ graph.Operators, rejectedOperator op) ∧
    (∀ oc self' pre op post, GenerateOpCode graph self = .ok (oc, self') →
      graph.Operators = pre ++ op :: post →
      Stmt.outputOperands pre.length op.outputs ∈ oc ∧
      ∃ scalars : List Int, Stmt.inputOperands pre.length (op.inputs ++ scalars) ∈ oc) := by
  refine ⟨GenerateOpCode_aborts_iff graph self, ?_⟩
  intro oc self' pre op post hO hop
  unfold GenerateOpCode at hO
  rw [hop] at hO
  obtain ⟨ssk, selfk, ss2, _, h2, rfl⟩ := GenerateOpCodeLoop_append _ _ _ _ _ _ hO
  obtain ⟨ssx, selfx, ssr, hstep, _, rfl⟩ := GenerateOpCodeLoop_cons _ _ _ _ _ _ h2
  obtain ⟨n, params, selfk', op_type, _, _, rfl, _⟩ := GenerateOpCodeStep_spec _ _ _ _ _ hstep
  constructor
  · simp [GenerateOpOutputs, foldl_append_singleton]
  · refine ⟨(List.range' selfk'.tensor_pos_ n).map Int.ofNat, ?_⟩
    have e : (GenerateOpInputs op.inputs n selfk').1 =
        op.inputs ++ (List.range' selfk'.tensor_pos_ n).map Int.ofNat := by
      rw [GenerateOpInputs_eq]
    rw [← e]
    simp

/-- C11 (amended) at `badIndexGraph`, whose operator lists the indices 7 and -1. -/
theorem C11_operator_indices_are_emitted_unchecked_witness :
    (GenerateOpCode badIndexGraph ⟨2, 2⟩ = .ok (badIndexOpCode, ⟨3, 3⟩) ∧
     badIndexGraph.Operators = [] ++ badIndexAdd :: []) ∧
    (Stmt.outputOperands ([] : List Operator).length badIndexAdd.outputs ∈ badIndexOpCode ∧
     ∃ scalars : List Int,
       Stmt.inputOperands ([] : List Operator).length (badIndexAdd.inputs ++ scalars) ∈
         badIndexOpCode) :=
  ⟨⟨rfl, rfl⟩,
   (C11_operator_indices_are_emitted_unchecked badIndexGraph ⟨2, 2⟩).2 badIndexOpCode ⟨3, 3⟩
     [] badIndexAdd [] rfl rfl⟩

theorem find?_filter_of_imp {α : Type} (p q : α → Bool) (l : List α)
    (h : ∀ x, p x = true → q x = true) : (l.filter q).find? p = l.find? p := by
  induction l with
  | nil => rfl
  | cons x xs ih =>
    by_cases hq : q x = true
    · rw [List.filter_cons_of_pos hq]
      by_cases hp : p x = true
      · rw [List.find?_cons_of_pos _ hp, List.find?_cons_of_pos _ hp]
      · rw [List.find?_cons_of_neg _ hp, List.find?_cons_of_neg _ hp, ih]
    · rw [List.filter_cons_of_neg hq]
      have hp : ¬ p x = true := fun hp => hq (h x hp)
      rw [List.find?_cons_of_neg _ hp, ih]

theorem OutputDir.file_write_same (dir : OutputDir) (fname : String) (c : FileContent) :
    (dir.write fname c).file fname = some c := by
  simp [OutputDir.write, OutputDir.file]

theorem OutputDir.file_openFile_same (dir : OutputDir) (fname : String) :
    (dir.openFile fname).file fname = some .empty := by
  simp [OutputDir.openFile, OutputDir.file]

theorem OutputDir.file_write_ne (dir : OutputDir) (fname g : String) (c : FileContent)
    (h : g ≠ fname) : (dir.write fname c).file g = dir.file g := by
  have hne : ¬ (fname = g) := fun e => h e.symm
  simp only [OutputDir.write, OutputDir.file]
  rw [List.find?_cons_of_neg _ (by simpa using hne)]
  rw [find?_filter_of_imp]
  intro x hx
  simp only [decide_eq_true_eq] at hx
  simp [hx, h]

theorem OutputDir.file_openFile_ne (dir : OutputDir) (fname g : String) (h : g ≠ fname) :
    (dir.openFile fname).file g = dir.file g :=
  OutputDir.file_write_ne dir fname g .empty h

/-- C12 (counterexample): on the graph with an INT8 tensor `Assembler` aborts, and
`GenFiles`, started on an empty directory, aborts leaving `weights_biases.bin` written and
`nn.cc` created. -/
theorem C12_abort_leaves_files_behind :
    Aborts (Assembler int8Graph freshModelGen) ∧
    CppGen.GenFiles int8Graph freshModelGen "a.b" allWritable emptyDir =
      (.error (.fatal "Tensor type not valid for Android NNAPI"),
       ⟨[("nn.cc", .empty),
         ("weights_biases.bin", .weights [0, 0, 128, 63, 0, 0, 0, 64])]⟩) ∧
    (CppGen.GenFiles int8Graph freshModelGen "a.b" allWritable emptyDir).2 ≠ emptyDir :=
  ⟨⟨_, rfl⟩, rfl, by decide⟩

/-- C12 (amended): for every model on which `Assembler` aborts, `GenFiles` (with
`weights_biases.bin` and `nn.cc` openable) aborts inside `GenCppFile`; at that point
`weights_biases.bin` holds the complete weight blob, `nn.cc` has been created and nothing
has been written to it, and `nn.h` and `jni.cc` are as they were before the call. -/
theorem C12_abort_happens_after_weights_are_written (graph : Graph) (self : ModelGen)
    (java_path : String) (writable : String → Bool) (dir : OutputDir)
    (hw : writable "weights_biases.bin" = true) (hc : writable "nn.cc" = true)
    (hA : Aborts (Assembler graph self)) :
    ∃ msg dir', CppGen.GenFiles graph self java_path writable dir =
        (.error (.fatal msg), dir') ∧
      dir'.file "weights_biases.bin" = some (.weights (TensorsHeader.Generate graph)) ∧
      dir'.file "nn.cc" = some .empty ∧
      dir'.file "nn.h" = dir.file "nn.h" ∧
      dir'.file "jni.cc" = dir.file "jni.cc" := by
  obtain ⟨msg, hmsg⟩ := hA
  refine ⟨msg, ((dir.openFile "weights_biases.bin").write "weights_biases.bin"
    (.weights (TensorsHeader.Generate graph))).openFile "nn.cc", ?_, ?_, ?_, ?_, ?_⟩
  · simp [CppGen.GenFiles, CppGen.GenTensorsDataFile, CppGen.GenCppFile, hw, hc, hmsg,
      TensorsHeader.Assembler]
  · rw [OutputDir.file_openFile_ne _ _ _ (by decide), OutputDir.file_write_same]
  · rw [OutputDir.file_openFile_same]
  · rw [OutputDir.file_openFile_ne _ _ _ (by decide),
      OutputDir.file_write_ne _ _ _ _ (by decide),
      OutputDir.file_openFile_ne _ _ _ (by decide)]
  · rw [OutputDir.file_openFile_ne _ _ _ (by decide),
      OutputDir.file_write_ne _ _ _ _ (by decide),
      OutputDir.file_openFile_ne _ _ _ (by decide)]

/-- C12 (amended) at the graph with an INT8 tensor, on an empty directory. -/
theorem C12_abort_happens_after_weights_are_written_witness :
    (allWritable "weights_biases.bin" = true ∧ allWritable "nn.cc" = true ∧
     Aborts (Assembler int8Graph freshModelGen)) ∧
    ∃ msg dir', CppGen.GenFiles int8Graph freshModelGen "a.b" allWritable emptyDir =
        (.error (.fatal msg), dir') ∧
      dir'.file "weights_biases.bin" = some (.weights (TensorsHeader.Generate int8Graph)) ∧
      dir'.file "nn.cc" = some .empty ∧
      dir'.file "nn.h" = emptyDir.file "nn.h" ∧
      dir'.file "jni.cc" = emptyDir.file "jni.cc" :=
  ⟨⟨rfl, rfl, ⟨_, rfl⟩⟩,
   C12_abort_happens_after_weights_are_written int8Graph freshModelGen "a.b" allWritable
     emptyDir rfl rfl ⟨_, rfl⟩⟩

theorem sizeFold_narrow (shape : List Int) (init : Int) :
    shape.foldl (fun size shape_i => size * shape_i) init = init * shape.prod := by
  induction shape generalizing init with
  | nil => simp
  | cons d rest ih => rw [List.foldl_cons, ih, List.prod_cons, Int.mul_assoc]

theorem sizeFold_wide (shape : List Int) (init : Int) :
    shape.foldl (fun size shape_i => size * shape_i * 4) init =
      init * (shape.prod * 4 ^ shape.length) := by
  induction shape generalizing init with
  | nil => simp
  | cons d rest ih =>
    rw [List.foldl_cons, ih, List.prod_cons, List.length_cons, pow_succ]
    ring

theorem TensorSizeExact_narrow (tensor : Tensor)
    (h : tensor.tensor_type ≠ .FLOAT32 ∧ tensor.tensor_type ≠ .INT32) :
    TensorSizeExact tensor = tensor.shape.prod := by
  unfold TensorSizeExact
  have hc : ¬ (tensor.tensor_type = .FLOAT32 ∨ tensor.tensor_type = .INT32) := by
    rintro (e | e)
    · exact h.1 e
    · exact h.2 e
  simp only [hc, if_false]
  rw [sizeFold_narrow, Int.one_mul]

theorem TensorSizeExact_wide (tensor : Tensor)
    (h : tensor.tensor_type = .FLOAT32 ∨ tensor.tensor_type = .INT32) :
    TensorSizeExact tensor = tensor.shape.prod * 4 ^ tensor.shape.length := by
  unfold TensorSizeExact
  simp only [h, if_true]
  rw [sizeFold_wide, Int.one_mul]

theorem sizeFold_of_inRange (type : TensorType) (shape : List Int) (size : Int)
    (h : sizeLoopInRange type shape size = true) :
    shape.foldl
      (fun size shape_i =>
        let size := wrapInt32 (size * shape_i)
        if type = .FLOAT32 ∨ type = .INT32 then wrapInt32 (size * 4)
        else size)
      size =
    shape.foldl
      (fun size shape_i =>
        let size := size * shape_i
        if type = .FLOAT32 ∨ type = .INT32 then size * 4
        else size)
      size := by
  induction shape generalizing size with
  | nil => rfl
  | cons d rest ih =>
    simp only [sizeLoopInRange, Bool.and_eq_true] at h
    obtain ⟨h1, h2⟩ := h
    simp only [List.foldl_cons]
    by_cases hw : type = .FLOAT32 ∨ type = .INT32
    · simp only [hw, if_true, Bool.and_eq_true] at h2 ⊢
      rw [wrapInt32_of_inIntRange _ h1, wrapInt32_of_inIntRange _ h2.1]
      have hrec := ih _ h2.2
      simp only [hw, if_true] at hrec
      exact hrec
    · simp only [hw, if_false] at h2 ⊢
      rw [wrapInt32_of_inIntRange _ h1]
      have hrec := ih _ h2
      simp only [hw, if_false] at hrec
      exact hrec

theorem TensorSize_eq_exact (tensor : Tensor) (h : noOverflow tensor = true) :
    TensorSize tensor = TensorSizeExact tensor :=
  sizeFold_of_inRange tensor.tensor_type tensor.shape 1 h

theorem sizeFold_inIntRange (type : TensorType) (shape : List Int) (size : Int)
    (h : inIntRange size = true) :
    inIntRange (shape.foldl
      (fun size shape_i =>
        let size := wrapInt32 (size * shape_i)
        if type = .FLOAT32 ∨ type = .INT32 then wrapInt32 (size * 4)
        else size)
      size) = true := by
  induction shape generalizing size with
  | nil => exact h
  | cons d rest ih =>
    simp only [List.foldl_cons]
    apply ih
    by_cases hw : type = .FLOAT32 ∨ type = .INT32
    · simp only [hw, if_true]
      exact inIntRange_wrapInt32 _
    · simp only [hw, if_false]
      exact inIntRange_wrapInt32 _

theorem TensorSize_inIntRange (tensor : Tensor) : inIntRange (TensorSize tensor) = true :=
  sizeFold_inIntRange tensor.tensor_type tensor.shape 1 (by decide)

theorem prod_pos_of_pos (shape : List Int) (h : ∀ d ∈ shape, 0 < d) : 0 < shape.prod := by
  induction shape with
  | nil => simp
  | cons d rest ih =>
    rw [List.prod_cons]
    exact Int.mul_pos (h d (List.mem_cons_self _ _))
      (ih (fun x hx => h x (List.mem_cons_of_mem _ hx)))

theorem sizeLoopInRange_narrow_of_wide (narrow wide : TensorType)
    (hn : narrow ≠ .FLOAT32 ∧ narrow ≠ .INT32) (hw : wide = .FLOAT32 ∨ wide = .INT32)
    (shape : List Int) (hpos : ∀ d ∈ shape, 0 < d) (size size' : Int)
    (h0 : 0 < size) (hle : size ≤ size')
    (h : sizeLoopInRange wide shape size' = true) :
    sizeLoopInRange narrow shape size = true := by
  have hc : ¬ (narrow = .FLOAT32 ∨ narrow = .INT32) := by
    rintro (e | e)
    · exact hn.1 e
    · exact hn.2 e
  induction shape generalizing size size' with
  | nil => rfl
  | cons d rest ih =>
    have hd : 0 < d := hpos d (List.mem_cons_self _ _)
    simp only [sizeLoopInRange, hw, if_true, Bool.and_eq_true] at h
    obtain ⟨_, h4, hrest⟩ := h
    have hp : 0 < size * d := Int.mul_pos h0 hd
    have hle' : size * d ≤ size' * d := Int.mul_le_mul_of_nonneg_right hle (Int.le_of_lt hd)
    have hle4 : size * d ≤ size' * d * 4 := by omega
    simp only [inIntRange, Bool.and_eq_true, decide_eq_true_eq] at h4
    simp only [sizeLoopInRange, hc, if_false, Bool.and_eq_true]
    refine ⟨?_, ih (fun x hx => hpos x (List.mem_cons_of_mem _ hx)) _ _ hp hle4 hrest⟩
    simp only [inIntRange, Bool.and_eq_true, decide_eq_true_eq]
    constructor <;> omega

/-- C22 (counterexample): for shape `[65536, 65536]` with UINT8 the product of the
dimensions is `4294967296`, a value outside the range of `int`, and `TensorSize` is 0. -/
theorem C22_product_of_dimensions_overflows_int :
    (tensor_65536x65536_uint8.tensor_type ≠ .FLOAT32 ∧
     tensor_65536x65536_uint8.tensor_type ≠ .INT32) ∧
    tensor_65536x65536_uint8.shape.prod = 4294967296 ∧
    inIntRange tensor_65536x65536_uint8.shape.prod = false ∧
    TensorSize tensor_65536x65536_uint8 = 0 ∧
    TensorSize tensor_65536x65536_uint8 ≠ tensor_65536x65536_uint8.shape.prod :=
  ⟨by decide, by decide, by decide, by decide, by decide⟩

/-- C22 (amended): for every shape and every element type other than FLOAT32 and INT32,
when no product of the loop leaves the range of `int`, `TensorSize` is the product of the
dimensions; for shape `[10]` with UINT8 it is 10. -/
theorem C22_TensorSize_of_one_byte_types_absent_overflow (tensor : Tensor)
    (h : tensor.tensor_type ≠ .FLOAT32 ∧ tensor.tensor_type ≠ .INT32)
    (hfit : noOverflow tensor = true) :
    TensorSize tensor = tensor.shape.prod ∧ TensorSize tensor_10_uint8 = 10 :=
  ⟨by rw [TensorSize_eq_exact tensor hfit, TensorSizeExact_narrow tensor h], by decide⟩

/-- C22 (amended) at shape `[10]` with UINT8. -/
theorem C22_TensorSize_of_one_byte_types_absent_overflow_witness :
    ((tensor_10_uint8.tensor_type ≠ .FLOAT32 ∧ tensor_10_uint8.tensor_type ≠ .INT32) ∧
     noOverflow tensor_10_uint8 = true) ∧
    (TensorSize tensor_10_uint8 = tensor_10_uint8.shape.prod ∧
     TensorSize tensor_10_uint8 = 10) :=
  ⟨⟨by decide, by decide⟩,
   C22_TensorSize_of_one_byte_types_absent_overflow tensor_10_uint8 (by decide) (by decide)⟩

/-- C23: for every element type, every shape and every position in it, multiplying the
dimension at that position by an integer `k` (positive or not) multiplies the size by
exactly `k`: in exact integer arithmetic (`TensorSizeExact`) always, and for the `int` loop
(`TensorSize`) when neither of the two computations overflows. -/
theorem C23_TensorSize_is_multiplicative (tensor : Tensor) (pre post : List Int) (d k : Int)
    (hshape : tensor.shape = pre ++ d :: post) :
    TensorSizeExact { tensor with shape := pre ++ (d * k) :: post } =
      k * TensorSizeExact tensor ∧
    (noOverflow tensor = true →
      noOverflow { tensor with shape := pre ++ (d * k) :: post } = true →
      TensorSize { tensor with shape := pre ++ (d * k) :: post } = k * TensorSize tensor) := by
  have hexact : TensorSizeExact { tensor with shape := pre ++ (d * k) :: post } =
      k * TensorSizeExact tensor := by
    by_cases hw : tensor.tensor_type = .FLOAT32 ∨ tensor.tensor_type = .INT32
    · rw [TensorSizeExact_wide tensor hw,
        TensorSizeExact_wide { tensor with shape := pre ++ (d * k) :: post } hw, hshape]
      simp only [List.prod_append, List.prod_cons, List.length_append, List.length_cons]
      ring
    · have hn : tensor.tensor_type ≠ .FLOAT32 ∧ tensor.tensor_type ≠ .INT32 :=
        ⟨fun e => hw (Or.inl e), fun e => hw (Or.inr e)⟩
      rw [TensorSizeExact_narrow tensor hn,
        TensorSizeExact_narrow { tensor with shape := pre ++ (d * k) :: post } hn, hshape]
      simp only [List.prod_append, List.prod_cons]
      ring
  refine ⟨hexact, ?_⟩
  intro h1 h2
  rw [TensorSize_eq_exact tensor h1, TensorSize_eq_exact _ h2, hexact]

/-- C23 at shape `[2,3]` with FLOAT32, the second dimension multiplied by 5: neither
computation overflows, and the size goes from 96 to 480. -/
theorem C23_TensorSize_is_multiplicative_witness :
    (tensor_2x3_float32.shape = [2] ++ 3 :: [] ∧
     noOverflow tensor_2x3_float32 = true ∧
     noOverflow { tensor_2x3_float32 with shape := [2] ++ (3 * 5) :: [] } = true) ∧
    TensorSizeExact { tensor_2x3_float32 with shape := [2] ++ (3 * 5) :: [] } =
      5 * TensorSizeExact tensor_2x3_float32 ∧
    TensorSize { tensor_2x3_float32 with shape := [2] ++ (3 * 5) :: [] } =
      5 * TensorSize tensor_2x3_float32 ∧
    TensorSize { tensor_2x3_float32 with shape := [2] ++ (3 * 5) :: [] } = 480 :=
  ⟨⟨rfl, by decide, by decide⟩,
   (C23_TensorSize_is_multiplicative tensor_2x3_float32 [2] [] 3 5 rfl).1,
   (C23_TensorSize_is_multiplicative tensor_2x3_float32 [2] [] 3 5 rfl).2
     (by decide) (by decide),
   by decide⟩

/-- C24 (counterexample): for the shape `[1024, 1024, 1024]` of positive dimensions,
`TensorSize` is `1073741824` with UINT8 and 0 with FLOAT32, whose exact size `2^36` is
outside the range of `int`: the one-byte size is larger. -/
theorem C24_four_byte_size_overflows_int :
    tensor_1024x1024x1024_uint8.shape = tensor_1024x1024x1024_float32.shape ∧
    (∀ d ∈ tensor_1024x1024x1024_float32.shape, 0 < d) ∧
    (tensor_1024x1024x1024_uint8.tensor_type ≠ .FLOAT32 ∧
     tensor_1024x1024x1024_uint8.tensor_type ≠ .INT32) ∧
    tensor_1024x1024x1024_float32.tensor_type = .FLOAT32 ∧
    TensorSize tensor_1024x1024x1024_uint8 = 1073741824 ∧
    TensorSize tensor_1024x1024x1024_float32 = 0 ∧
    TensorSizeExact tensor_1024x1024x1024_float32 = 2 ^ 36 ∧
    ¬ (TensorSize tensor_1024x1024x1024_uint8 ≤ TensorSize tensor_1024x1024x1024_float32) :=
  ⟨rfl, by decide, by decide, rfl, by decide, by decide, by decide, by decide⟩

/-- C24 (amended): for every shape of positive dimensions whose four-byte size is computed
without leaving the range of `int`, `TensorSize` with an element type other than FLOAT32 and
INT32 (one byte) is at most `TensorSize` of the same shape with FLOAT32 or INT32 (four
bytes). -/
theorem C24_TensorSize_is_monotonic_absent_overflow (narrow wide : Tensor)
    (hshape : narrow.shape = wide.shape) (hpos : ∀ d ∈ wide.shape, 0 < d)
    (hn : narrow.tensor_type ≠ .FLOAT32 ∧ narrow.tensor_type ≠ .INT32)
    (hw : wide.tensor_type = .FLOAT32 ∨ wide.tensor_type = .INT32)
    (hfit : noOverflow wide = true) :
    TensorSize narrow ≤ TensorSize wide := by
  have hfitn : noOverflow narrow = true := by
    unfold noOverflow
    rw [hshape]
    exact sizeLoopInRange_narrow_of_wide narrow.tensor_type wide.tensor_type hn hw wide.shape
      hpos 1 1 (by decide) (Int.le_refl 1) hfit
  rw [TensorSize_eq_exact narrow hfitn, TensorSize_eq_exact wide hfit,
    TensorSizeExact_narrow narrow hn, TensorSizeExact_wide wide hw, hshape]
  have hp := prod_pos_of_pos wide.shape hpos
  have h4 : (1 : Int) ≤ 4 ^ wide.shape.length := one_le_pow₀ (by norm_num)
  calc wide.shape.prod = wide.shape.prod * 1 := by ring
    _ ≤ wide.shape.prod * 4 ^ wide.shape.length :=
      Int.mul_le_mul_of_nonneg_left h4 (Int.le_of_lt hp)

/-- C24 (amended) at shape `[1,2]` with UINT8 against FLOAT32: 2 bytes against 32. -/
theorem C24_TensorSize_is_monotonic_absent_overflow_witness :
    (({ scenarioTensor0 with tensor_type := .UINT8 } : Tensor).shape = scenarioTensor0.shape ∧
     (∀ d ∈ scenarioTensor0.shape, 0 < d) ∧
     (({ scenarioTensor0 with tensor_type := .UINT8 } : Tensor).tensor_type ≠ .FLOAT32 ∧
      ({ scenarioTensor0 with tensor_type := .UINT8 } : Tensor).tensor_type ≠ .INT32) ∧
     (scenarioTensor0.tensor_type = .FLOAT32 ∨ scenarioTensor0.tensor_type = .INT32) ∧
     noOverflow scenarioTensor0 = true) ∧
    TensorSize { scenarioTensor0 with tensor_type := .UINT8 } ≤ TensorSize scenarioTensor0 :=
  ⟨⟨rfl, by decide, by decide, Or.inl rfl, by decide⟩,
   C24_TensorSize_is_monotonic_absent_overflow { scenarioTensor0 with tensor_type := .UINT8 }
     scenarioTensor0 rfl (by decide) (by decide) (Or.inl rfl) (by decide)⟩

theorem TotalSizeLoop_eq (graph : Graph) (indices : List Int) (total_size : Int)
    (hv : ∀ i ∈ indices, validIndex graph i) :
    ModelGenJni.TotalSizeLoop graph indices total_size =
      .ok (intSum total_size (indices.map (tensorSizeAt graph))) := by
  induction indices generalizing total_size with
  | nil => simp [ModelGenJni.TotalSizeLoop, intSum]
  | cons i rest ih =>
    obtain ⟨t, ht⟩ := tensorAt_ok_of_validIndex graph i (hv i (List.mem_cons_self _ _))
    have hs : tensorSizeAt graph i = TensorSize t := tensorSizeAt_of_ok graph i t ht
    simp only [ModelGenJni.TotalSizeLoop, bind, Except.bind, ht]
    rw [ih _ (fun j hj => hv j (List.mem_cons_of_mem _ hj)), List.map_cons, hs]
    rfl

/-- C29 (counterexample): for shape `[0,5]` with FLOAT32 `TensorSize` is 0, which is the
product of the dimensions times 4, although the rank is 2. -/
theorem C29_zero_dimension_agrees_at_rank_two :
    tensor_0x5_float32.tensor_type = .FLOAT32 ∧
    tensor_0x5_float32.shape.length = 2 ∧
    TensorSize tensor_0x5_float32 = 0 ∧
    TensorSize tensor_0x5_float32 = tensor_0x5_float32.shape.prod * 4 ∧
    ¬ (TensorSize tensor_0x5_float32 = tensor_0x5_float32.shape.prod * 4 ↔
        tensor_0x5_float32.shape.length = 1) := by
  refine ⟨rfl, rfl, by decide, by decide, ?_⟩
  intro h
  have := h.mp (by decide)
  exact absurd this (by decide)

/-- C29 (amended): for every shape of rank `n` with FLOAT32 or INT32 the size is the product
of the dimensions times `4 ^ n`, in exact integer arithmetic (`TensorSizeExact`) always and
for the `int` loop (`TensorSize`) absent overflow; the size `ModelGenJni::TotalSize`
computes for that tensor is `TensorSize`; the size is 1 for the empty shape; and for a shape
without a zero dimension it equals the product times 4 exactly when `n = 1`. -/
theorem C29_TensorSize_of_four_byte_types (tensor : Tensor)
    (hw : tensor.tensor_type = .FLOAT32 ∨ tensor.tensor_type = .INT32) :
    TensorSizeExact tensor = tensor.shape.prod * 4 ^ tensor.shape.length ∧
    (noOverflow tensor = true →
      TensorSize tensor = tensor.shape.prod * 4 ^ tensor.shape.length) ∧
    (∀ (graph : Graph) (i : Int), tensorAt graph i = .ok tensor →
      ModelGenJni.TotalSize graph [i] = .ok (TensorSize tensor) ∧
      (noOverflow tensor = true →
        ModelGenJni.TotalSize graph [i] =
          .ok (tensor.shape.prod * 4 ^ tensor.shape.length))) ∧
    (tensor.shape = [] → TensorSizeExact tensor = 1 ∧ TensorSize tensor = 1) ∧
    ((∀ d ∈ tensor.shape, d ≠ 0) →
      (TensorSizeExact tensor = tensor.shape.prod * 4 ↔ tensor.shape.length = 1) ∧
      (noOverflow tensor = true →
        (TensorSize tensor = tensor.shape.prod * 4 ↔ tensor.shape.length = 1))) := by
  have hsize := TensorSizeExact_wide tensor hw
  have htotal : ∀ (graph : Graph) (i : Int), tensorAt graph i = .ok tensor →
      ModelGenJni.TotalSize graph [i] = .ok (TensorSize tensor) := by
    intro graph i ht
    have hfold : tensor.shape.foldl
        (fun size shape_i =>
          let size := wrapInt32 (size * shape_i)
          if tensor.tensor_type = .FLOAT32 ∨ tensor.tensor_type = .INT32 then
            wrapInt32 (size * 4)
          else size) 1 = TensorSize tensor := rfl
    simp only [ModelGenJni.TotalSize, ModelGenJni.TotalSizeLoop, bind, Except.bind, ht]
    rw [hfold, Int.zero_add, wrapInt32_of_inIntRange _ (TensorSize_inIntRange tensor)]
  have hiff : (∀ d ∈ tensor.shape, d ≠ 0) →
      (TensorSizeExact tensor = tensor.shape.prod * 4 ↔ tensor.shape.length = 1) := by
    intro hnz
    have hp : tensor.shape.prod ≠ 0 := by
      rw [Ne, List.prod_eq_zero_iff]
      exact fun h0 => hnz 0 h0 rfl
    rw [hsize]
    constructor
    · intro h
      have h4 : (4 : Int) ^ tensor.shape.length = 4 ^ 1 := by
        rw [pow_one]
        exact mul_left_cancel₀ hp h
      exact Int.pow_right_injective (by norm_num) h4
    · intro h
      rw [h, pow_one]
  refine ⟨hsize, ?_, ?_, ?_, ?_⟩
  · intro hfit
    rw [TensorSize_eq_exact tensor hfit, hsize]
  · intro graph i ht
    refine ⟨htotal graph i ht, ?_⟩
    intro hfit
    rw [htotal graph i ht, TensorSize_eq_exact tensor hfit, hsize]
  · intro he
    constructor
    · rw [hsize, he]
      rfl
    · unfold TensorSize
      rw [he]
      rfl
  · intro hnz
    refine ⟨hiff hnz, ?_⟩
    intro hfit
    rw [TensorSize_eq_exact tensor hfit]
    exact hiff hnz

/-- C29 (amended) at shape `[5]` with FLOAT32: 20 bytes, without overflow. -/
theorem C29_TensorSize_of_four_byte_types_witness :
    ((tensor_5_float32.tensor_type = .FLOAT32 ∨ tensor_5_float32.tensor_type = .INT32) ∧
     noOverflow tensor_5_float32 = true ∧ (∀ d ∈ tensor_5_float32.shape, d ≠ 0)) ∧
    TensorSizeExact tensor_5_float32 =
      tensor_5_float32.shape.prod * 4 ^ tensor_5_float32.shape.length ∧
    TensorSize tensor_5_float32 =
      tensor_5_float32.shape.prod * 4 ^ tensor_5_float32.shape.length ∧
    TensorSize tensor_5_float32 = 20 ∧
    (∀ (graph : Graph) (i : Int), tensorAt graph i = .ok tensor_5_float32 →
      ModelGenJni.TotalSize graph [i] = .ok (TensorSize tensor_5_float32) ∧
      (noOverflow tensor_5_float32 = true →
        ModelGenJni.TotalSize graph [i] =
          .ok (tensor_5_float32.shape.prod * 4 ^ tensor_5_float32.shape.length))) ∧
    (TensorSizeExact tensor_5_float32 = tensor_5_float32.shape.prod * 4 ↔
      tensor_5_float32.shape.length = 1) ∧
    (TensorSize tensor_5_float32 = tensor_5_float32.shape.prod * 4 ↔
      tensor_5_float32.shape.length = 1) :=
  ⟨⟨Or.inl rfl, by decide, by decide⟩,
   (C29_TensorSize_of_four_byte_types tensor_5_float32 (Or.inl rfl)).1,
   (C29_TensorSize_of_four_byte_types tensor_5_float32 (Or.inl rfl)).2.1 (by decide),
   by decide,
   (C29_TensorSize_of_four_byte_types tensor_5_float32 (Or.inl rfl)).2.2.1,
   ((C29_TensorSize_of_four_byte_types tensor_5_float32 (Or.inl rfl)).2.2.2.2
     (by decide)).1,
   ((C29_TensorSize_of_four_byte_types tensor_5_float32 (Or.inl rfl)).2.2.2.2
     (by decide)).2 (by decide)⟩

/-- C28 (code defect): for the empty shape `TensorDim` returns the single character of the
closing brace: the `substr` that drops the trailing comma drops the opening brace. -/
theorem C28_TensorDim_of_empty_shape :
    TensorDim [] = "\x7d" ∧ TensorDim [] ≠ "\x7b\x7d" ∧
    TensorDim [1, 2] = "\x7b1,2\x7d" ∧
    GenerateTensorType scalarTensor 0 =
      .ok [.dimensions 0 "\x7d", .operandType 0 "ANEURALNETWORKS_TENSOR_FLOAT32" 0 .one 0] :=
  ⟨by decide, by decide, by decide, rfl⟩

theorem GenerateTensorsCode_state_independent (graph : Graph) (s1 s2 : ModelGen) :
    GenerateTensorsCode graph s1 = GenerateTensorsCode graph s2 := rfl

theorem Assembler_state_independent (graph : Graph) (s1 s2 : ModelGen) :
    Assembler graph s1 = Assembler graph s2 := by
  unfold Assembler
  rw [GenerateTensorsCode_state_independent graph s1 s2]

/-- C26: for every model, a second run of `Assembler` on the state the first run left
returns the same text and leaves the same state; `GenerateTensorsCode` and `Assembler` do
not depend on the counters they start from. -/
theorem C26_second_run_returns_the_same_text (graph : Graph) (self self' : ModelGen)
    (code : List Stmt) (h : Assembler graph self = .ok (code, self')) :
    Assembler graph self' = .ok (code, self') ∧
    (∀ s1 s2, GenerateTensorsCode graph s1 = GenerateTensorsCode graph s2) ∧
    (∀ s1 s2, Assembler graph s1 = Assembler graph s2) :=
  ⟨by rw [Assembler_state_independent graph self' self, h],
   GenerateTensorsCode_state_independent graph, Assembler_state_independent graph⟩

/-- C26 at the end-to-end scenario. -/
theorem C26_second_run_returns_the_same_text_witness :
    Assembler scenarioGraph freshModelGen =
      .ok ([Stmt.header] ++ scenarioTensorsCode ++ scenarioOpCode ++ scenarioClosingCode,
           ⟨3, 3⟩) ∧
    (Assembler scenarioGraph ⟨3, 3⟩ =
       .ok ([Stmt.header] ++ scenarioTensorsCode ++ scenarioOpCode ++ scenarioClosingCode,
            ⟨3, 3⟩) ∧
     (∀ s1 s2, GenerateTensorsCode scenarioGraph s1 = GenerateTensorsCode scenarioGraph s2) ∧
     (∀ s1 s2, Assembler scenarioGraph s1 = Assembler scenarioGraph s2)) :=
  ⟨rfl, C26_second_run_returns_the_same_text scenarioGraph freshModelGen ⟨3, 3⟩
    ([Stmt.header] ++ scenarioTensorsCode ++ scenarioOpCode ++ scenarioClosingCode) rfl⟩

theorem OpParams_length (op : Operator) (self self' : ModelGen) (n : Nat) (ss : List Stmt)
    (h : OpParams op self = .ok ((n, ss), self')) :
    n = tableCount op.op_code.builtin_code ∧ ss.length = n := by
  cases hcode : op.op_code.builtin_code <;>
    simp only [OpParams, hcode, OpParams.check, FATAL, AddScalarInt32, AddScalarFloat32, bind,
      Except.bind] at h <;>
    (try split at h) <;> (try split at h) <;>
    (try (simp at h; done)) <;>
    (simp only [Except.ok.injEq, Prod.mk.injEq] at h) <;>
    (obtain ⟨⟨rfl, rfl⟩, _⟩ := h) <;>
    exact ⟨rfl, rfl⟩

theorem OpParams_of_no_table_entry (op : Operator) (self : ModelGen)
    (h : inParamTable op.op_code.builtin_code = false) :
    OpParams op self = .ok ((0, []), self) := by
  cases hcode : op.op_code.builtin_code <;>
    simp only [hcode, inParamTable, reduceCtorEq] at h <;>
    simp only [OpParams, hcode]

/-- C27: for every operator `OpParams` accepts, `num_params` is the count the table gives the
operator's kind, the returned text consists of exactly that many scalar-operand
declarations, `count_operands_` advances by that count and `tensor_pos_` is unchanged; for a
kind without an entry it returns 0 with empty text and the state unchanged; and the
declarations of ADD, DEPTHWISE_CONV_2D, CONCATENATION, SOFTMAX, SPACE_TO_DEPTH and LSTM carry
the listed values in the listed order. -/
theorem C27_num_params_is_fixed_by_the_kind (op : Operator) (self : ModelGen) :
    (∀ n ss self', OpParams op self = .ok ((n, ss), self') →
      n = tableCount op.op_code.builtin_code ∧ ss.length = n ∧
      (scalarIndices ss).length = n ∧
      self'.count_operands_ = self.count_operands_ + n ∧
      self'.tensor_pos_ = self.tensor_pos_) ∧
    (inParamTable op.op_code.builtin_code = false →
      tableCount op.op_code.builtin_code = 0 ∧ OpParams op self = .ok ((0, []), self)) ∧
    (op.op_code.builtin_code = .ADD →
      OpParams op self =
        .ok ((1, [.addScalarInt32 self.count_operands_ 0]),
          { self with count_operands_ := self.count_operands_ + 1 })) ∧
    (∀ o : DepthwiseConv2DOptions, op.op_code.builtin_code = .DEPTHWISE_CONV_2D →
      op.builtin_op = .DepthwiseConv2DOptions o →
      OpParams op self =
        .ok ((5,
          [.addScalarInt32 self.count_operands_ o.padding.toInt,
           .addScalarInt32 (self.count_operands_ + 1) o.stride_w,
           .addScalarInt32 (self.count_operands_ + 2) o.stride_h,
           .addScalarInt32 (self.count_operands_ + 3) o.depth_multiplier,
           .addScalarInt32 (self.count_operands_ + 4) o.fused_activation_function.toInt]),
          { self with count_operands_ := self.count_operands_ + 5 })) ∧
    (∀ o : ConcatenationOptions, op.op_code.builtin_code = .CONCATENATION →
      op.builtin_op = .ConcatenationOptions o →
      OpParams op self =
        .ok ((2,
          [.addScalarInt32 self.count_operands_ o.axis,
           .addScalarInt32 (self.count_operands_ + 1) o.fused_activation_function.toInt]),
          { self with count_operands_ := self.count_operands_ + 2 })) ∧
    (∀ o : SoftmaxOptions, op.op_code.builtin_code = .SOFTMAX →
      op.builtin_op = .SoftmaxOptions o →
      OpParams op self =
        .ok ((1, [.addScalarFloat32 self.count_operands_ o.beta]),
          { self with count_operands_ := self.count_operands_ + 1 })) ∧
    (∀ o : SpaceToDepthOptions, op.op_code.builtin_code = .SPACE_TO_DEPTH →
      op.builtin_op = .SpaceToDepthOptions o →
      OpParams op self =
        .ok ((1, [.addScalarInt32 self.count_operands_ o.block_size]),
          { self with count_operands_ := self.count_operands_ + 1 })) ∧
    (∀ o : LSTMOptions, op.op_code.builtin_code = .LSTM →
      op.builtin_op = .LSTMOptions o →
      OpParams op self =
        .ok ((3,
          [.addScalarInt32 self.count_operands_ o.fused_activation_function.toInt,
           .addScalarInt32 (self.count_operands_ + 1) (floatToInt o.cell_clip),
           .addScalarInt32 (self.count_operands_ + 2) (floatToInt o.proj_clip)]),
          { self with count_operands_ := self.count_operands_ + 3 })) := by
  refine ⟨?_, ?_, ?_, ?_, ?_, ?_, ?_, ?_⟩
  · intro n ss self' h
    obtain ⟨h1, h2⟩ := OpParams_length _ _ _ _ _ h
    obtain ⟨e1, e2, e3⟩ := OpParams_spec _ _ _ _ _ h
    exact ⟨h1, h2, by rw [e3, List.length_range'], e2, e1⟩
  · intro h
    refine ⟨?_, OpParams_of_no_table_entry op self h⟩
    cases hcode : op.op_code.builtin_code <;>
      simp only [hcode, inParamTable, reduceCtorEq] at h <;> rfl
  · intro hk
    simp [OpParams, hk, AddScalarInt32]
  · intro o hk ho
    simp [OpParams, hk, ho, OpParams.check, BuiltinOptions.type, AddScalarInt32, bind,
      Except.bind]
  · intro o hk ho
    simp [OpParams, hk, ho, OpParams.check, BuiltinOptions.type, AddScalarInt32, bind,
      Except.bind]
  · intro o hk ho
    simp [OpParams, hk, ho, OpParams.check, BuiltinOptions.type, AddScalarFloat32, bind,
      Except.bind]
  · intro o hk ho
    simp [OpParams, hk, ho, OpParams.check, BuiltinOptions.type, AddScalarInt32, bind,
      Except.bind]
  · intro o hk ho
    simp [OpParams, hk, ho, OpParams.check, BuiltinOptions.type, AddScalarInt32, bind,
      Except.bind]

/-- C27 at a pooling operator, at a RELU operator (no table entry) and at an LSTM operator. -/
theorem C27_num_params_is_fixed_by_the_kind_witness :
    (OpParams poolOp ⟨2, 2⟩ =
       .ok ((6,
         [.addScalarInt32 2 2, .addScalarInt32 3 2, .addScalarInt32 4 3,
          .addScalarInt32 5 4, .addScalarInt32 6 5, .addScalarInt32 7 3]), ⟨8, 2⟩) ∧
     6 = tableCount poolOp.op_code.builtin_code ∧
     (8 : Nat) = 2 + 6) ∧
    (inParamTable reluOp.op_code.builtin_code = false ∧
     tableCount reluOp.op_code.builtin_code = 0 ∧
     OpParams reluOp ⟨2, 2⟩ = .ok ((0, []), ⟨2, 2⟩)) ∧
    (lstmOp.op_code.builtin_code = .LSTM ∧
     lstmOp.builtin_op = .LSTMOptions ⟨5 / 2, 0, .TANH⟩ ∧
     OpParams lstmOp ⟨2, 2⟩ =
       .ok ((3,
         [.addScalarInt32 2 ActivationFunctionType.TANH.toInt,
          .addScalarInt32 (2 + 1) (floatToInt (5 / 2)),
          .addScalarInt32 (2 + 2) (floatToInt 0)]),
         { (⟨2, 2⟩ : ModelGen) with count_operands_ := 2 + 3 })) :=
  ⟨⟨rfl,
    ((C27_num_params_is_fixed_by_the_kind poolOp ⟨2, 2⟩).1 6 _ ⟨8, 2⟩ rfl).1,
    ((C27_num_params_is_fixed_by_the_kind poolOp ⟨2, 2⟩).1 6 _ ⟨8, 2⟩ rfl).2.2.2.1⟩,
   ⟨rfl,
    ((C27_num_params_is_fixed_by_the_kind reluOp ⟨2, 2⟩).2.1 rfl).1,
    ((C27_num_params_is_fixed_by_the_kind reluOp ⟨2, 2⟩).2.1 rfl).2⟩,
   ⟨rfl, rfl,
    (C27_num_params_is_fixed_by_the_kind lstmOp ⟨2, 2⟩).2.2.2.2.2.2.2 ⟨5 / 2, 0, .TANH⟩
      rfl rfl⟩⟩

theorem marshalLoop_length (graph : Graph) (call : Nat → Int → Int → Stmt) (msg : String)
    (hcall : call = Stmt.setInput ∨ call = Stmt.setOutput)
    (indices : List Int) (start : Int) (cnt : Nat) (ss : List Stmt)
    (h : marshalLoop graph call msg indices start cnt = .ok ss) :
    (marshalCalls ss).length = indices.length := by
  refine (marshalLoop_calls graph call msg ?_ indices start cnt ss h).1
  rcases hcall with rfl | rfl <;> exact fun _ _ _ _ => rfl

theorem marshalLoop_end (graph : Graph) (call : Nat → Int → Int → Stmt) (msg : String)
    (hcall : call = Stmt.setInput ∨ call = Stmt.setOutput)
    (indices : List Int) (start : Int) (cnt : Nat) (ss : List Stmt)
    (h : marshalLoop graph call msg indices start cnt = .ok ss) (hne : indices ≠ [])
    (hfit : sumsInRange start (indices.map (tensorSizeAt graph)) = true) :
    marshalEnd ss = start + (indices.map (tensorSizeAt graph)).sum := by
  induction indices generalizing start cnt ss with
  | nil => exact absurd rfl hne
  | cons i rest ih =>
    simp only [marshalLoop, bind, Except.bind, pure, Except.pure] at h
    split at h
    · simp at h
    · rename_i t ht
      split at h
      · simp at h
      · rename_i ss' hss'
        simp only [Except.ok.injEq] at h
        subst h
        have hs : tensorSizeAt graph i = TensorSize t := tensorSizeAt_of_ok graph i t ht
        simp only [List.map_cons, sumsInRange, hs, Bool.and_eq_true] at hfit
        rw [wrapInt32_of_inIntRange _ hfit.1] at hss'
        have hlen := marshalLoop_length graph call msg hcall _ _ _ _ hss'
        have hc : marshalCalls ([call cnt start (TensorSize t), Stmt.checkStatus msg] ++ ss') =
            call cnt start (TensorSize t) :: marshalCalls ss' := by
          rcases hcall with rfl | rfl <;> simp [marshalCalls]
        cases rest with
        | nil =>
          have hnil : marshalCalls ss' = [] := List.eq_nil_of_length_eq_zero (by simpa using hlen)
          unfold marshalEnd
          rw [hc, hnil]
          rcases hcall with rfl | rfl <;> simp [hs]
        | cons j rest' =>
          have hrec := ih (start + TensorSize t) (cnt + 1) ss' hss' (by simp) hfit.2
          have hnn : marshalCalls ss' ≠ [] := by
            intro e
            rw [e] at hlen
            simp at hlen
          have hlast : (call cnt start (TensorSize t) :: marshalCalls ss').getLast? =
              (marshalCalls ss').getLast? := by
            cases hm : marshalCalls ss' with
            | nil => exact absurd hm hnn
            | cons a l => simp [List.getLast?_cons_cons]
          unfold marshalEnd at hrec ⊢
          rw [hc, hlast, hrec]
          simp only [List.map_cons, List.sum_cons, hs]
          omega

theorem marshalEnd_wrapped (opening : Stmt) (ss : List Stmt)
    (ho : marshalCalls [opening] = []) :
    marshalEnd ([opening] ++ ss ++ [Stmt.returnTrue]) = marshalEnd ss := by
  unfold marshalEnd
  rw [marshalCalls_append, marshalCalls_append, ho]
  simp [marshalCalls]

theorem marshalStart_length (graph : Graph) (indices : List Int) :
    marshalStart graph indices indices.length = (indices.map (tensorSizeAt graph)).sum := by
  simp [marshalStart]

theorem GenerateInputFunctions_ok (graph : Graph)
    (hv : ∀ i ∈ graph.Inputs, validIndex graph i) :
    ∃ ss, GenerateInputFunctions graph = .ok ss := by
  obtain ⟨ss, hss⟩ := marshalLoop_ok graph Stmt.setInput
    "ANeuralNetworksExecution_setInput failed" graph.Inputs 0 0 hv
  refine ⟨[Stmt.setInputOpen] ++ ss ++ [Stmt.returnTrue], ?_⟩
  simp [GenerateInputFunctions, bind, Except.bind, pure, Except.pure, hss]

theorem GenerateOutputFunctions_ok (graph : Graph)
    (hv : ∀ i ∈ graph.Outputs, validIndex graph i) :
    ∃ ss, GenerateOutputFunctions graph = .ok ss := by
  obtain ⟨ss, hss⟩ := marshalLoop_ok graph Stmt.setOutput
    "ANeuralNetworksExecution_setOutput failed" graph.Outputs 0 0 hv
  refine ⟨[Stmt.setOutputOpen] ++ ss ++ [Stmt.returnTrue], ?_⟩
  simp [GenerateOutputFunctions, bind, Except.bind, pure, Except.pure, hss]

theorem GenerateInputFunctions_end (graph : Graph)
    (hv : ∀ i ∈ graph.Inputs, validIndex graph i)
    (hfit : sumsInRange 0 (graph.Inputs.map (tensorSizeAt graph)) = true) :
    ∃ ss, GenerateInputFunctions graph = .ok ss ∧
      marshalEnd ss = (graph.Inputs.map (tensorSizeAt graph)).sum := by
  obtain ⟨ss, hss⟩ := marshalLoop_ok graph Stmt.setInput
    "ANeuralNetworksExecution_setInput failed" graph.Inputs 0 0 hv
  refine ⟨[Stmt.setInputOpen] ++ ss ++ [Stmt.returnTrue], ?_, ?_⟩
  · simp [GenerateInputFunctions, bind, Except.bind, pure, Except.pure, hss]
  · rw [marshalEnd_wrapped Stmt.setInputOpen ss rfl]
    cases hl : graph.Inputs with
    | nil =>
      rw [hl] at hss
      simp only [marshalLoop, Except.ok.injEq] at hss
      subst hss
      rfl
    | cons i rest =>
      rw [← hl, marshalLoop_end graph _ _ (Or.inl rfl) _ _ _ _ hss (by simp [hl]) hfit,
        Int.zero_add]

theorem GenerateOutputFunctions_end (graph : Graph)
    (hv : ∀ i ∈ graph.Outputs, validIndex graph i)
    (hfit : sumsInRange 0 (graph.Outputs.map (tensorSizeAt graph)) = true) :
    ∃ ss, GenerateOutputFunctions graph = .ok ss ∧
      marshalEnd ss = (graph.Outputs.map (tensorSizeAt graph)).sum := by
  obtain ⟨ss, hss⟩ := marshalLoop_ok graph Stmt.setOutput
    "ANeuralNetworksExecution_setOutput failed" graph.Outputs 0 0 hv
  refine ⟨[Stmt.setOutputOpen] ++ ss ++ [Stmt.returnTrue], ?_, ?_⟩
  · simp [GenerateOutputFunctions, bind, Except.bind, pure, Except.pure, hss]
  · rw [marshalEnd_wrapped Stmt.setOutputOpen ss rfl]
    cases hl : graph.Outputs with
    | nil =>
      rw [hl] at hss
      simp only [marshalLoop, Except.ok.injEq] at hss
      subst hss
      rfl
    | cons i rest =>
      rw [← hl, marshalLoop_end graph _ _ (Or.inr rfl) _ _ _ _ hss (by simp [hl]) hfit,
        Int.zero_add]

theorem TotalSize_eq (graph : Graph) (indices : List Int)
    (hv : ∀ i ∈ indices, validIndex graph i) :
    ModelGenJni.TotalSize graph indices =
      .ok (intSum 0 (indices.map (tensorSizeAt graph))) := by
  rw [ModelGenJni.TotalSize, TotalSizeLoop_eq graph indices 0 hv]

theorem TotalSize_of_sumsInRange (graph : Graph) (indices : List Int)
    (hv : ∀ i ∈ indices, validIndex graph i)
    (hfit : sumsInRange 0 (indices.map (tensorSizeAt graph)) = true) :
    ModelGenJni.TotalSize graph indices = .ok ((indices.map (tensorSizeAt graph)).sum) := by
  rw [TotalSize_eq graph indices hv, intSum_of_sumsInRange _ _ hfit, Int.zero_add]

theorem tensorAt_ok_iff (graph : Graph) (i : Int) :
    (∃ t, tensorAt graph i = .ok t) ↔ validIndex graph i := by
  constructor
  · rintro ⟨t, ht⟩
    unfold tensorAt at ht
    split at ht
    · rename_i h0
      split at ht
      · rename_i t' hget
        rw [List.get?_eq_getElem?] at hget
        have := (List.getElem?_eq_some_iff.mp hget).1
        exact ⟨h0, by omega⟩
      · simp at ht
    · simp at ht
  · exact tensorAt_ok_of_validIndex graph i

/-- C21 (counterexample): for the three valid graph-level inputs of 1 GiB each,
`ModelGenJni::TotalSize` is `-1073741824`, while the sum of `TensorSize` over the three
tensors is `3221225472`, a value outside the range of the `int` that holds the total. -/
theorem C21_total_size_overflows_int :
    (∀ i ∈ gibGraph.Inputs, validIndex gibGraph i) ∧
    (∀ i ∈ gibGraph.Inputs, tensorSizeAt gibGraph i = 1073741824) ∧
    ModelGenJni.TotalSize gibGraph gibGraph.Inputs = .ok (-1073741824) ∧
    (gibGraph.Inputs.map (tensorSizeAt gibGraph)).sum = 3221225472 ∧
    inIntRange ((gibGraph.Inputs.map (tensorSizeAt gibGraph)).sum) = false ∧
    (-1073741824 : Int) ≠ (gibGraph.Inputs.map (tensorSizeAt gibGraph)).sum :=
  ⟨by decide, by decide, rfl, by decide, by decide, by decide⟩

/-- C21 (amended): for every graph and every index list of valid tensor indices,
`ModelGenJni::TotalSize` of the list is the total of `TensorSize` over the listed tensors as
accumulated in `int`; when the running sums stay in the range of `int` it is the sum of
`TensorSize` over the listed tensors, and for the graph's input list (respectively output
list) it is the offset at which the generated `SetInput` (respectively `SetOutput`)
function ends. -/
theorem C21_TotalSize_absent_overflow (graph : Graph) :
    (∀ indices : List Int, (∀ i ∈ indices, validIndex graph i) →
      ModelGenJni.TotalSize graph indices =
        .ok (intSum 0 (indices.map (tensorSizeAt graph))) ∧
      (∀ i ∈ indices, ∃ t, tensorAt graph i = .ok t ∧ tensorSizeAt graph i = TensorSize t) ∧
      (sumsInRange 0 (indices.map (tensorSizeAt graph)) = true →
        ModelGenJni.TotalSize graph indices =
          .ok ((indices.map (tensorSizeAt graph)).sum))) ∧
    ((∀ i ∈ graph.Inputs, validIndex graph i) →
      sumsInRange 0 (graph.Inputs.map (tensorSizeAt graph)) = true →
      ∃ total ss, ModelGenJni.TotalSize graph graph.Inputs = .ok total ∧
        GenerateInputFunctions graph = .ok ss ∧ marshalEnd ss = total ∧
        marshalStart graph graph.Inputs graph.Inputs.length = total) ∧
    ((∀ i ∈ graph.Outputs, validIndex graph i) →
      sumsInRange 0 (graph.Outputs.map (tensorSizeAt graph)) = true →
      ∃ total ss, ModelGenJni.TotalSize graph graph.Outputs = .ok total ∧
        GenerateOutputFunctions graph = .ok ss ∧ marshalEnd ss = total ∧
        marshalStart graph graph.Outputs graph.Outputs.length = total) := by
  refine ⟨?_, ?_, ?_⟩
  · intro indices hv
    refine ⟨TotalSize_eq graph indices hv, ?_, TotalSize_of_sumsInRange graph indices hv⟩
    intro i hi
    obtain ⟨t, ht⟩ := tensorAt_ok_of_validIndex graph i (hv i hi)
    exact ⟨t, ht, tensorSizeAt_of_ok graph i t ht⟩
  · intro hv hfit
    obtain ⟨ss, h1, h2⟩ := GenerateInputFunctions_end graph hv hfit
    exact ⟨_, ss, TotalSize_of_sumsInRange graph _ hv hfit, h1, h2,
      marshalStart_length graph _⟩
  · intro hv hfit
    obtain ⟨ss, h1, h2⟩ := GenerateOutputFunctions_end graph hv hfit
    exact ⟨_, ss, TotalSize_of_sumsInRange graph _ hv hfit, h1, h2,
      marshalStart_length graph _⟩

/-- C21 (amended) at the scenario graph with the input list `[0, 1]`: the running sums 32
and 64 are in the range of `int`, and the total is 64. -/
theorem C21_TotalSize_absent_overflow_witness :
    ((∀ i ∈ twoInputGraph.Inputs, validIndex twoInputGraph i) ∧
     sumsInRange 0 (twoInputGraph.Inputs.map (tensorSizeAt twoInputGraph)) = true ∧
     ModelGenJni.TotalSize twoInputGraph twoInputGraph.Inputs = .ok 64) ∧
    ModelGenJni.TotalSize twoInputGraph twoInputGraph.Inputs =
      .ok ((twoInputGraph.Inputs.map (tensorSizeAt twoInputGraph)).sum) ∧
    (∀ i ∈ twoInputGraph.Inputs, ∃ t, tensorAt twoInputGraph i = .ok t ∧
      tensorSizeAt twoInputGraph i = TensorSize t) ∧
    (∃ total ss, ModelGenJni.TotalSize twoInputGraph twoInputGraph.Inputs = .ok total ∧
       GenerateInputFunctions twoInputGraph = .ok ss ∧ marshalEnd ss = total ∧
       marshalStart twoInputGraph twoInputGraph.Inputs twoInputGraph.Inputs.length = total) :=
  ⟨⟨by decide, by decide, rfl⟩,
   ((C21_TotalSize_absent_overflow twoInputGraph).1 twoInputGraph.Inputs
     (by decide)).2.2 (by decide),
   ((C21_TotalSize_absent_overflow twoInputGraph).1 twoInputGraph.Inputs
     (by decide)).2.1,
   (C21_TotalSize_absent_overflow twoInputGraph).2.1 (by decide) (by decide)⟩

/-- C30: a tensor lookup succeeds exactly for a valid index; so for every graph whose
graph-level input and output indices are all valid, every lookup of
`GenerateInputFunctions`, `GenerateOutputFunctions` and `ModelGenJni::TotalSize` succeeds and
the three functions return a result, never the out-of-range error. -/
theorem C30_valid_graph_indices_stay_in_range (graph : Graph)
    (hin : ∀ i ∈ graph.Inputs, validIndex graph i)
    (hout : ∀ i ∈ graph.Outputs, validIndex graph i) :
    (∀ i : Int, (∃ t, tensorAt graph i = .ok t) ↔ validIndex graph i) ∧
    (∀ i ∈ graph.Inputs ++ graph.Outputs, ∃ t, tensorAt graph i = .ok t) ∧
    (∃ ss, GenerateInputFunctions graph = .ok ss) ∧
    (∃ ss, GenerateOutputFunctions graph = .ok ss) ∧
    (∃ n, ModelGenJni.TotalSize graph graph.Inputs = .ok n) ∧
    (∃ n, ModelGenJni.TotalSize graph graph.Outputs = .ok n) ∧
    (∀ j, GenerateInputFunctions graph ≠ .error (.outOfRange j) ∧
      GenerateOutputFunctions graph ≠ .error (.outOfRange j) ∧
      ModelGenJni.TotalSize graph graph.Inputs ≠ .error (.outOfRange j) ∧
      ModelGenJni.TotalSize graph graph.Outputs ≠ .error (.outOfRange j)) := by
  obtain ⟨s1, h1⟩ := GenerateInputFunctions_ok graph hin
  obtain ⟨s2, h2⟩ := GenerateOutputFunctions_ok graph hout
  have h3 := TotalSize_eq graph _ hin
  have h4 := TotalSize_eq graph _ hout
  refine ⟨tensorAt_ok_iff graph, ?_, ⟨s1, h1⟩, ⟨s2, h2⟩, ⟨_, h3⟩, ⟨_, h4⟩, ?_⟩
  · intro i hi
    rcases List.mem_append.mp hi with h | h
    · exact tensorAt_ok_of_validIndex graph i (hin i h)
    · exact tensorAt_ok_of_validIndex graph i (hout i h)
  · intro j
    rw [h1, h2, h3, h4]
    exact ⟨by simp, by simp, by simp, by simp⟩

/-- C30 at the scenario graph with the input list `[0, 1]`. -/
theorem C30_valid_graph_indices_stay_in_range_witness :
    ((∀ i ∈ twoInputGraph.Inputs, validIndex twoInputGraph i) ∧
     (∀ i ∈ twoInputGraph.Outputs, validIndex twoInputGraph i)) ∧
    ((∃ ss, GenerateInputFunctions twoInputGraph = .ok ss) ∧
     (∃ ss, GenerateOutputFunctions twoInputGraph = .ok ss) ∧
     (∃ n, ModelGenJni.TotalSize twoInputGraph twoInputGraph.Inputs = .ok n) ∧
     (∃ n, ModelGenJni.TotalSize twoInputGraph twoInputGraph.Outputs = .ok n)) :=
  ⟨⟨by decide, by decide⟩,
   (C30_valid_graph_indices_stay_in_range twoInputGraph (by decide) (by decide)).2.2.1,
   (C30_valid_graph_indices_stay_in_range twoInputGraph (by decide) (by decide)).2.2.2.1,
   (C30_valid_graph_indices_stay_in_range twoInputGraph (by decide) (by decide)).2.2.2.2.1,
   (C30_valid_graph_indices_stay_in_range twoInputGraph (by decide) (by decide)).2.2.2.2.2.1⟩

end nnt
